import Mathlib

/-!
# TinyUSB host hub class driver (`src/host/hub.c`)

A shallow embedding of the hub driver: the per-hub slot table, the three
control-request builders, the configuration sequencer, the status poller and
the port event callbacks.  Every function of `hub.c` is a Lean function that
threads a `World` (the driver's static storage, the DMA buffers and the log of
calls made into the rest of the host stack).  The return value of each call
into the host stack is supplied by an `Env`, which may depend on everything
that happened before.

Machine integers are natural numbers; `% 256` marks each place where the C
code narrows a value to `uint8_t`.
-/

set_option linter.unusedVariables false

namespace Hub

/-! ## Constants of headers that are not part of `src/` -/

/-- Modelled from the spec: `tusb_types.h` is absent.  Result code of a
completed transfer; only `SUCCESS` is distinguished by the driver. -/
inductive xfer_result_t
  | SUCCESS
  | FAILED
  | STALLED
  | TIMEOUT
  | INVALID
  deriving DecidableEq, Repr

/-- Modelled from the spec: `tusb_types.h` is absent; recipient code DEVICE of
a USB 2.0 setup packet. -/
def TUSB_REQ_RCPT_DEVICE : Nat := 0
/-- Modelled from the spec: `tusb_types.h` is absent; recipient code OTHER of a
USB 2.0 setup packet. -/
def TUSB_REQ_RCPT_OTHER : Nat := 3
/-- Modelled from the spec: `tusb_types.h` is absent; request type CLASS. -/
def TUSB_REQ_TYPE_CLASS : Nat := 1
/-- Modelled from the spec: `tusb_types.h` is absent; direction host to device. -/
def TUSB_DIR_OUT : Nat := 0
/-- Modelled from the spec: `tusb_types.h` is absent; direction device to host. -/
def TUSB_DIR_IN : Nat := 1
/-- Modelled from the spec: `tusb_types.h` is absent; interface class code of a hub. -/
def TUSB_CLASS_HUB : Nat := 9
/-- Modelled from the spec: `tusb_types.h` is absent; descriptor type ENDPOINT. -/
def TUSB_DESC_ENDPOINT : Nat := 5
/-- Modelled from the spec: `tusb_types.h` is absent; transfer type INTERRUPT. -/
def TUSB_XFER_INTERRUPT : Nat := 3

/-- Modelled from the spec: `hub.h` is absent; hub class request codes of the
USB 2.0 hub class specification. -/
def HUB_REQUEST_GET_STATUS : Nat := 0
/-- Modelled from the spec: `hub.h` is absent; see `HUB_REQUEST_GET_STATUS`. -/
def HUB_REQUEST_CLEAR_FEATURE : Nat := 1
/-- Modelled from the spec: `hub.h` is absent; see `HUB_REQUEST_GET_STATUS`. -/
def HUB_REQUEST_SET_FEATURE : Nat := 3
/-- Modelled from the spec: `hub.h` is absent; see `HUB_REQUEST_GET_STATUS`. -/
def HUB_REQUEST_GET_DESCRIPTOR : Nat := 6

/-- Modelled from the spec: `hub.h` is absent; hub class feature selectors of
the USB 2.0 hub class specification. -/
def HUB_FEATURE_HUB_LOCAL_POWER_CHANGE : Nat := 0
/-- Modelled from the spec: `hub.h` is absent; see `HUB_FEATURE_PORT_RESET`. -/
def HUB_FEATURE_HUB_OVER_CURRENT_CHANGE : Nat := 1
/-- Modelled from the spec: `hub.h` is absent; port feature selector. -/
def HUB_FEATURE_PORT_RESET : Nat := 4
/-- Modelled from the spec: `hub.h` is absent; see `HUB_FEATURE_PORT_RESET`. -/
def HUB_FEATURE_PORT_POWER : Nat := 8
/-- Modelled from the spec: `hub.h` is absent; see `HUB_FEATURE_PORT_RESET`. -/
def HUB_FEATURE_PORT_CONNECTION_CHANGE : Nat := 16
/-- Modelled from the spec: `hub.h` is absent; see `HUB_FEATURE_PORT_RESET`. -/
def HUB_FEATURE_PORT_ENABLE_CHANGE : Nat := 17
/-- Modelled from the spec: `hub.h` is absent; see `HUB_FEATURE_PORT_RESET`. -/
def HUB_FEATURE_PORT_SUSPEND_CHANGE : Nat := 18
/-- Modelled from the spec: `hub.h` is absent; see `HUB_FEATURE_PORT_RESET`. -/
def HUB_FEATURE_PORT_OVER_CURRENT_CHANGE : Nat := 19
/-- Modelled from the spec: `hub.h` is absent; see `HUB_FEATURE_PORT_RESET`. -/
def HUB_FEATURE_PORT_RESET_CHANGE : Nat := 20

/-- Modelled from the spec: `hcd.h` is absent; the two event kinds the driver
hands to the host-controller event queue. -/
inductive hcd_eventid_t
  | HCD_EVENT_DEVICE_ATTACH
  | HCD_EVENT_DEVICE_REMOVE
  deriving DecidableEq, Repr

/-- Build options of `tusb_config.h` that the driver reads, and the size of the
hub descriptor type `hub_desc_cs_t` that the absent `hub.h` declares. -/
structure Cfg where
  CFG_TUH_DEVICE_MAX : Nat
  CFG_TUH_HUB : Nat
  sizeof_hub_desc_cs_t : Nat
  deriving DecidableEq, Repr

/-! ## Data model -/

/-- Modelled from the spec: `hub.h` is absent.  Response of a port GET_STATUS: a
16-bit current-state word followed by a 16-bit change word. -/
structure hub_port_status_response_t where
  status : Nat
  change : Nat
  deriving DecidableEq, Repr

/-- Modelled from the spec: `hub.h` is absent.  Response of a hub GET_STATUS: a
16-bit status word followed by a 16-bit change word. -/
structure hub_status_response_t where
  status : Nat
  change : Nat
  deriving DecidableEq, Repr

/-- The per-hub record `hub_interface_t` (hub.c, lines 43-53). -/
structure hub_interface_t where
  itf_num : Nat
  ep_in : Nat
  bNbrPorts : Nat
  bPwrOn2PwrGood : Nat
  port_status : hub_port_status_response_t
  deriving DecidableEq, Repr

/-- The record left by `tu_memclr`: every byte zero. -/
def hub_interface_t.zero : hub_interface_t :=
  { itf_num := 0, ep_in := 0, bNbrPorts := 0, bPwrOn2PwrGood := 0,
    port_status := { status := 0, change := 0 } }

/-- A pointer to a transfer buffer.  `status_change i` and `ctrl_buf i` are the
two members of `hub_epbufs[i]` (hub.c, lines 55-61). -/
inductive BufPtr
  | null
  | status_change (i : Int)
  | ctrl_buf (i : Int)
  | other (n : Nat)
  deriving DecidableEq, Repr

/-- The completion callbacks that can be stored in a `tuh_xfer_t`: the seven
static callbacks of hub.c, or a callback of some other module. -/
inductive Callback
  | config_set_port_power
  | config_port_power_complete
  | get_status_complete
  | port_get_status_complete
  | port_clear_feature_complete_stub
  | connection_clear_conn_change_complete
  | connection_port_reset_complete
  | other (n : Nat)
  deriving DecidableEq, Repr

/-- Modelled from the spec: `tusb_types.h` is absent.  The setup packet of a
control transfer, with the three bit-fields of `bmRequestType` kept apart. -/
structure tusb_control_request_t where
  recipient : Nat
  type : Nat
  direction : Nat
  bRequest : Nat
  wValue : Nat
  wIndex : Nat
  wLength : Nat
  deriving DecidableEq, Repr

/-- The transfer descriptor `struct tuh_xfer_s` (usbh.h, lines 56-72). -/
structure tuh_xfer_t where
  daddr : Nat
  ep_addr : Nat
  result : xfer_result_t
  actual_len : Nat
  setup : tusb_control_request_t
  buffer : BufPtr
  complete_cb : Callback
  user_data : Nat
  deriving DecidableEq, Repr

/-- Modelled from the spec: `hcd.h` is absent.  The event record handed to the
host-controller event queue. -/
structure hcd_event_t where
  rhport : Nat
  event_id : hcd_eventid_t
  hub_addr : Nat
  hub_port : Nat
  deriving DecidableEq, Repr

/-- Modelled from the spec: `tusb_types.h` is absent.  The fields of an
interface descriptor that `hub_open` reads. -/
structure tusb_desc_interface_t where
  bInterfaceNumber : Nat
  bInterfaceClass : Nat
  bInterfaceSubClass : Nat
  bInterfaceProtocol : Nat
  deriving DecidableEq, Repr

/-- Modelled from the spec: `tusb_types.h` is absent.  The fields of an
endpoint descriptor that `hub_open` reads. -/
structure tusb_desc_endpoint_t where
  bDescriptorType : Nat
  bEndpointAddress : Nat
  xfer : Nat
  deriving DecidableEq, Repr

/-- One call from hub.c into the rest of the host stack, with the value the
call returned when it returns one. -/
inductive Call
  | tuh_control_xfer (xfer : tuh_xfer_t) (ret : Bool)
  | usbh_edpt_claim (daddr ep_addr : Nat) (ret : Bool)
  | usbh_edpt_xfer (daddr ep_addr : Nat) (buffer : BufPtr) (total_bytes : Nat) (ret : Bool)
  | usbh_edpt_release (daddr ep_addr : Nat)
  | usbh_driver_set_config_complete (daddr itf_num : Nat)
  | hcd_event_handler (event : hcd_event_t) (in_isr : Bool)
  | tuh_edpt_open (daddr : Nat) (desc_ep : tusb_desc_endpoint_t) (ret : Bool)
  deriving DecidableEq, Repr

/-- The rest of the host stack as seen from hub.c: what each call returns,
given the calls made so far. -/
structure Env where
  tuh_control_xfer : List Call → tuh_xfer_t → Bool
  usbh_edpt_claim : List Call → Nat → Nat → Bool
  usbh_edpt_xfer : List Call → Nat → Nat → BufPtr → Nat → Bool
  tuh_edpt_open : List Call → Nat → tusb_desc_endpoint_t → Bool
  usbh_get_rhport : Nat → Nat

/-- The state hub.c runs in: the slot table `hub_itfs` (indexed as the C array
is, by `daddr-1-CFG_TUH_DEVICE_MAX`), the bytes behind each buffer pointer, and
the calls made into the host stack so far, oldest first. -/
structure World where
  hub_itfs : Int → hub_interface_t
  mem : BufPtr → Nat → Nat
  trace : List Call

/-- Append one call to the log. -/
def World.log (w : World) (c : Call) : World :=
  { w with trace := w.trace ++ [c] }

/-! ## Helpers of headers that are not part of `src/` -/

/-- Modelled from the spec: `tusb_common.h` is absent.  `tu_bit_test(value, pos)`
tells whether bit `pos` of `value` is set. -/
def tu_bit_test (value pos : Nat) : Bool := value.testBit pos

/-- Modelled from the spec: `tusb_common.h` is absent.  On the little-endian
targets of the stack `tu_le16toh` is the identity on 16-bit values. -/
def tu_le16toh (v : Nat) : Nat := v

/-- Modelled from the spec: `tusb_common.h` is absent; see `tu_le16toh`. -/
def tu_htole16 (v : Nat) : Nat := v

/-- Read a byte (`uint8_t`) through a buffer pointer. -/
def World.byte (w : World) (p : BufPtr) (off : Nat) : Nat := w.mem p off % 256

/-- Read a little-endian 16-bit word through a buffer pointer. -/
def World.word (w : World) (p : BufPtr) (off : Nat) : Nat :=
  w.byte p off + 256 * w.byte p (off + 1)

/-- Modelled from the spec: `hub.h` is absent.  The hub descriptor
`hub_desc_cs_t` has `bNbrPorts` at byte 2. -/
def hub_desc_cs_t.bNbrPorts (w : World) (p : BufPtr) : Nat := w.byte p 2

/-- Modelled from the spec: `hub.h` is absent.  The hub descriptor
`hub_desc_cs_t` has `bPwrOn2PwrGood` at byte 5. -/
def hub_desc_cs_t.bPwrOn2PwrGood (w : World) (p : BufPtr) : Nat := w.byte p 5

/-- Load a `hub_port_status_response_t` through a buffer pointer. -/
def World.load_port_status (w : World) (p : BufPtr) : hub_port_status_response_t :=
  { status := w.word p 0, change := w.word p 2 }

/-- Load a `hub_status_response_t` through a buffer pointer. -/
def World.load_hub_status (w : World) (p : BufPtr) : hub_status_response_t :=
  { status := w.word p 0, change := w.word p 2 }

/-- Modelled from the spec: `hub.h` is absent; bit 0 of the current-state word. -/
def hub_port_status_response_t.status_connection (s : hub_port_status_response_t) : Bool :=
  s.status.testBit 0
/-- Modelled from the spec: `hub.h` is absent; bit 0 of the change word. -/
def hub_port_status_response_t.change_connection (s : hub_port_status_response_t) : Bool :=
  s.change.testBit 0
/-- Modelled from the spec: `hub.h` is absent; bit 1 of the change word. -/
def hub_port_status_response_t.change_port_enable (s : hub_port_status_response_t) : Bool :=
  s.change.testBit 1
/-- Modelled from the spec: `hub.h` is absent; bit 2 of the change word. -/
def hub_port_status_response_t.change_suspend (s : hub_port_status_response_t) : Bool :=
  s.change.testBit 2
/-- Modelled from the spec: `hub.h` is absent; bit 3 of the change word. -/
def hub_port_status_response_t.change_over_current (s : hub_port_status_response_t) : Bool :=
  s.change.testBit 3
/-- Modelled from the spec: `hub.h` is absent; bit 4 of the change word. -/
def hub_port_status_response_t.change_reset (s : hub_port_status_response_t) : Bool :=
  s.change.testBit 4
/-- Modelled from the spec: `hub.h` is absent; bit 0 of the hub change word. -/
def hub_status_response_t.change_local_power_source (s : hub_status_response_t) : Bool :=
  s.change.testBit 0
/-- Modelled from the spec: `hub.h` is absent; bit 1 of the hub change word. -/
def hub_status_response_t.change_over_current (s : hub_status_response_t) : Bool :=
  s.change.testBit 1

/-! ## Calls into the host stack -/

/-- The external `tuh_control_xfer` (usbh.h, line 252): queue a control
transfer; the host stack says whether it could be queued. -/
def tuh_control_xfer (env : Env) (xfer : tuh_xfer_t) (w : World) : Bool × World :=
  let r := env.tuh_control_xfer w.trace xfer
  (r, w.log (Call.tuh_control_xfer xfer r))

/-- The external `usbh_edpt_claim`. -/
def usbh_edpt_claim (env : Env) (daddr ep_addr : Nat) (w : World) : Bool × World :=
  let r := env.usbh_edpt_claim w.trace daddr ep_addr
  (r, w.log (Call.usbh_edpt_claim daddr ep_addr r))

/-- The external `usbh_edpt_xfer`. -/
def usbh_edpt_xfer (env : Env) (daddr ep_addr : Nat) (buffer : BufPtr) (total_bytes : Nat)
    (w : World) : Bool × World :=
  let r := env.usbh_edpt_xfer w.trace daddr ep_addr buffer total_bytes
  (r, w.log (Call.usbh_edpt_xfer daddr ep_addr buffer total_bytes r))

/-- The external `usbh_edpt_release`. -/
def usbh_edpt_release (daddr ep_addr : Nat) (w : World) : World :=
  w.log (Call.usbh_edpt_release daddr ep_addr)

/-- The external `usbh_driver_set_config_complete`. -/
def usbh_driver_set_config_complete (daddr itf_num : Nat) (w : World) : World :=
  w.log (Call.usbh_driver_set_config_complete daddr itf_num)

/-- The external `hcd_event_handler`. -/
def hcd_event_handler (event : hcd_event_t) (in_isr : Bool) (w : World) : World :=
  w.log (Call.hcd_event_handler event in_isr)

/-- The external `tuh_edpt_open`. -/
def tuh_edpt_open (env : Env) (daddr : Nat) (desc_ep : tusb_desc_endpoint_t) (w : World) :
    Bool × World :=
  let r := env.tuh_edpt_open w.trace daddr desc_ep
  (r, w.log (Call.tuh_edpt_open daddr desc_ep r))

/-! ## hub.c -/

/-- Index of the slot of `daddr` in `hub_itfs` and `hub_epbufs`
(hub.c, lines 63-69): `daddr-1-CFG_TUH_DEVICE_MAX`, in C `int` arithmetic. -/
def hub_index (c : Cfg) (daddr : Nat) : Int :=
  (daddr : Int) - 1 - (c.CFG_TUH_DEVICE_MAX : Int)

/-- `get_hub_itf` (hub.c, lines 63-65). -/
def get_hub_itf (c : Cfg) (w : World) (daddr : Nat) : hub_interface_t :=
  w.hub_itfs (hub_index c daddr)

/-- Store through the pointer returned by `get_hub_itf`. -/
def set_hub_itf (c : Cfg) (w : World) (daddr : Nat) (h : hub_interface_t) : World :=
  { w with hub_itfs := Function.update w.hub_itfs (hub_index c daddr) h }

/-- `hub_port_clear_feature` (hub.c, lines 93-119). -/
def hub_port_clear_feature (env : Env) (hub_addr hub_port feature : Nat)
    (complete_cb : Callback) (user_data : Nat) (w : World) : Bool × World :=
  let request : tusb_control_request_t :=
    { recipient := if hub_port = 0 then TUSB_REQ_RCPT_DEVICE else TUSB_REQ_RCPT_OTHER,
      type := TUSB_REQ_TYPE_CLASS,
      direction := TUSB_DIR_OUT,
      bRequest := HUB_REQUEST_CLEAR_FEATURE,
      wValue := feature,
      wIndex := hub_port,
      wLength := 0 }
  let xfer : tuh_xfer_t :=
    { daddr := hub_addr, ep_addr := 0, result := xfer_result_t.SUCCESS, actual_len := 0,
      setup := request, buffer := BufPtr.null, complete_cb := complete_cb,
      user_data := user_data }
  let r := tuh_control_xfer env xfer w
  if r.1 then (true, r.2) else (false, r.2)

/-- `hub_port_set_feature` (hub.c, lines 121-147). -/
def hub_port_set_feature (env : Env) (hub_addr hub_port feature : Nat)
    (complete_cb : Callback) (user_data : Nat) (w : World) : Bool × World :=
  let request : tusb_control_request_t :=
    { recipient := if hub_port = 0 then TUSB_REQ_RCPT_DEVICE else TUSB_REQ_RCPT_OTHER,
      type := TUSB_REQ_TYPE_CLASS,
      direction := TUSB_DIR_OUT,
      bRequest := HUB_REQUEST_SET_FEATURE,
      wValue := feature,
      wIndex := hub_port,
      wLength := 0 }
  let xfer : tuh_xfer_t :=
    { daddr := hub_addr, ep_addr := 0, result := xfer_result_t.SUCCESS, actual_len := 0,
      setup := request, buffer := BufPtr.null, complete_cb := complete_cb,
      user_data := user_data }
  let r := tuh_control_xfer env xfer w
  if r.1 then (true, r.2) else (false, r.2)

/-- `hub_port_get_status` (hub.c, lines 149-175). -/
def hub_port_get_status (env : Env) (hub_addr hub_port : Nat) (resp : BufPtr)
    (complete_cb : Callback) (user_data : Nat) (w : World) : Bool × World :=
  let request : tusb_control_request_t :=
    { recipient := if hub_port = 0 then TUSB_REQ_RCPT_DEVICE else TUSB_REQ_RCPT_OTHER,
      type := TUSB_REQ_TYPE_CLASS,
      direction := TUSB_DIR_IN,
      bRequest := HUB_REQUEST_GET_STATUS,
      wValue := 0,
      wIndex := hub_port,
      wLength := tu_htole16 4 }
  let xfer : tuh_xfer_t :=
    { daddr := hub_addr, ep_addr := 0, result := xfer_result_t.SUCCESS, actual_len := 0,
      setup := request, buffer := resp, complete_cb := complete_cb,
      user_data := user_data }
  let r := tuh_control_xfer env xfer w
  if r.1 then (true, r.2) else (false, r.2)

/-- Modelled from the spec: `hub.h` is absent.  `hub_get_status` is the port
GET_STATUS addressed to the hub itself, port 0 ("issue get_status on the hub,
recipient = device"). -/
def hub_get_status (env : Env) (hub_addr : Nat) (resp : BufPtr)
    (complete_cb : Callback) (user_data : Nat) (w : World) : Bool × World :=
  hub_port_get_status env hub_addr 0 resp complete_cb user_data w

/-- Modelled from the spec: `hub.h` is absent.  `hub_clear_feature` is
CLEAR_FEATURE addressed to the hub itself, port 0. -/
def hub_clear_feature (env : Env) (hub_addr feature : Nat)
    (complete_cb : Callback) (user_data : Nat) (w : World) : Bool × World :=
  hub_port_clear_feature env hub_addr 0 feature complete_cb user_data w

/-- Modelled from the spec: `hub.h` is absent.  `hub_port_reset` is
SET_FEATURE(PORT_RESET) on the port ("issue a PORT_RESET feature-set"). -/
def hub_port_reset (env : Env) (hub_addr hub_port : Nat)
    (complete_cb : Callback) (user_data : Nat) (w : World) : Bool × World :=
  hub_port_set_feature env hub_addr hub_port HUB_FEATURE_PORT_RESET complete_cb user_data w

/-- `hub_init` (hub.c, lines 180-183): clear the whole slot table. -/
def hub_init (w : World) : Bool × World :=
  (true, { w with hub_itfs := fun _ => hub_interface_t.zero })

/-- `hub_open` (hub.c, lines 189-210).  `desc_ep` is the descriptor that
follows `itf_desc` (`tu_desc_next`); the two descriptor types are 9 and 7 bytes
long. -/
def hub_open (c : Cfg) (env : Env) (rhport dev_addr : Nat) (itf_desc : tusb_desc_interface_t)
    (desc_ep : tusb_desc_endpoint_t) (max_len : Nat) (w : World) : Bool × World :=
  if ¬ (TUSB_CLASS_HUB = itf_desc.bInterfaceClass ∧ 0 = itf_desc.bInterfaceSubClass) then
    (false, w)
  else if ¬ (itf_desc.bInterfaceProtocol ≤ 1) then (false, w)
  else
    let drv_len := 9 + 7
    if ¬ (drv_len ≤ max_len) then (false, w)
    else if ¬ (TUSB_DESC_ENDPOINT = desc_ep.bDescriptorType ∧
        TUSB_XFER_INTERRUPT = desc_ep.xfer) then (false, w)
    else
      let r := tuh_edpt_open env dev_addr desc_ep w
      if ¬ r.1 then (false, r.2)
      else
        let p_hub := get_hub_itf c r.2 dev_addr
        let p_hub := { p_hub with itf_num := itf_desc.bInterfaceNumber }
        let p_hub := { p_hub with ep_in := desc_ep.bEndpointAddress }
        (true, set_hub_itf c r.2 dev_addr p_hub)

/-- `hub_close` (hub.c, lines 212-220). -/
def hub_close (c : Cfg) (dev_addr : Nat) (w : World) : World :=
  if ¬ (dev_addr > c.CFG_TUH_DEVICE_MAX) then w
  else
    let p_hub := get_hub_itf c w dev_addr
    if p_hub.ep_in ≠ 0 then set_hub_itf c w dev_addr hub_interface_t.zero
    else w

/-- `hub_edpt_status_xfer` (hub.c, lines 222-233): arm the status poller. -/
def hub_edpt_status_xfer (c : Cfg) (env : Env) (daddr : Nat) (w : World) : Bool × World :=
  let p_hub := get_hub_itf c w daddr
  let status_change := BufPtr.status_change (hub_index c daddr)
  let r := usbh_edpt_claim env daddr p_hub.ep_in w
  if ¬ r.1 then (false, r.2)
  else
    let r2 := usbh_edpt_xfer env daddr p_hub.ep_in status_change 1 r.2
    if ¬ r2.1 then (false, usbh_edpt_release daddr p_hub.ep_in r2.2)
    else (true, r2.2)

/-- `hub_set_config` (hub.c, lines 241-270). -/
def hub_set_config (c : Cfg) (env : Env) (dev_addr itf_num : Nat) (w : World) : Bool × World :=
  let p_hub := get_hub_itf c w dev_addr
  if ¬ (itf_num = p_hub.itf_num) then (false, w)
  else
    let request : tusb_control_request_t :=
      { recipient := TUSB_REQ_RCPT_DEVICE,
        type := TUSB_REQ_TYPE_CLASS,
        direction := TUSB_DIR_IN,
        bRequest := HUB_REQUEST_GET_DESCRIPTOR,
        wValue := 0,
        wIndex := 0,
        wLength := c.sizeof_hub_desc_cs_t }
    let xfer : tuh_xfer_t :=
      { daddr := dev_addr, ep_addr := 0, result := xfer_result_t.SUCCESS, actual_len := 0,
        setup := request, buffer := BufPtr.ctrl_buf (hub_index c dev_addr),
        complete_cb := Callback.config_set_port_power, user_data := 0 }
    let r := tuh_control_xfer env xfer w
    if ¬ r.1 then (false, r.2) else (true, r.2)

/-- `config_set_port_power` (hub.c, lines 272-289). -/
def config_set_port_power (c : Cfg) (env : Env) (xfer : tuh_xfer_t) (w : World) : World :=
  if ¬ (xfer_result_t.SUCCESS = xfer.result) then w
  else
    let daddr := xfer.daddr
    let p_hub := get_hub_itf c w daddr
    let ctrl_buf := BufPtr.ctrl_buf (hub_index c daddr)
    let p_hub := { p_hub with bNbrPorts := hub_desc_cs_t.bNbrPorts w ctrl_buf }
    let p_hub := { p_hub with bPwrOn2PwrGood := hub_desc_cs_t.bPwrOn2PwrGood w ctrl_buf }
    let w := set_hub_itf c w daddr p_hub
    let hub_port := 1
    (hub_port_set_feature env daddr hub_port HUB_FEATURE_PORT_POWER
      Callback.config_port_power_complete 0 w).2

/-- `config_port_power_complete` (hub.c, lines 291-311). -/
def config_port_power_complete (c : Cfg) (env : Env) (xfer : tuh_xfer_t) (w : World) : World :=
  if ¬ (xfer_result_t.SUCCESS = xfer.result) then w
  else
    let daddr := xfer.daddr
    let p_hub := get_hub_itf c w daddr
    if xfer.setup.wIndex = p_hub.bNbrPorts then
      let w := (hub_edpt_status_xfer c env daddr w).2
      usbh_driver_set_config_complete daddr (get_hub_itf c w daddr).itf_num w
    else
      let hub_port := (xfer.setup.wIndex + 1) % 256
      (hub_port_set_feature env daddr hub_port HUB_FEATURE_PORT_POWER
        Callback.config_port_power_complete 0 w).2

/-- The `for` loop of `hub_xfer_cb` (hub.c, lines 344-349), entered with the
loop variable at `port`.  `port++` is an increment of a `uint8_t`.  The result
is `none` when `fuel` iterations did not end the loop. -/
def hub_xfer_cb_loop (c : Cfg) (env : Env) (daddr status_change : Nat) :
    Nat → Nat → World → Option (Bool × World)
  | 0, _, _ => none
  | fuel + 1, port, w =>
    if port ≤ (get_hub_itf c w daddr).bNbrPorts then
      if tu_bit_test status_change port then
        some (hub_port_get_status env daddr port (BufPtr.ctrl_buf (hub_index c daddr))
          Callback.port_get_status_complete 0 w)
      else hub_xfer_cb_loop c env daddr status_change fuel ((port + 1) % 256) w
    else some (false, w)

/-- `hub_xfer_cb` (hub.c, lines 323-360).  The result is `none` only if the
`for` loop did not end within 256 iterations. -/
def hub_xfer_cb (c : Cfg) (env : Env) (daddr ep_addr : Nat) (result : xfer_result_t)
    (xferred_bytes : Nat) (w : World) : Option (Bool × World) :=
  let r : Option (Bool × World) :=
    if result = xfer_result_t.SUCCESS then
      let status_change := w.byte (BufPtr.status_change (hub_index c daddr)) 0
      if status_change = 0 then some (false, w)
      else if tu_bit_test status_change 0 then
        some (hub_get_status env daddr (BufPtr.ctrl_buf (hub_index c daddr))
          Callback.get_status_complete 0 w)
      else hub_xfer_cb_loop c env daddr status_change 256 1 w
    else some (false, w)
  match r with
  | none => none
  | some (processed, w) =>
    if ¬ processed then
      let a := hub_edpt_status_xfer c env daddr w
      if ¬ a.1 then some (false, a.2) else some (true, a.2)
    else some (true, w)

/-- `port_clear_feature_complete_stub` (hub.c, lines 362-364). -/
def port_clear_feature_complete_stub (c : Cfg) (env : Env) (xfer : tuh_xfer_t) (w : World) :
    World :=
  (hub_edpt_status_xfer c env xfer.daddr w).2

/-- `get_status_complete` (hub.c, lines 366-387). -/
def get_status_complete (c : Cfg) (env : Env) (xfer : tuh_xfer_t) (w : World) : World :=
  let daddr := xfer.daddr
  let r : Bool × World :=
    if xfer.result = xfer_result_t.SUCCESS then
      let hub_status := w.load_hub_status xfer.buffer
      if hub_status.change_local_power_source then
        hub_clear_feature env daddr HUB_FEATURE_HUB_LOCAL_POWER_CHANGE
          Callback.port_clear_feature_complete_stub 0 w
      else if hub_status.change_over_current then
        hub_clear_feature env daddr HUB_FEATURE_HUB_OVER_CURRENT_CHANGE
          Callback.port_clear_feature_complete_stub 0 w
      else (false, w)
    else (false, w)
  if ¬ r.1 then (hub_edpt_status_xfer c env daddr r.2).2 else r.2

/-- `port_get_status_complete` (hub.c, lines 389-420). -/
def port_get_status_complete (c : Cfg) (env : Env) (xfer : tuh_xfer_t) (w : World) : World :=
  let daddr := xfer.daddr
  let r : Bool × World :=
    if xfer.result = xfer_result_t.SUCCESS then
      let port_num := tu_le16toh xfer.setup.wIndex % 256
      let p_hub := get_hub_itf c w daddr
      let p_hub := { p_hub with port_status := w.load_port_status xfer.buffer }
      let w := set_hub_itf c w daddr p_hub
      if p_hub.port_status.change_connection then
        hub_port_clear_feature env daddr port_num HUB_FEATURE_PORT_CONNECTION_CHANGE
          Callback.connection_clear_conn_change_complete 0 w
      else if p_hub.port_status.change_port_enable then
        hub_port_clear_feature env daddr port_num HUB_FEATURE_PORT_ENABLE_CHANGE
          Callback.port_clear_feature_complete_stub 0 w
      else if p_hub.port_status.change_suspend then
        hub_port_clear_feature env daddr port_num HUB_FEATURE_PORT_SUSPEND_CHANGE
          Callback.port_clear_feature_complete_stub 0 w
      else if p_hub.port_status.change_over_current then
        hub_port_clear_feature env daddr port_num HUB_FEATURE_PORT_OVER_CURRENT_CHANGE
          Callback.port_clear_feature_complete_stub 0 w
      else if p_hub.port_status.change_reset then
        hub_port_clear_feature env daddr port_num HUB_FEATURE_PORT_RESET_CHANGE
          Callback.port_clear_feature_complete_stub 0 w
      else (false, w)
    else (false, w)
  if ¬ r.1 then (hub_edpt_status_xfer c env daddr r.2).2 else r.2

/-- `connection_port_reset_complete` (hub.c, lines 450-473). -/
def connection_port_reset_complete (c : Cfg) (env : Env) (xfer : tuh_xfer_t) (w : World) :
    World :=
  let daddr := xfer.daddr
  if xfer.result ≠ xfer_result_t.SUCCESS then
    let r := tuh_control_xfer env xfer w
    if ¬ r.1 then (hub_edpt_status_xfer c env daddr r.2).2 else r.2
  else
    let port_num := tu_le16toh xfer.setup.wIndex % 256
    let event : hcd_event_t :=
      { rhport := env.usbh_get_rhport daddr,
        event_id := hcd_eventid_t.HCD_EVENT_DEVICE_ATTACH,
        hub_addr := daddr,
        hub_port := port_num }
    hcd_event_handler event false w

/-- `connection_clear_conn_change_complete` (hub.c, lines 422-448). -/
def connection_clear_conn_change_complete (c : Cfg) (env : Env) (xfer : tuh_xfer_t)
    (w : World) : World :=
  let daddr := xfer.daddr
  if xfer.result ≠ xfer_result_t.SUCCESS then
    (hub_edpt_status_xfer c env daddr w).2
  else
    let p_hub := get_hub_itf c w daddr
    let port_num := tu_le16toh xfer.setup.wIndex % 256
    if p_hub.port_status.status_connection then
      (hub_port_reset env daddr port_num Callback.connection_port_reset_complete 0 w).2
    else
      let event : hcd_event_t :=
        { rhport := env.usbh_get_rhport daddr,
          event_id := hcd_eventid_t.HCD_EVENT_DEVICE_REMOVE,
          hub_addr := daddr,
          hub_port := port_num }
      hcd_event_handler event false w

/-! ## The control-transfer dispatcher and the hub device -/

/-- The calls a step added to the log: those of `w1` that come after the ones
already in `w`. -/
def new_calls (w w1 : World) : List Call := w1.trace.drop w.trace.length

/-- The transfer of a call that is an accepted control-transfer submission. -/
@[simp]
def Call.queued? : Call → Option tuh_xfer_t
  | Call.tuh_control_xfer x true => some x
  | _ => none

/-- The transfer of a call that is a control-transfer submission. -/
@[simp]
def Call.control_xfer? : Call → Option tuh_xfer_t
  | Call.tuh_control_xfer x _ => some x
  | _ => none

/-- Whether a call claims an endpoint. -/
@[simp]
def Call.is_claim : Call → Bool
  | Call.usbh_edpt_claim _ _ _ => true
  | _ => false

/-- The event of a call that hands one to the host-controller event queue. -/
@[simp]
def Call.event? : Call → Option hcd_event_t
  | Call.hcd_event_handler e _ => some e
  | _ => none

/-- The (device address, interface number) of a mount-complete signal. -/
@[simp]
def Call.mount_complete? : Call → Option (Nat × Nat)
  | Call.usbh_driver_set_config_complete d i => some (d, i)
  | _ => none

/-- The control transfers among `calls` that the host stack accepted. -/
def queued (calls : List Call) : List tuh_xfer_t := calls.filterMap Call.queued?

/-- Every control transfer hub.c submitted among `calls`, accepted or not. -/
def control_xfers (calls : List Call) : List tuh_xfer_t := calls.filterMap Call.control_xfer?

/-- Number of times the status poller was armed among `calls`.  Each call of
`hub_edpt_status_xfer` starts with exactly one `usbh_edpt_claim`, and nothing
else in hub.c claims an endpoint. -/
def arm_count (calls : List Call) : Nat := calls.countP Call.is_claim

/-- The events handed to the host-controller event queue among `calls`. -/
def events (calls : List Call) : List hcd_event_t := calls.filterMap Call.event?

/-- The mount-complete signals among `calls`. -/
def mount_completes (calls : List Call) : List (Nat × Nat) :=
  calls.filterMap Call.mount_complete?

/-- Whether a setup packet is SET_FEATURE(PORT_POWER). -/
def is_port_power (r : tusb_control_request_t) : Bool :=
  r.bRequest == HUB_REQUEST_SET_FEATURE && r.wValue == HUB_FEATURE_PORT_POWER

/-- The ports addressed by the SET_FEATURE(PORT_POWER) requests among `calls`,
in the order of submission. -/
def power_ports (calls : List Call) : List Nat :=
  ((control_xfers calls).filter (fun x => is_port_power x.setup)).map (fun x => x.setup.wIndex)

/-- The calls one arming of the status poller of `daddr` makes in `w`. -/
def arm_calls (c : Cfg) (env : Env) (daddr : Nat) (w : World) : List Call :=
  new_calls w (hub_edpt_status_xfer c env daddr w).2

/-- No double-arm: the poller is armed at most once, and not at all when a
control transfer was queued. -/
def no_double_arm (calls : List Call) : Prop :=
  arm_count calls ≤ 1 ∧ (queued calls ≠ [] → arm_count calls = 0)

/-- The calls of a step that submits the control transfer `X` in `w` and arms
the poller of `daddr` when the host stack refuses the submission. -/
def submit_else_arm (c : Cfg) (env : Env) (daddr : Nat) (w : World) (X : tuh_xfer_t) :
    List Call :=
  Call.tuh_control_xfer X (env.tuh_control_xfer w.trace X) ::
    (if env.tuh_control_xfer w.trace X = true then []
      else arm_calls c env daddr (w.log (Call.tuh_control_xfer X false)))

/-- The slot table after `port_get_status_complete` stored the response found
in `buffer` as the cached port status of the hub `daddr`. -/
def store_port_status (c : Cfg) (w : World) (daddr : Nat) (buffer : BufPtr) : World :=
  set_hub_itf c w daddr
    { get_hub_itf c w daddr with port_status := w.load_port_status buffer }

/-- The request SET_FEATURE or CLEAR_FEATURE (`bRequest`) for `feature` on port
`hub_port` of the hub `hub_addr`: class request, direction OUT, no data. -/
def feature_xfer (bRequest hub_addr hub_port feature : Nat) (complete_cb : Callback)
    (user_data : Nat) : tuh_xfer_t :=
  { daddr := hub_addr, ep_addr := 0, result := xfer_result_t.SUCCESS, actual_len := 0,
    setup :=
      { recipient := if hub_port = 0 then TUSB_REQ_RCPT_DEVICE else TUSB_REQ_RCPT_OTHER,
        type := TUSB_REQ_TYPE_CLASS, direction := TUSB_DIR_OUT, bRequest := bRequest,
        wValue := feature, wIndex := hub_port, wLength := 0 },
    buffer := BufPtr.null, complete_cb := complete_cb, user_data := user_data }

/-- The request GET_STATUS for port `hub_port` of the hub `hub_addr` (the hub
itself when `hub_port = 0`): class request, direction IN, 4 bytes. -/
def get_status_xfer (hub_addr hub_port : Nat) (resp : BufPtr) (complete_cb : Callback)
    (user_data : Nat) : tuh_xfer_t :=
  { daddr := hub_addr, ep_addr := 0, result := xfer_result_t.SUCCESS, actual_len := 0,
    setup :=
      { recipient := if hub_port = 0 then TUSB_REQ_RCPT_DEVICE else TUSB_REQ_RCPT_OTHER,
        type := TUSB_REQ_TYPE_CLASS, direction := TUSB_DIR_IN,
        bRequest := HUB_REQUEST_GET_STATUS, wValue := 0, wIndex := hub_port, wLength := 4 },
    buffer := resp, complete_cb := complete_cb, user_data := user_data }

/-- The change the spec says is acted upon: the first one set in the order
connection, enable, suspend, over-current, reset, as the feature to clear and
the continuation of that clear. -/
def priority_change (s : hub_port_status_response_t) : Option (Nat × Callback) :=
  ([(0, HUB_FEATURE_PORT_CONNECTION_CHANGE, Callback.connection_clear_conn_change_complete),
    (1, HUB_FEATURE_PORT_ENABLE_CHANGE, Callback.port_clear_feature_complete_stub),
    (2, HUB_FEATURE_PORT_SUSPEND_CHANGE, Callback.port_clear_feature_complete_stub),
    (3, HUB_FEATURE_PORT_OVER_CURRENT_CHANGE, Callback.port_clear_feature_complete_stub),
    (4, HUB_FEATURE_PORT_RESET_CHANGE, Callback.port_clear_feature_complete_stub)].find?
      (fun e => s.change.testBit e.1)).map (fun e => e.2)

/-- Modelled from the spec: the hub device is absent.  How the device ends a
control transfer, and the bytes it leaves in the buffer of an IN transfer; both
may depend on everything that happened before. -/
structure Device where
  result : List Call → tuh_xfer_t → xfer_result_t
  data : List Call → tuh_xfer_t → Nat → Nat

/-- Modelled from the spec: the control-transfer dispatcher (usbh.c) is absent.
It invokes the completion callback stored in the transfer. -/
def invoke_cb (c : Cfg) (env : Env) (x : tuh_xfer_t) (w : World) : World :=
  match x.complete_cb with
  | Callback.config_set_port_power => config_set_port_power c env x w
  | Callback.config_port_power_complete => config_port_power_complete c env x w
  | Callback.get_status_complete => get_status_complete c env x w
  | Callback.port_get_status_complete => port_get_status_complete c env x w
  | Callback.port_clear_feature_complete_stub => port_clear_feature_complete_stub c env x w
  | Callback.connection_clear_conn_change_complete =>
    connection_clear_conn_change_complete c env x w
  | Callback.connection_port_reset_complete => connection_port_reset_complete c env x w
  | Callback.other _ => w

/-- The device writes `data` behind the buffer pointer `p`. -/
def World.dma (w : World) (p : BufPtr) (data : Nat → Nat) : World :=
  { w with mem := Function.update w.mem p data }

/-- Modelled from the spec: the control-transfer dispatcher (usbh.c) is absent.
Completion of one queued control transfer: the data of an IN transfer is placed
in its buffer, the result is stored in the transfer, the callback runs. -/
def complete_xfer (c : Cfg) (env : Env) (dev : Device) (x : tuh_xfer_t) (w : World) : World :=
  let w1 : World :=
    if x.setup.direction = TUSB_DIR_IN then w.dma x.buffer (dev.data w.trace x) else w
  invoke_cb c env { x with result := dev.result w.trace x } w1

/-- Modelled from the spec: the control-transfer dispatcher (usbh.c) is absent.
Starting from a queued control transfer, complete it, then complete the
transfer its callback queued, and so on until a callback queues nothing.  The
result is `none` when `fuel` completions did not end the chain. -/
def run_chain (c : Cfg) (env : Env) (dev : Device) : Nat → Option tuh_xfer_t → World →
    Option World
  | _, none, w => some w
  | 0, some _, _ => none
  | fuel + 1, some x, w =>
    let w1 := complete_xfer c env dev x w
    run_chain c env dev fuel (queued (new_calls w w1)).head? w1

/-- Modelled from the spec: the dispatcher (usbh.c) is absent.  One polling
cycle: the status notification completes, `hub_xfer_cb` runs, and the chain of
control transfers it starts is run to its end. -/
def poll_cycle (c : Cfg) (env : Env) (dev : Device) (fuel daddr ep_addr : Nat)
    (result : xfer_result_t) (w : World) : Option World :=
  match hub_xfer_cb c env daddr ep_addr result 1 w with
  | none => none
  | some r => run_chain c env dev fuel (queued (new_calls w r.2)).head? r.2

/-- The host stack that accepts every request. -/
def Env.accept_all : Env :=
  { tuh_control_xfer := fun _ _ => true,
    usbh_edpt_claim := fun _ _ _ => true,
    usbh_edpt_xfer := fun _ _ _ _ _ => true,
    tuh_edpt_open := fun _ _ _ => true,
    usbh_get_rhport := fun _ => 0 }

/-- The device that completes every transfer successfully and answers every IN
transfer with the bytes `bytes`. -/
def Device.answer (bytes : List Nat) : Device :=
  { result := fun _ _ => xfer_result_t.SUCCESS,
    data := fun _ _ off => bytes.getD off 0 }

/-- The state after `hub_init` with all buffers zero and nothing logged. -/
def World.init : World :=
  { hub_itfs := fun _ => hub_interface_t.zero, mem := fun _ _ => 0, trace := [] }

/-! ## The configuration sequence -/

/-- The transfer `hub_set_config` queues for the hub at `dev_addr`. -/
def get_descriptor_xfer (c : Cfg) (dev_addr : Nat) : tuh_xfer_t :=
  { daddr := dev_addr, ep_addr := 0, result := xfer_result_t.SUCCESS, actual_len := 0,
    setup :=
      { recipient := TUSB_REQ_RCPT_DEVICE, type := TUSB_REQ_TYPE_CLASS,
        direction := TUSB_DIR_IN, bRequest := HUB_REQUEST_GET_DESCRIPTOR,
        wValue := 0, wIndex := 0, wLength := c.sizeof_hub_desc_cs_t },
    buffer := BufPtr.ctrl_buf (hub_index c dev_addr),
    complete_cb := Callback.config_set_port_power, user_data := 0 }

/-- Append several calls to the log. -/
def World.logs (w : World) (l : List Call) : World :=
  { w with trace := w.trace ++ l }

/-- The request SET_FEATURE(PORT_POWER) for port `p` of the hub `d`, with
`config_port_power_complete` as continuation. -/
def power_xfer (d p : Nat) : tuh_xfer_t :=
  feature_xfer HUB_REQUEST_SET_FEATURE d p HUB_FEATURE_PORT_POWER
    Callback.config_port_power_complete 0

/-- The `n` port numbers `config_port_power_complete` computes one after the
other when it starts from port `p`: each is the 8-bit successor of the one
before. -/
def ports_after (p n : Nat) : List Nat :=
  (List.range n).map (fun i => (p + 1 + i) % 256)

/-- The last branch of `config_port_power_complete` (hub.c, lines 297-305): arm
the poller, then signal mount-complete. -/
def config_finish (c : Cfg) (env : Env) (d : Nat) (w : World) : World :=
  usbh_driver_set_config_complete d (get_hub_itf c (hub_edpt_status_xfer c env d w).2 d).itf_num
    (hub_edpt_status_xfer c env d w).2

/-- The state in which `config_set_port_power` runs for the hub `d` after the
device answered GET_DESCRIPTOR, and the slot it leaves. -/
def descriptor_stored (c : Cfg) (dev : Device) (d : Nat) (w : World) : World :=
  let w1 : World :=
    w.dma (BufPtr.ctrl_buf (hub_index c d)) (dev.data w.trace (get_descriptor_xfer c d))
  set_hub_itf c w1 d
    { get_hub_itf c w1 d with
      bNbrPorts := hub_desc_cs_t.bNbrPorts w1 (BufPtr.ctrl_buf (hub_index c d)),
      bPwrOn2PwrGood := hub_desc_cs_t.bPwrOn2PwrGood w1 (BufPtr.ctrl_buf (hub_index c d)) }

/-! ## A connection-change cycle -/

/-- The port status a device reports with the four bytes `data 0 .. data 3`. -/
def port_status_of (data : Nat → Nat) : hub_port_status_response_t :=
  { status := data 0 % 256 + 256 * (data 1 % 256),
    change := data 2 % 256 + 256 * (data 3 % 256) }

/-- The GET_STATUS request `hub_xfer_cb` submits for port `port` of hub `d`. -/
def port_status_request (c : Cfg) (d port : Nat) : tuh_xfer_t :=
  get_status_xfer d port (BufPtr.ctrl_buf (hub_index c d)) Callback.port_get_status_complete 0

/-- The bytes the device answers to the GET_STATUS for port `port` that
`hub_xfer_cb` submits in `w`. -/
def port_status_answer (c : Cfg) (dev : Device) (d port : Nat) (w : World) : Nat → Nat :=
  dev.data (w.trace ++ [Call.tuh_control_xfer (port_status_request c d port) true])
    (port_status_request c d port)

/-- The calls of a connection-change cycle on port `port` of hub `d`: GET_STATUS,
CLEAR_FEATURE(PORT_CONNECTION_CHANGE), and then, when `connected`,
SET_FEATURE(PORT_RESET) and the ATTACH event, otherwise the REMOVE event. -/
def connection_cycle_calls (c : Cfg) (env : Env) (d port : Nat) (connected : Bool) :
    List Call :=
  [Call.tuh_control_xfer (port_status_request c d port) true,
    Call.tuh_control_xfer
      (feature_xfer HUB_REQUEST_CLEAR_FEATURE d port HUB_FEATURE_PORT_CONNECTION_CHANGE
        Callback.connection_clear_conn_change_complete 0) true] ++
  (if connected then
    [Call.tuh_control_xfer
        (feature_xfer HUB_REQUEST_SET_FEATURE d port HUB_FEATURE_PORT_RESET
          Callback.connection_port_reset_complete 0) true,
      Call.hcd_event_handler
        { rhport := env.usbh_get_rhport d, event_id := hcd_eventid_t.HCD_EVENT_DEVICE_ATTACH,
          hub_addr := d, hub_port := port } false]
  else
    [Call.hcd_event_handler
      { rhport := env.usbh_get_rhport d, event_id := hcd_eventid_t.HCD_EVENT_DEVICE_REMOVE,
        hub_addr := d, hub_port := port } false])

/-! ## Sample inputs -/

/-- A build with four non-hub devices and two hubs: hub addresses are 5 and 6. -/
def Cfg.sample : Cfg :=
  { CFG_TUH_DEVICE_MAX := 4, CFG_TUH_HUB := 2, sizeof_hub_desc_cs_t := 9 }

/-- A mounted two-port hub at address 5 (slot 0) with status endpoint 0x81,
whose status-change buffer holds the byte `sc`. -/
def World.two_port_hub (sc : Nat) : World :=
  { hub_itfs := fun i =>
      if i = 0 then
        { itf_num := 0, ep_in := 0x81, bNbrPorts := 2, bPwrOn2PwrGood := 50,
          port_status := { status := 0, change := 0 } }
      else hub_interface_t.zero,
    mem := fun p off => if p = BufPtr.status_change 0 ∧ off = 0 then sc else 0,
    trace := [] }

/-- The world `World.two_port_hub 2` with the bytes `bytes` in the control
buffer of the hub at address 5. -/
def World.two_port_hub_resp (bytes : List Nat) : World :=
  { World.two_port_hub 2 with
    mem := fun p off => if p = BufPtr.ctrl_buf 0 then bytes.getD off 0 else 0 }

/-- A completed transfer with result `r` for port `port` of the hub at address
`5`, as the dispatcher hands it to callback `cb`. -/
def sample_xfer (r : xfer_result_t) (port : Nat) (cb : Callback) : tuh_xfer_t :=
  { daddr := 5, ep_addr := 0, result := r, actual_len := 0,
    setup :=
      { recipient := TUSB_REQ_RCPT_OTHER, type := TUSB_REQ_TYPE_CLASS,
        direction := TUSB_DIR_OUT, bRequest := HUB_REQUEST_SET_FEATURE,
        wValue := HUB_FEATURE_PORT_RESET, wIndex := port, wLength := 0 },
    buffer := BufPtr.ctrl_buf 0, complete_cb := cb, user_data := 0 }

/-- The interface descriptor of a single-TT hub with interface number `n`. -/
def sample_itf_desc (n : Nat) : tusb_desc_interface_t :=
  { bInterfaceNumber := n, bInterfaceClass := TUSB_CLASS_HUB, bInterfaceSubClass := 0,
    bInterfaceProtocol := 0 }

/-- The descriptor of an interrupt endpoint with address `a`. -/
def sample_ep_desc (a : Nat) : tusb_desc_endpoint_t :=
  { bDescriptorType := TUSB_DESC_ENDPOINT, bEndpointAddress := a, xfer := TUSB_XFER_INTERRUPT }

/-- The host stack that refuses every control transfer and accepts the rest. -/
def Env.refuse_control : Env :=
  { Env.accept_all with tuh_control_xfer := fun _ _ => false }

/-- The host stack that refuses every endpoint claim and accepts the rest. -/
def Env.refuse_claim : Env :=
  { Env.accept_all with usbh_edpt_claim := fun _ _ _ => false }

/-- The host stack that refuses every interrupt transfer and accepts the rest. -/
def Env.refuse_edpt_xfer : Env :=
  { Env.accept_all with usbh_edpt_xfer := fun _ _ _ _ _ => false }

/-- The mounted two-port hub at address 5 whose cached port status says
"connected" with a pending connection change. -/
def World.connected_hub : World :=
  { hub_itfs := fun i =>
      if i = 0 then
        { itf_num := 0, ep_in := 0x81, bNbrPorts := 2, bPwrOn2PwrGood := 50,
          port_status := { status := 1, change := 1 } }
      else hub_interface_t.zero,
    mem := fun _ _ => 0,
    trace := [] }

/-- A history of the slot of address 5 that leaves it unpopulated but not
zero: after `hub_init` a device whose interrupt endpoint descriptor carries the
address 0 is opened, and its hub descriptor (4 ports, delay 50) is stored by
`config_set_port_power`. -/
def World.stale_slot : World :=
  config_set_port_power Cfg.sample Env.accept_all
    { get_descriptor_xfer Cfg.sample 5 with result := xfer_result_t.SUCCESS }
    (((hub_open Cfg.sample Env.accept_all 0 5 (sample_itf_desc 0) (sample_ep_desc 0) 16
      (hub_init World.init).2).2).dma (BufPtr.ctrl_buf 0)
      (fun off => [9, 41, 4, 0, 0, 50, 0, 0, 0].getD off 0))

/-! ## Calls of the endpoint primitives -/

/-- The (device, endpoint, buffer, length) of a call that submits an interrupt
transfer. -/
@[simp]
def Call.edpt_xfer? : Call → Option (Nat × Nat × BufPtr × Nat)
  | Call.usbh_edpt_xfer d e b n _ => some (d, e, b, n)
  | _ => none

/-- The (device, endpoint) of a call that releases an endpoint claim. -/
@[simp]
def Call.release? : Call → Option (Nat × Nat)
  | Call.usbh_edpt_release d e => some (d, e)
  | _ => none

/-- The interrupt transfers submitted among `calls`. -/
def edpt_xfers (calls : List Call) : List (Nat × Nat × BufPtr × Nat) :=
  calls.filterMap Call.edpt_xfer?

/-- The endpoint claims released among `calls`. -/
def releases (calls : List Call) : List (Nat × Nat) := calls.filterMap Call.release?

/-! ## The device a call is addressed to -/

/-- The device address a call into the host stack names; for an event it is
the hub address the event carries. -/
def Call.daddr : Call → Nat
  | Call.tuh_control_xfer x _ => x.daddr
  | Call.usbh_edpt_claim d _ _ => d
  | Call.usbh_edpt_xfer d _ _ _ _ => d
  | Call.usbh_edpt_release d _ => d
  | Call.usbh_driver_set_config_complete d _ => d
  | Call.hcd_event_handler e _ => e.hub_addr
  | Call.tuh_edpt_open d _ _ => d

/-- Every call of `calls` names the device `a`. -/
def addressed_to (a : Nat) (calls : List Call) : Prop := ∀ k ∈ calls, Call.daddr k = a

/-- The slot table `h1` equals `h0` at every index other than `i`. -/
def same_away_from (i : Int) (h0 h1 : Int → hub_interface_t) : Prop :=
  ∀ j, j ≠ i → h1 j = h0 j

/-- The step from `w` to `w1` is local to the device `a`: it changes no slot
other than the one of `a`, and every call it adds to the log names `a`. -/
def local_to (c : Cfg) (a : Nat) (w w1 : World) : Prop :=
  same_away_from (hub_index c a) w.hub_itfs w1.hub_itfs ∧
    ∃ l, w1.trace = w.trace ++ l ∧ addressed_to a l

/-- The step from `w` to `w1`, made for the device `a`, leaves the slot of `b`
unchanged and addresses every call it adds to the log to `a`. -/
def independent_of (c : Cfg) (a b : Nat) (w w1 : World) : Prop :=
  get_hub_itf c w1 b = get_hub_itf c w b ∧ addressed_to a (new_calls w w1)

/-! ## Basic facts about the log -/

@[simp]
theorem log_trace (w : World) (k : Call) : (w.log k).trace = w.trace ++ [k] := rfl

@[simp]
theorem log_hub_itfs (w : World) (k : Call) : (w.log k).hub_itfs = w.hub_itfs := rfl

@[simp]
theorem log_mem (w : World) (k : Call) : (w.log k).mem = w.mem := rfl

@[simp]
theorem get_hub_itf_log (c : Cfg) (w : World) (k : Call) (d : Nat) :
    get_hub_itf c (w.log k) d = get_hub_itf c w d := rfl

theorem new_calls_of_trace (w w1 : World) (l : List Call) (h : w1.trace = w.trace ++ l) :
    new_calls w w1 = l := by
  simp [new_calls, h]

@[simp]
theorem control_xfers_nil : control_xfers [] = [] := rfl

@[simp]
theorem control_xfers_append (a b : List Call) :
    control_xfers (a ++ b) = control_xfers a ++ control_xfers b := by
  simp [control_xfers]

@[simp]
theorem control_xfers_cons (k : Call) (l : List Call) :
    control_xfers (k :: l) = (Call.control_xfer? k).toList ++ control_xfers l := by
  cases k <;> simp [control_xfers, Call.control_xfer?]

@[simp]
theorem queued_nil : queued [] = [] := rfl

@[simp]
theorem queued_append (a b : List Call) : queued (a ++ b) = queued a ++ queued b := by
  simp [queued]

@[simp]
theorem queued_cons (k : Call) (l : List Call) :
    queued (k :: l) = (Call.queued? k).toList ++ queued l := by
  cases k with
  | tuh_control_xfer x r => cases r <;> simp [queued]
  | _ => simp [queued]

@[simp]
theorem events_nil : events [] = [] := rfl

@[simp]
theorem events_append (a b : List Call) : events (a ++ b) = events a ++ events b := by
  simp [events]

@[simp]
theorem events_cons (k : Call) (l : List Call) :
    events (k :: l) = (Call.event? k).toList ++ events l := by
  cases k <;> simp [events, Call.event?]

@[simp]
theorem mount_completes_nil : mount_completes [] = [] := rfl

@[simp]
theorem mount_completes_append (a b : List Call) :
    mount_completes (a ++ b) = mount_completes a ++ mount_completes b := by
  simp [mount_completes]

@[simp]
theorem mount_completes_cons (k : Call) (l : List Call) :
    mount_completes (k :: l) = (Call.mount_complete? k).toList ++ mount_completes l := by
  cases k <;> simp [mount_completes, Call.mount_complete?]

@[simp]
theorem arm_count_nil : arm_count [] = 0 := rfl

@[simp]
theorem arm_count_append (a b : List Call) :
    arm_count (a ++ b) = arm_count a + arm_count b := by
  simp [arm_count]

@[simp]
theorem arm_count_cons (k : Call) (l : List Call) :
    arm_count (k :: l) = arm_count l + (if Call.is_claim k = true then 1 else 0) := by
  simp [arm_count, List.countP_cons]

@[simp]
theorem new_calls_self (w : World) : new_calls w w = [] := by
  simp [new_calls]

@[simp]
theorem new_calls_log (w : World) (k : Call) : new_calls w (w.log k) = [k] := by
  simp [new_calls]

@[simp]
theorem new_calls_log_log (w : World) (k1 k2 : Call) :
    new_calls w ((w.log k1).log k2) = [k1, k2] := by
  simp [new_calls]

@[simp]
theorem new_calls_log_log_log (w : World) (k1 k2 k3 : Call) :
    new_calls w (((w.log k1).log k2).log k3) = [k1, k2, k3] := by
  simp [new_calls]

theorem some_pair_of_not (a : Bool × World) :
    (if ¬ a.1 = true then some ((false : Bool), a.2) else some (true, a.2)) = some a := by
  obtain ⟨b, v⟩ := a
  cases b <;> simp

/-! ## The three request builders -/

theorem hub_port_set_feature_eq (env : Env) (a p f : Nat) (cb : Callback) (ud : Nat)
    (w : World) :
    hub_port_set_feature env a p f cb ud w =
      (env.tuh_control_xfer w.trace (feature_xfer HUB_REQUEST_SET_FEATURE a p f cb ud),
        w.log (Call.tuh_control_xfer (feature_xfer HUB_REQUEST_SET_FEATURE a p f cb ud)
          (env.tuh_control_xfer w.trace (feature_xfer HUB_REQUEST_SET_FEATURE a p f cb ud)))) := by
  cases h : env.tuh_control_xfer w.trace (feature_xfer HUB_REQUEST_SET_FEATURE a p f cb ud) <;>
    simp only [hub_port_set_feature, tuh_control_xfer, feature_xfer] at h ⊢ <;> simp [h]

theorem hub_port_clear_feature_eq (env : Env) (a p f : Nat) (cb : Callback) (ud : Nat)
    (w : World) :
    hub_port_clear_feature env a p f cb ud w =
      (env.tuh_control_xfer w.trace (feature_xfer HUB_REQUEST_CLEAR_FEATURE a p f cb ud),
        w.log (Call.tuh_control_xfer (feature_xfer HUB_REQUEST_CLEAR_FEATURE a p f cb ud)
          (env.tuh_control_xfer w.trace
            (feature_xfer HUB_REQUEST_CLEAR_FEATURE a p f cb ud)))) := by
  cases h : env.tuh_control_xfer w.trace (feature_xfer HUB_REQUEST_CLEAR_FEATURE a p f cb ud) <;>
    simp only [hub_port_clear_feature, tuh_control_xfer, feature_xfer] at h ⊢ <;> simp [h]

theorem hub_port_get_status_eq (env : Env) (a p : Nat) (resp : BufPtr) (cb : Callback)
    (ud : Nat) (w : World) :
    hub_port_get_status env a p resp cb ud w =
      (env.tuh_control_xfer w.trace (get_status_xfer a p resp cb ud),
        w.log (Call.tuh_control_xfer (get_status_xfer a p resp cb ud)
          (env.tuh_control_xfer w.trace (get_status_xfer a p resp cb ud)))) := by
  cases h : env.tuh_control_xfer w.trace (get_status_xfer a p resp cb ud) <;>
    simp only [hub_port_get_status, tuh_control_xfer, get_status_xfer, tu_htole16] at h ⊢ <;>
    simp [h]

/-! ## Arming the status poller -/

theorem arm_trace (c : Cfg) (env : Env) (d : Nat) (w : World) :
    (hub_edpt_status_xfer c env d w).2.trace = w.trace ++ arm_calls c env d w := by
  simp only [arm_calls, new_calls, hub_edpt_status_xfer, usbh_edpt_claim, usbh_edpt_xfer,
    usbh_edpt_release]
  split
  · simp
  · split <;> simp

@[simp]
theorem arm_hub_itfs (c : Cfg) (env : Env) (d : Nat) (w : World) :
    (hub_edpt_status_xfer c env d w).2.hub_itfs = w.hub_itfs := by
  simp only [hub_edpt_status_xfer, usbh_edpt_claim, usbh_edpt_xfer, usbh_edpt_release]
  split
  · simp
  · split <;> simp

@[simp]
theorem arm_mem (c : Cfg) (env : Env) (d : Nat) (w : World) :
    (hub_edpt_status_xfer c env d w).2.mem = w.mem := by
  simp only [hub_edpt_status_xfer, usbh_edpt_claim, usbh_edpt_xfer, usbh_edpt_release]
  split
  · simp
  · split <;> simp

@[simp]
theorem arm_count_arm_calls (c : Cfg) (env : Env) (d : Nat) (w : World) :
    arm_count (arm_calls c env d w) = 1 := by
  simp only [arm_calls, new_calls, hub_edpt_status_xfer, usbh_edpt_claim, usbh_edpt_xfer,
    usbh_edpt_release]
  split
  · simp [arm_count, Call.is_claim]
  · split <;> simp [arm_count, Call.is_claim]

@[simp]
theorem control_xfers_arm_calls (c : Cfg) (env : Env) (d : Nat) (w : World) :
    control_xfers (arm_calls c env d w) = [] := by
  simp only [arm_calls, new_calls, hub_edpt_status_xfer, usbh_edpt_claim, usbh_edpt_xfer,
    usbh_edpt_release]
  split
  · simp [control_xfers, Call.control_xfer?]
  · split <;> simp [control_xfers, Call.control_xfer?]

@[simp]
theorem queued_arm_calls (c : Cfg) (env : Env) (d : Nat) (w : World) :
    queued (arm_calls c env d w) = [] := by
  simp only [arm_calls, new_calls, hub_edpt_status_xfer, usbh_edpt_claim, usbh_edpt_xfer,
    usbh_edpt_release]
  split
  · simp [queued, Call.queued?]
  · split <;> simp [queued, Call.queued?]

@[simp]
theorem events_arm_calls (c : Cfg) (env : Env) (d : Nat) (w : World) :
    events (arm_calls c env d w) = [] := by
  simp only [arm_calls, new_calls, hub_edpt_status_xfer, usbh_edpt_claim, usbh_edpt_xfer,
    usbh_edpt_release]
  split
  · simp [events, Call.event?]
  · split <;> simp [events, Call.event?]

@[simp]
theorem mount_completes_arm_calls (c : Cfg) (env : Env) (d : Nat) (w : World) :
    mount_completes (arm_calls c env d w) = [] := by
  simp only [arm_calls, new_calls, hub_edpt_status_xfer, usbh_edpt_claim, usbh_edpt_xfer,
    usbh_edpt_release]
  split
  · simp [mount_completes, Call.mount_complete?]
  · split <;> simp [mount_completes, Call.mount_complete?]

@[simp]
theorem new_calls_arm (c : Cfg) (env : Env) (d : Nat) (w : World) :
    new_calls w (hub_edpt_status_xfer c env d w).2 = arm_calls c env d w := rfl

theorem new_calls_arm_after (c : Cfg) (env : Env) (d : Nat) (w w1 : World) (l : List Call)
    (h : w1.trace = w.trace ++ l) :
    new_calls w (hub_edpt_status_xfer c env d w1).2 = l ++ arm_calls c env d w1 := by
  apply new_calls_of_trace
  rw [arm_trace, h, List.append_assoc]

@[simp]
theorem get_hub_itf_arm (c : Cfg) (env : Env) (d e : Nat) (w : World) :
    get_hub_itf c (hub_edpt_status_xfer c env d w).2 e = get_hub_itf c w e := by
  simp [get_hub_itf]

/-! ## The loop of `hub_xfer_cb` -/

theorem testBit_byte_lt (sc j : Nat) (hsc : sc < 256) (hj : sc.testBit j = true) : j < 8 := by
  by_contra hge
  have h8 : 8 ≤ j := by omega
  have hlt : sc < 2 ^ j :=
    lt_of_lt_of_le hsc (by simpa using Nat.pow_le_pow_right (by norm_num : 0 < 2) h8)
  rw [Nat.testBit_lt_two_pow hlt] at hj
  exact Bool.false_ne_true hj

theorem hub_xfer_cb_loop_spec (c : Cfg) (env : Env) (daddr sc : Nat) (w : World) (j : Nat)
    (hj : sc.testBit j = true) (hj8 : j < 8) :
    ∀ fuel port, port ≤ j → j < port + fuel →
      (∀ i, port ≤ i → i < j → sc.testBit i = false) →
      hub_xfer_cb_loop c env daddr sc fuel port w =
        if j ≤ (get_hub_itf c w daddr).bNbrPorts then
          some (hub_port_get_status env daddr j (BufPtr.ctrl_buf (hub_index c daddr))
            Callback.port_get_status_complete 0 w)
        else some (false, w) := by
  intro fuel
  induction fuel with
  | zero => intro port h1 h2; omega
  | succ fuel ih =>
    intro port hle hlt hmin
    unfold hub_xfer_cb_loop
    by_cases hp : port ≤ (get_hub_itf c w daddr).bNbrPorts
    · rw [if_pos hp]
      by_cases hb : tu_bit_test sc port = true
      · rw [if_pos hb]
        have hpj : port = j := by
          by_contra hne
          have := hmin port (le_refl _) (by omega)
          simp [tu_bit_test] at hb
          rw [this] at hb
          exact Bool.false_ne_true hb
        subst hpj
        rw [if_pos hp]
      · rw [if_neg hb]
        have hne : port ≠ j := by
          intro h
          subst h
          exact hb hj
        have hmod : (port + 1) % 256 = port + 1 := Nat.mod_eq_of_lt (by omega)
        rw [hmod]
        apply ih
        · omega
        · omega
        · intro i hi1 hi2
          exact hmin i (by omega) hi2
    · rw [if_neg hp]
      have : ¬ j ≤ (get_hub_itf c w daddr).bNbrPorts := by omega
      rw [if_neg this]

theorem byte_lt (w : World) (p : BufPtr) (off : Nat) : w.byte p off < 256 :=
  Nat.mod_lt _ (by norm_num)

theorem exists_least_port_bit (sc : Nat) (h0 : sc ≠ 0) (hb0 : sc.testBit 0 = false) :
    ∃ j, 1 ≤ j ∧ sc.testBit j = true ∧ ∀ i, 1 ≤ i → i < j → sc.testBit i = false := by
  have hex : ∃ i, sc.testBit i = true := Nat.ne_zero_implies_bit_true h0
  refine ⟨Nat.find hex, ?_, Nat.find_spec hex, ?_⟩
  · by_contra hlt
    have h : Nat.find hex = 0 := by omega
    have hs := Nat.find_spec hex
    rw [h, hb0] at hs
    exact Bool.false_ne_true hs
  · intro i _ hi
    have := Nat.find_min hex hi
    simpa using this

/-- The port branch of `hub_xfer_cb`: with a successful notification whose
status byte is not 0 and has bit 0 clear, the loop ends, at the least set bit
`j`, and the callback either asks for the status of port `j` or, when `j` is
above the port count, arms the poller. -/
theorem hub_xfer_cb_port_branch (c : Cfg) (env : Env) (daddr ep_addr xferred_bytes : Nat)
    (w : World) (j : Nat)
    (hb0 : tu_bit_test (w.byte (BufPtr.status_change (hub_index c daddr)) 0) 0 = false)
    (hj1 : 1 ≤ j)
    (hj : tu_bit_test (w.byte (BufPtr.status_change (hub_index c daddr)) 0) j = true)
    (hmin : ∀ i, 1 ≤ i → i < j →
      tu_bit_test (w.byte (BufPtr.status_change (hub_index c daddr)) 0) i = false) :
    hub_xfer_cb c env daddr ep_addr xfer_result_t.SUCCESS xferred_bytes w =
      if j ≤ (get_hub_itf c w daddr).bNbrPorts then
        if env.tuh_control_xfer w.trace (get_status_xfer daddr j
            (BufPtr.ctrl_buf (hub_index c daddr)) Callback.port_get_status_complete 0) = true then
          some (true, w.log (Call.tuh_control_xfer (get_status_xfer daddr j
            (BufPtr.ctrl_buf (hub_index c daddr)) Callback.port_get_status_complete 0) true))
        else
          some (hub_edpt_status_xfer c env daddr
            (w.log (Call.tuh_control_xfer (get_status_xfer daddr j
              (BufPtr.ctrl_buf (hub_index c daddr)) Callback.port_get_status_complete 0) false)))
      else some (hub_edpt_status_xfer c env daddr w) := by
  have hne : w.byte (BufPtr.status_change (hub_index c daddr)) 0 ≠ 0 := by
    intro h0
    rw [h0] at hj
    simp [tu_bit_test] at hj
  have hj8 : j < 8 := testBit_byte_lt _ j (byte_lt _ _ _) hj
  have hloop := hub_xfer_cb_loop_spec c env daddr _ w j hj hj8 256 1 hj1 (by omega) hmin
  unfold hub_xfer_cb
  simp only [if_true, if_neg hne, hb0, hloop, Bool.false_eq_true, if_false]
  by_cases hn : j ≤ (get_hub_itf c w daddr).bNbrPorts
  · simp only [if_pos hn, hub_port_get_status_eq]
    cases hr : env.tuh_control_xfer w.trace (get_status_xfer daddr j
        (BufPtr.ctrl_buf (hub_index c daddr)) Callback.port_get_status_complete 0)
    · simp only [Bool.false_eq_true, not_false_eq_true, if_true, if_false, some_pair_of_not]
    · simp
  · simp only [if_neg hn, Bool.false_eq_true, not_false_eq_true, if_true, some_pair_of_not]

/-! ## The status poller callback -/

/-- The idle branch of `hub_xfer_cb`: a failed notification, or a successful one
with status byte 0, only arms the poller. -/
theorem hub_xfer_cb_idle (c : Cfg) (env : Env) (daddr ep_addr xferred_bytes : Nat)
    (result : xfer_result_t) (w : World)
    (h : result ≠ xfer_result_t.SUCCESS ∨
      w.byte (BufPtr.status_change (hub_index c daddr)) 0 = 0) :
    hub_xfer_cb c env daddr ep_addr result xferred_bytes w =
      some (hub_edpt_status_xfer c env daddr w) := by
  unfold hub_xfer_cb
  by_cases hres : result = xfer_result_t.SUCCESS
  · rcases h with h | h
    · exact absurd hres h
    · simp only [if_pos hres, if_pos h, Bool.false_eq_true, not_false_eq_true, if_true,
        some_pair_of_not]
  · simp only [if_neg hres, Bool.false_eq_true, not_false_eq_true, if_true, some_pair_of_not]

/-- The hub branch of `hub_xfer_cb`: with a successful notification whose
status byte has bit 0 set, the callback returns and its only control request is
GET_STATUS for port 0 of the hub. -/
theorem hub_xfer_cb_hub_branch (c : Cfg) (env : Env) (daddr ep_addr xferred_bytes : Nat)
    (w : World)
    (hb0 : tu_bit_test (w.byte (BufPtr.status_change (hub_index c daddr)) 0) 0 = true) :
    ∃ r, hub_xfer_cb c env daddr ep_addr xfer_result_t.SUCCESS xferred_bytes w = some r ∧
      control_xfers (new_calls w r.2) =
        [get_status_xfer daddr 0 (BufPtr.ctrl_buf (hub_index c daddr))
          Callback.get_status_complete 0] := by
  have hne : w.byte (BufPtr.status_change (hub_index c daddr)) 0 ≠ 0 := by
    intro h0
    rw [h0] at hb0
    simp [tu_bit_test] at hb0
  unfold hub_xfer_cb
  simp only [if_true, if_neg hne, hb0, hub_get_status, hub_port_get_status_eq]
  cases hr : env.tuh_control_xfer w.trace (get_status_xfer daddr 0
      (BufPtr.ctrl_buf (hub_index c daddr)) Callback.get_status_complete 0)
  · simp only [Bool.false_eq_true, not_false_eq_true, if_true, some_pair_of_not]
    refine ⟨_, rfl, ?_⟩
    rw [new_calls_arm_after c env daddr w _ _ (log_trace _ _)]
    simp
  · exact ⟨(true, w.log (Call.tuh_control_xfer (get_status_xfer daddr 0
      (BufPtr.ctrl_buf (hub_index c daddr)) Callback.get_status_complete 0) true)),
      by simp, by simp⟩

/-- Claim C2: for a successfully completed status notification whose
status-change byte has bit 0 set, `hub_xfer_cb` returns, and the only control
request it submits is GET_STATUS addressed to the hub itself (port 0, recipient
DEVICE) with `get_status_complete` as continuation, whatever the other bits
and the port count are; and whenever an invocation of `hub_xfer_cb` submits a
request addressed to a port (`wIndex` not 0), bit 0 of the byte is clear. -/
theorem hub_xfer_cb_hub_level (c : Cfg) (env : Env) (daddr ep_addr xferred_bytes : Nat)
    (w : World) :
    (tu_bit_test (w.byte (BufPtr.status_change (hub_index c daddr)) 0) 0 = true →
      ∃ r, hub_xfer_cb c env daddr ep_addr xfer_result_t.SUCCESS xferred_bytes w = some r ∧
        control_xfers (new_calls w r.2) =
          [get_status_xfer daddr 0 (BufPtr.ctrl_buf (hub_index c daddr))
            Callback.get_status_complete 0] ∧
        (∀ x ∈ control_xfers (new_calls w r.2),
          x.setup.bRequest = HUB_REQUEST_GET_STATUS ∧ x.setup.wIndex = 0 ∧
          x.setup.recipient = TUSB_REQ_RCPT_DEVICE ∧
          x.complete_cb = Callback.get_status_complete)) ∧
    (∀ (result : xfer_result_t) (r : Bool × World) (x : tuh_xfer_t),
      hub_xfer_cb c env daddr ep_addr result xferred_bytes w = some r →
      x ∈ control_xfers (new_calls w r.2) → x.setup.wIndex ≠ 0 →
      tu_bit_test (w.byte (BufPtr.status_change (hub_index c daddr)) 0) 0 = false) := by
  constructor
  · intro hb0
    obtain ⟨r, hr, hx⟩ := hub_xfer_cb_hub_branch c env daddr ep_addr xferred_bytes w hb0
    refine ⟨r, hr, hx, ?_⟩
    intro x hmem
    rw [hx] at hmem
    simp only [List.mem_singleton] at hmem
    subst hmem
    simp [get_status_xfer]
  · intro result r x hr hmem hport
    by_cases hres : result = xfer_result_t.SUCCESS
    · subst hres
      cases hb0 : tu_bit_test (w.byte (BufPtr.status_change (hub_index c daddr)) 0) 0
      · rfl
      · obtain ⟨r1, hr1, hx⟩ := hub_xfer_cb_hub_branch c env daddr ep_addr xferred_bytes w hb0
        rw [hr] at hr1
        cases hr1
        rw [hx] at hmem
        simp only [List.mem_singleton] at hmem
        subst hmem
        exact absurd rfl hport
    · rw [hub_xfer_cb_idle c env daddr ep_addr xferred_bytes result w (Or.inl hres)] at hr
      cases hr
      simp at hmem

/-- Witness of C2 -/
theorem hub_xfer_cb_hub_level_witness :
    tu_bit_test ((World.two_port_hub 7).byte (BufPtr.status_change (hub_index Cfg.sample 5)) 0)
        0 = true ∧
      ∃ r, hub_xfer_cb Cfg.sample Env.accept_all 5 0x81 xfer_result_t.SUCCESS 1
          (World.two_port_hub 7) = some r ∧
        control_xfers (new_calls (World.two_port_hub 7) r.2) =
          [get_status_xfer 5 0 (BufPtr.ctrl_buf (hub_index Cfg.sample 5))
            Callback.get_status_complete 0] ∧
        (∀ x ∈ control_xfers (new_calls (World.two_port_hub 7) r.2),
          x.setup.bRequest = HUB_REQUEST_GET_STATUS ∧ x.setup.wIndex = 0 ∧
          x.setup.recipient = TUSB_REQ_RCPT_DEVICE ∧
          x.complete_cb = Callback.get_status_complete) :=
  ⟨by decide, (hub_xfer_cb_hub_level Cfg.sample Env.accept_all 5 0x81 1
    (World.two_port_hub 7)).1 (by decide)⟩

/-- Claim C3: for a successfully completed status notification whose
status-change byte has bit 0 clear and whose smallest set bit among bits
1..port_count is `k`, `hub_xfer_cb` returns and submits exactly one control
request: GET_STATUS for port `k` with `port_get_status_complete` as
continuation; the port it addresses lies in [1, port_count]. -/
theorem hub_xfer_cb_lowest_port (c : Cfg) (env : Env) (daddr ep_addr xferred_bytes : Nat)
    (w : World) (k : Nat)
    (hb0 : tu_bit_test (w.byte (BufPtr.status_change (hub_index c daddr)) 0) 0 = false)
    (hk1 : 1 ≤ k) (hkn : k ≤ (get_hub_itf c w daddr).bNbrPorts)
    (hk : tu_bit_test (w.byte (BufPtr.status_change (hub_index c daddr)) 0) k = true)
    (hmin : ∀ i, 1 ≤ i → i < k →
      tu_bit_test (w.byte (BufPtr.status_change (hub_index c daddr)) 0) i = false) :
    ∃ r, hub_xfer_cb c env daddr ep_addr xfer_result_t.SUCCESS xferred_bytes w = some r ∧
      control_xfers (new_calls w r.2) =
        [get_status_xfer daddr k (BufPtr.ctrl_buf (hub_index c daddr))
          Callback.port_get_status_complete 0] ∧
      (∀ x ∈ control_xfers (new_calls w r.2),
        x.setup.bRequest = HUB_REQUEST_GET_STATUS ∧
        1 ≤ x.setup.wIndex ∧ x.setup.wIndex ≤ (get_hub_itf c w daddr).bNbrPorts ∧
        x.complete_cb = Callback.port_get_status_complete) := by
  have key : ∃ r, hub_xfer_cb c env daddr ep_addr xfer_result_t.SUCCESS xferred_bytes w =
      some r ∧ control_xfers (new_calls w r.2) =
        [get_status_xfer daddr k (BufPtr.ctrl_buf (hub_index c daddr))
          Callback.port_get_status_complete 0] := by
    rw [hub_xfer_cb_port_branch c env daddr ep_addr xferred_bytes w k hb0 hk1 hk hmin,
      if_pos hkn]
    cases hr : env.tuh_control_xfer w.trace (get_status_xfer daddr k
        (BufPtr.ctrl_buf (hub_index c daddr)) Callback.port_get_status_complete 0)
    · simp only [Bool.false_eq_true, if_false]
      refine ⟨_, rfl, ?_⟩
      rw [new_calls_arm_after c env daddr w _ _ (log_trace _ _)]
      simp
    · simp
  obtain ⟨r, hr, hx⟩ := key
  refine ⟨r, hr, hx, ?_⟩
  intro x hmem
  rw [hx] at hmem
  simp only [List.mem_singleton] at hmem
  subst hmem
  simp [get_status_xfer, hk1, hkn]

/-- Witness of C3 -/
theorem hub_xfer_cb_lowest_port_witness :
    ∃ r, hub_xfer_cb Cfg.sample Env.accept_all 5 0x81 xfer_result_t.SUCCESS 1
        (World.two_port_hub 6) = some r ∧
      control_xfers (new_calls (World.two_port_hub 6) r.2) =
        [get_status_xfer 5 1 (BufPtr.ctrl_buf (hub_index Cfg.sample 5))
          Callback.port_get_status_complete 0] ∧
      (∀ x ∈ control_xfers (new_calls (World.two_port_hub 6) r.2),
        x.setup.bRequest = HUB_REQUEST_GET_STATUS ∧
        1 ≤ x.setup.wIndex ∧
        x.setup.wIndex ≤ (get_hub_itf Cfg.sample (World.two_port_hub 6) 5).bNbrPorts ∧
        x.complete_cb = Callback.port_get_status_complete) :=
  hub_xfer_cb_lowest_port Cfg.sample Env.accept_all 5 0x81 1 (World.two_port_hub 6) 1
    (by decide) (by decide) (by decide) (by decide) (by intro i h1 h2; omega)

/-- Claim C8: for a status notification that completes with a non-success
result (whatever the buffer holds), and for a successful one whose
status-change byte is 0, `hub_xfer_cb` returns, its whole effect is one call of
the poller arm `hub_edpt_status_xfer` for that hub, and it submits no control
transfer. -/
theorem hub_xfer_cb_rearm (c : Cfg) (env : Env) (daddr ep_addr xferred_bytes : Nat)
    (result : xfer_result_t) (w : World)
    (h : result ≠ xfer_result_t.SUCCESS ∨
      w.byte (BufPtr.status_change (hub_index c daddr)) 0 = 0) :
    ∃ r, hub_xfer_cb c env daddr ep_addr result xferred_bytes w = some r ∧
      r = hub_edpt_status_xfer c env daddr w ∧
      control_xfers (new_calls w r.2) = [] ∧
      arm_count (new_calls w r.2) = 1 :=
  ⟨hub_edpt_status_xfer c env daddr w,
    hub_xfer_cb_idle c env daddr ep_addr xferred_bytes result w h, rfl, by simp, by simp⟩

/-- Witness of C8 -/
theorem hub_xfer_cb_rearm_witness :
    ∃ r, hub_xfer_cb Cfg.sample Env.accept_all 5 0x81 xfer_result_t.FAILED 0
        (World.two_port_hub 6) = some r ∧
      r = hub_edpt_status_xfer Cfg.sample Env.accept_all 5 (World.two_port_hub 6) ∧
      control_xfers (new_calls (World.two_port_hub 6) r.2) = [] ∧
      arm_count (new_calls (World.two_port_hub 6) r.2) = 1 :=
  hub_xfer_cb_rearm Cfg.sample Env.accept_all 5 0x81 0 xfer_result_t.FAILED
    (World.two_port_hub 6) (Or.inl (by decide))

/-! ## The registry -/

/-- Claim C10: `hub_close` is idempotent: on a zeroed slot it changes nothing,
closing twice leaves the state a single close leaves, and the slot of a hub
address that was populated (status endpoint address not 0) is all zero after
`hub_close`. -/
theorem hub_close_idempotent (c : Cfg) (dev_addr : Nat) (w : World) :
    (get_hub_itf c w dev_addr = hub_interface_t.zero → hub_close c dev_addr w = w) ∧
    hub_close c dev_addr (hub_close c dev_addr w) = hub_close c dev_addr w ∧
    (c.CFG_TUH_DEVICE_MAX < dev_addr → (get_hub_itf c w dev_addr).ep_in ≠ 0 →
      get_hub_itf c (hub_close c dev_addr w) dev_addr = hub_interface_t.zero) := by
  refine ⟨?_, ?_, ?_⟩
  · intro hz
    unfold hub_close
    simp [hz, hub_interface_t.zero]
  · unfold hub_close
    by_cases hd : dev_addr > c.CFG_TUH_DEVICE_MAX
    · by_cases he : (get_hub_itf c w dev_addr).ep_in = 0
      · simp [hd, he]
      · have he1 : ¬ (w.hub_itfs (hub_index c dev_addr)).ep_in = 0 := he
        simp [hd, he1, get_hub_itf, set_hub_itf, hub_interface_t.zero]
    · simp [hd]
  · intro hd he
    have he1 : ¬ (w.hub_itfs (hub_index c dev_addr)).ep_in = 0 := he
    unfold hub_close
    simp [hd, he1, get_hub_itf, set_hub_itf]

/-- Witness of C10 -/
theorem hub_close_idempotent_witness :
    hub_close Cfg.sample 5 World.init = World.init ∧
    get_hub_itf Cfg.sample (hub_close Cfg.sample 5 (World.two_port_hub 0)) 5 =
      hub_interface_t.zero :=
  ⟨(hub_close_idempotent Cfg.sample 5 World.init).1 rfl,
    (hub_close_idempotent Cfg.sample 5 (World.two_port_hub 0)).2.2 (by decide) (by decide)⟩

/-! ## The port and hub event callbacks -/

theorem submit_or_arm_calls (c : Cfg) (env : Env) (d : Nat) (w0 w : World) (X : tuh_xfer_t)
    (htr : w.trace = w0.trace) :
    new_calls w0
        (if ¬ env.tuh_control_xfer w.trace X = true then
          (hub_edpt_status_xfer c env d
            (w.log (Call.tuh_control_xfer X (env.tuh_control_xfer w.trace X)))).2
        else w.log (Call.tuh_control_xfer X (env.tuh_control_xfer w.trace X))) =
      submit_else_arm c env d w X := by
  unfold submit_else_arm
  cases hb : env.tuh_control_xfer w.trace X
  · simp only [Bool.false_eq_true, not_false_eq_true, if_true, if_false]
    rw [new_calls_arm_after c env d w0 _ [Call.tuh_control_xfer X false]
      (by simp [htr])]
    rfl
  · simp only [not_true_eq_false, if_false, if_true]
    exact new_calls_of_trace _ _ _ (by simp [htr])

theorem arm_calls_of_trace (c : Cfg) (env : Env) (d : Nat) (w0 w : World)
    (htr : w.trace = w0.trace) :
    new_calls w0 (hub_edpt_status_xfer c env d w).2 = arm_calls c env d w := by
  have := new_calls_arm_after c env d w0 w [] (by simp [htr])
  simpa using this

@[simp]
theorem control_xfers_submit_else_arm (c : Cfg) (env : Env) (d : Nat) (w : World)
    (X : tuh_xfer_t) : control_xfers (submit_else_arm c env d w X) = [X] := by
  unfold submit_else_arm
  cases env.tuh_control_xfer w.trace X <;> simp

@[simp]
theorem events_submit_else_arm (c : Cfg) (env : Env) (d : Nat) (w : World)
    (X : tuh_xfer_t) : events (submit_else_arm c env d w X) = [] := by
  unfold submit_else_arm
  cases env.tuh_control_xfer w.trace X <;> simp

@[simp]
theorem arm_count_submit_else_arm (c : Cfg) (env : Env) (d : Nat) (w : World)
    (X : tuh_xfer_t) :
    arm_count (submit_else_arm c env d w X) =
      if env.tuh_control_xfer w.trace X = true then 0 else 1 := by
  unfold submit_else_arm
  cases env.tuh_control_xfer w.trace X <;> simp

@[simp]
theorem queued_submit_else_arm (c : Cfg) (env : Env) (d : Nat) (w : World)
    (X : tuh_xfer_t) :
    queued (submit_else_arm c env d w X) =
      if env.tuh_control_xfer w.trace X = true then [X] else [] := by
  unfold submit_else_arm
  cases env.tuh_control_xfer w.trace X <;> simp

theorem no_double_arm_submit (c : Cfg) (env : Env) (d : Nat) (w : World) (X : tuh_xfer_t) :
    no_double_arm (submit_else_arm c env d w X) := by
  unfold no_double_arm
  cases hb : env.tuh_control_xfer w.trace X <;> simp [hb]

theorem no_double_arm_arm_calls (c : Cfg) (env : Env) (d : Nat) (w : World) :
    no_double_arm (arm_calls c env d w) := by
  simp [no_double_arm]

/-- What `port_get_status_complete` does, as the calls it adds to the log. -/
theorem port_get_status_complete_calls (c : Cfg) (env : Env) (x : tuh_xfer_t) (w : World) :
    new_calls w (port_get_status_complete c env x w) =
      if x.result = xfer_result_t.SUCCESS then
        match priority_change (w.load_port_status x.buffer) with
        | some (f, cb) =>
          submit_else_arm c env x.daddr (store_port_status c w x.daddr x.buffer)
            (feature_xfer HUB_REQUEST_CLEAR_FEATURE x.daddr (x.setup.wIndex % 256) f cb 0)
        | none => arm_calls c env x.daddr (store_port_status c w x.daddr x.buffer)
      else arm_calls c env x.daddr w := by
  unfold port_get_status_complete
  by_cases hres : x.result = xfer_result_t.SUCCESS
  · have htr : (store_port_status c w x.daddr x.buffer).trace = w.trace := rfl
    simp only [hres, if_true, tu_le16toh, hub_port_clear_feature_eq,
      hub_port_status_response_t.change_connection,
      hub_port_status_response_t.change_port_enable,
      hub_port_status_response_t.change_suspend,
      hub_port_status_response_t.change_over_current,
      hub_port_status_response_t.change_reset, priority_change]
    show new_calls w (if ¬ (if (w.load_port_status x.buffer).change.testBit 0 = true then _
      else if (w.load_port_status x.buffer).change.testBit 1 = true then _
      else if (w.load_port_status x.buffer).change.testBit 2 = true then _
      else if (w.load_port_status x.buffer).change.testBit 3 = true then _
      else if (w.load_port_status x.buffer).change.testBit 4 = true then _
      else ((false : Bool), store_port_status c w x.daddr x.buffer)).1 = true then _ else _) = _
    cases h0 : (w.load_port_status x.buffer).change.testBit 0
    · cases h1 : (w.load_port_status x.buffer).change.testBit 1
      · cases h2 : (w.load_port_status x.buffer).change.testBit 2
        · cases h3 : (w.load_port_status x.buffer).change.testBit 3
          · cases h4 : (w.load_port_status x.buffer).change.testBit 4
            · simp only [h0, h1, h2, h3, h4, if_false, List.find?, Option.map,
                Bool.false_eq_true, not_false_eq_true, if_true]
              exact arm_calls_of_trace c env x.daddr w _ htr
            · simp only [h0, h1, h2, h3, h4, if_true, if_false, List.find?, Option.map,
                Bool.false_eq_true]
              exact submit_or_arm_calls c env x.daddr w _ _ htr
          · simp only [h0, h1, h2, h3, if_true, if_false, List.find?, Option.map,
              Bool.false_eq_true]
            exact submit_or_arm_calls c env x.daddr w _ _ htr
        · simp only [h0, h1, h2, if_true, if_false, List.find?, Option.map,
            Bool.false_eq_true]
          exact submit_or_arm_calls c env x.daddr w _ _ htr
      · simp only [h0, h1, if_true, if_false, List.find?, Option.map, Bool.false_eq_true]
        exact submit_or_arm_calls c env x.daddr w _ _ htr
    · simp only [h0, if_true, List.find?, Option.map]
      exact submit_or_arm_calls c env x.daddr w _ _ htr
  · simp only [hres, if_false, Bool.false_eq_true, not_false_eq_true, if_true]
    rfl

/-- What `get_status_complete` does, as the calls it adds to the log. -/
theorem get_status_complete_calls (c : Cfg) (env : Env) (x : tuh_xfer_t) (w : World) :
    new_calls w (get_status_complete c env x w) =
      if x.result = xfer_result_t.SUCCESS then
        if (w.load_hub_status x.buffer).change_local_power_source = true then
          submit_else_arm c env x.daddr w
            (feature_xfer HUB_REQUEST_CLEAR_FEATURE x.daddr 0 HUB_FEATURE_HUB_LOCAL_POWER_CHANGE
              Callback.port_clear_feature_complete_stub 0)
        else if (w.load_hub_status x.buffer).change_over_current = true then
          submit_else_arm c env x.daddr w
            (feature_xfer HUB_REQUEST_CLEAR_FEATURE x.daddr 0 HUB_FEATURE_HUB_OVER_CURRENT_CHANGE
              Callback.port_clear_feature_complete_stub 0)
        else arm_calls c env x.daddr w
      else arm_calls c env x.daddr w := by
  unfold get_status_complete
  by_cases hres : x.result = xfer_result_t.SUCCESS
  · simp only [hres, if_true, hub_clear_feature, hub_port_clear_feature_eq]
    cases h0 : (w.load_hub_status x.buffer).change_local_power_source
    · cases h1 : (w.load_hub_status x.buffer).change_over_current
      · simp only [Bool.false_eq_true, if_false, not_false_eq_true, if_true]
        rfl
      · simp only [Bool.false_eq_true, if_false, if_true]
        exact submit_or_arm_calls c env x.daddr w _ _ rfl
    · simp only [if_true]
      exact submit_or_arm_calls c env x.daddr w _ _ rfl
  · simp only [hres, if_false, Bool.false_eq_true, not_false_eq_true, if_true]
    rfl

/-- What `connection_clear_conn_change_complete` does, as the calls it adds to
the log. -/
theorem connection_clear_conn_change_complete_calls (c : Cfg) (env : Env) (x : tuh_xfer_t)
    (w : World) :
    new_calls w (connection_clear_conn_change_complete c env x w) =
      if x.result = xfer_result_t.SUCCESS then
        if (get_hub_itf c w x.daddr).port_status.status_connection = true then
          [Call.tuh_control_xfer
            (feature_xfer HUB_REQUEST_SET_FEATURE x.daddr (x.setup.wIndex % 256)
              HUB_FEATURE_PORT_RESET Callback.connection_port_reset_complete 0)
            (env.tuh_control_xfer w.trace
              (feature_xfer HUB_REQUEST_SET_FEATURE x.daddr (x.setup.wIndex % 256)
                HUB_FEATURE_PORT_RESET Callback.connection_port_reset_complete 0))]
        else
          [Call.hcd_event_handler
            { rhport := env.usbh_get_rhport x.daddr,
              event_id := hcd_eventid_t.HCD_EVENT_DEVICE_REMOVE,
              hub_addr := x.daddr, hub_port := x.setup.wIndex % 256 } false]
      else arm_calls c env x.daddr w := by
  unfold connection_clear_conn_change_complete
  by_cases hres : x.result = xfer_result_t.SUCCESS
  · simp only [hres, ne_eq, not_true_eq_false, if_false, if_true, tu_le16toh, hub_port_reset,
      hub_port_set_feature_eq, hcd_event_handler]
    cases (get_hub_itf c w x.daddr).port_status.status_connection <;> simp
  · simp only [ne_eq, hres, not_false_eq_true, if_true, if_false]
    rfl

/-- What `connection_port_reset_complete` does, as the calls it adds to the
log. -/
theorem connection_port_reset_complete_calls (c : Cfg) (env : Env) (x : tuh_xfer_t)
    (w : World) :
    new_calls w (connection_port_reset_complete c env x w) =
      if x.result = xfer_result_t.SUCCESS then
        [Call.hcd_event_handler
          { rhport := env.usbh_get_rhport x.daddr,
            event_id := hcd_eventid_t.HCD_EVENT_DEVICE_ATTACH,
            hub_addr := x.daddr, hub_port := x.setup.wIndex % 256 } false]
      else submit_else_arm c env x.daddr w x := by
  unfold connection_port_reset_complete
  by_cases hres : x.result = xfer_result_t.SUCCESS
  · simp [hres, tu_le16toh, hcd_event_handler]
  · simp only [ne_eq, hres, not_false_eq_true, if_true, if_false, tuh_control_xfer]
    exact submit_or_arm_calls c env x.daddr w _ _ rfl

/-- Claim C4: for a successful port GET_STATUS response,
`port_get_status_complete` acts on the first change bit set in the order
connection, enable, suspend, over-current, reset: the only control request it
submits is CLEAR_FEATURE of the matching PORT_*_CHANGE feature on the port
named by the low byte of the request `wIndex`, whatever lower-priority change
bits are set as well. -/
theorem port_get_status_complete_priority (c : Cfg) (env : Env) (x : tuh_xfer_t) (w : World)
    (hres : x.result = xfer_result_t.SUCCESS) :
    ((w.load_port_status x.buffer).change_connection = true →
      control_xfers (new_calls w (port_get_status_complete c env x w)) =
        [feature_xfer HUB_REQUEST_CLEAR_FEATURE x.daddr (x.setup.wIndex % 256)
          HUB_FEATURE_PORT_CONNECTION_CHANGE Callback.connection_clear_conn_change_complete 0]) ∧
    ((w.load_port_status x.buffer).change_connection = false →
      (w.load_port_status x.buffer).change_port_enable = true →
      control_xfers (new_calls w (port_get_status_complete c env x w)) =
        [feature_xfer HUB_REQUEST_CLEAR_FEATURE x.daddr (x.setup.wIndex % 256)
          HUB_FEATURE_PORT_ENABLE_CHANGE Callback.port_clear_feature_complete_stub 0]) ∧
    ((w.load_port_status x.buffer).change_connection = false →
      (w.load_port_status x.buffer).change_port_enable = false →
      (w.load_port_status x.buffer).change_suspend = true →
      control_xfers (new_calls w (port_get_status_complete c env x w)) =
        [feature_xfer HUB_REQUEST_CLEAR_FEATURE x.daddr (x.setup.wIndex % 256)
          HUB_FEATURE_PORT_SUSPEND_CHANGE Callback.port_clear_feature_complete_stub 0]) ∧
    ((w.load_port_status x.buffer).change_connection = false →
      (w.load_port_status x.buffer).change_port_enable = false →
      (w.load_port_status x.buffer).change_suspend = false →
      (w.load_port_status x.buffer).change_over_current = true →
      control_xfers (new_calls w (port_get_status_complete c env x w)) =
        [feature_xfer HUB_REQUEST_CLEAR_FEATURE x.daddr (x.setup.wIndex % 256)
          HUB_FEATURE_PORT_OVER_CURRENT_CHANGE Callback.port_clear_feature_complete_stub 0]) ∧
    ((w.load_port_status x.buffer).change_connection = false →
      (w.load_port_status x.buffer).change_port_enable = false →
      (w.load_port_status x.buffer).change_suspend = false →
      (w.load_port_status x.buffer).change_over_current = false →
      (w.load_port_status x.buffer).change_reset = true →
      control_xfers (new_calls w (port_get_status_complete c env x w)) =
        [feature_xfer HUB_REQUEST_CLEAR_FEATURE x.daddr (x.setup.wIndex % 256)
          HUB_FEATURE_PORT_RESET_CHANGE Callback.port_clear_feature_complete_stub 0]) := by
  rw [port_get_status_complete_calls, if_pos hres]
  simp only [hub_port_status_response_t.change_connection,
    hub_port_status_response_t.change_port_enable,
    hub_port_status_response_t.change_suspend,
    hub_port_status_response_t.change_over_current,
    hub_port_status_response_t.change_reset, priority_change]
  refine ⟨?_, ?_, ?_, ?_, ?_⟩
  · intro h0
    simp [List.find?, h0]
  · intro h0 h1
    simp [List.find?, h0, h1]
  · intro h0 h1 h2
    simp [List.find?, h0, h1, h2]
  · intro h0 h1 h2 h3
    simp [List.find?, h0, h1, h2, h3]
  · intro h0 h1 h2 h3 h4
    simp [List.find?, h0, h1, h2, h3, h4]

/-- Witness of C4: connection, suspend and reset changes are all reported for
port 2; only the connection change is cleared. -/
theorem port_get_status_complete_priority_witness :
    control_xfers (new_calls (World.two_port_hub_resp [1, 1, 21, 0])
        (port_get_status_complete Cfg.sample Env.accept_all
          (sample_xfer xfer_result_t.SUCCESS 2 Callback.port_get_status_complete)
          (World.two_port_hub_resp [1, 1, 21, 0]))) =
      [feature_xfer HUB_REQUEST_CLEAR_FEATURE 5 2 HUB_FEATURE_PORT_CONNECTION_CHANGE
        Callback.connection_clear_conn_change_complete 0] :=
  (port_get_status_complete_priority Cfg.sample Env.accept_all
    (sample_xfer xfer_result_t.SUCCESS 2 Callback.port_get_status_complete)
    (World.two_port_hub_resp [1, 1, 21, 0]) rfl).1 (by decide)

/-- Claim C7: for a PORT_RESET completion with a non-success result,
`connection_port_reset_complete` resubmits the very transfer it was given (same
device address, setup packet and continuation) and does nothing else: no event
is emitted and no other request is started; the poller is armed in this step
exactly when the host stack refuses that resubmission. -/
theorem connection_port_reset_complete_retry (c : Cfg) (env : Env) (x : tuh_xfer_t)
    (w : World) (hres : x.result ≠ xfer_result_t.SUCCESS) :
    new_calls w (connection_port_reset_complete c env x w) =
        Call.tuh_control_xfer x (env.tuh_control_xfer w.trace x) ::
          (if env.tuh_control_xfer w.trace x = true then []
            else arm_calls c env x.daddr (w.log (Call.tuh_control_xfer x false))) ∧
      control_xfers (new_calls w (connection_port_reset_complete c env x w)) = [x] ∧
      events (new_calls w (connection_port_reset_complete c env x w)) = [] ∧
      arm_count (new_calls w (connection_port_reset_complete c env x w)) =
        if env.tuh_control_xfer w.trace x = true then 0 else 1 := by
  rw [connection_port_reset_complete_calls, if_neg hres]
  exact ⟨rfl, by simp, by simp, by simp⟩

/-- Witness of C7 -/
theorem connection_port_reset_complete_retry_witness :
    control_xfers (new_calls (World.two_port_hub 0)
        (connection_port_reset_complete Cfg.sample Env.accept_all
          (sample_xfer xfer_result_t.FAILED 1 Callback.connection_port_reset_complete)
          (World.two_port_hub 0))) =
      [sample_xfer xfer_result_t.FAILED 1 Callback.connection_port_reset_complete] :=
  (connection_port_reset_complete_retry Cfg.sample Env.accept_all
    (sample_xfer xfer_result_t.FAILED 1 Callback.connection_port_reset_complete)
    (World.two_port_hub 0) (by decide)).2.1

/-- The slot table after a successful `port_get_status_complete`: only the
cached port status of the hub changed, to the response in the buffer. -/
theorem port_get_status_complete_hub_itfs (c : Cfg) (env : Env) (x : tuh_xfer_t) (w : World)
    (hres : x.result = xfer_result_t.SUCCESS) :
    (port_get_status_complete c env x w).hub_itfs =
      (store_port_status c w x.daddr x.buffer).hub_itfs := by
  unfold port_get_status_complete
  simp only [hres, if_true, hub_port_clear_feature_eq]
  split_ifs <;> simp [store_port_status]

/-- Claim C5: the current-state connection bit is the one `port_get_status_complete`
stored in the hub slot from the GET_STATUS response.  After
CLEAR_FEATURE(PORT_CONNECTION_CHANGE) completed successfully the decision is
taken on that stored bit, with no new GET_STATUS: if the bit is set the only
call is the submission of SET_FEATURE(PORT_RESET) for that port (no event yet),
if it is clear the only call is the emission of a REMOVE event (no PORT_RESET);
and `connection_port_reset_complete` emits an ATTACH event exactly when the
reset completed successfully. -/
theorem connection_change_decision (c : Cfg) (env : Env) (x : tuh_xfer_t) (w : World)
    (hres : x.result = xfer_result_t.SUCCESS) :
    (get_hub_itf c (port_get_status_complete c env x w) x.daddr).port_status =
      w.load_port_status x.buffer ∧
    ((get_hub_itf c w x.daddr).port_status.status_connection = true →
      new_calls w (connection_clear_conn_change_complete c env x w) =
        [Call.tuh_control_xfer
          (feature_xfer HUB_REQUEST_SET_FEATURE x.daddr (x.setup.wIndex % 256)
            HUB_FEATURE_PORT_RESET Callback.connection_port_reset_complete 0)
          (env.tuh_control_xfer w.trace
            (feature_xfer HUB_REQUEST_SET_FEATURE x.daddr (x.setup.wIndex % 256)
              HUB_FEATURE_PORT_RESET Callback.connection_port_reset_complete 0))]) ∧
    ((get_hub_itf c w x.daddr).port_status.status_connection = false →
      new_calls w (connection_clear_conn_change_complete c env x w) =
        [Call.hcd_event_handler
          { rhport := env.usbh_get_rhport x.daddr,
            event_id := hcd_eventid_t.HCD_EVENT_DEVICE_REMOVE,
            hub_addr := x.daddr, hub_port := x.setup.wIndex % 256 } false]) ∧
    (∀ (y : tuh_xfer_t) (v : World),
      events (new_calls v (connection_port_reset_complete c env y v)) =
        if y.result = xfer_result_t.SUCCESS then
          [{ rhport := env.usbh_get_rhport y.daddr,
             event_id := hcd_eventid_t.HCD_EVENT_DEVICE_ATTACH,
             hub_addr := y.daddr, hub_port := y.setup.wIndex % 256 }]
        else []) := by
  refine ⟨?_, ?_, ?_, ?_⟩
  · simp [get_hub_itf, port_get_status_complete_hub_itfs c env x w hres, store_port_status,
      set_hub_itf]
  · intro hc
    rw [connection_clear_conn_change_complete_calls, if_pos hres, if_pos hc]
  · intro hc
    rw [connection_clear_conn_change_complete_calls, if_pos hres, hc]
    simp
  · intro y v
    rw [connection_port_reset_complete_calls]
    by_cases hy : y.result = xfer_result_t.SUCCESS
    · simp [hy]
    · simp [hy]

/-- Witness of C5: the slot of the hub at address 5 holds "not connected". -/
theorem connection_change_decision_witness :
    new_calls (World.two_port_hub 0)
        (connection_clear_conn_change_complete Cfg.sample Env.accept_all
          (sample_xfer xfer_result_t.SUCCESS 1 Callback.connection_clear_conn_change_complete)
          (World.two_port_hub 0)) =
      [Call.hcd_event_handler
        { rhport := 0, event_id := hcd_eventid_t.HCD_EVENT_DEVICE_REMOVE,
          hub_addr := 5, hub_port := 1 } false] :=
  (connection_change_decision Cfg.sample Env.accept_all
    (sample_xfer xfer_result_t.SUCCESS 1 Callback.connection_clear_conn_change_complete)
    (World.two_port_hub 0) rfl).2.2.1 (by decide)

/-- Claim C9: no double-arm.  Each of the six handlers of the post-mount chain
returns, arms the poller at most once in an invocation, and does not arm it in
an invocation in which a control transfer was queued. -/
theorem post_mount_no_double_arm (c : Cfg) (env : Env) (x : tuh_xfer_t) (w : World)
    (daddr ep_addr xferred_bytes : Nat) (result : xfer_result_t) :
    (∃ r, hub_xfer_cb c env daddr ep_addr result xferred_bytes w = some r ∧
      no_double_arm (new_calls w r.2)) ∧
    no_double_arm (new_calls w (get_status_complete c env x w)) ∧
    no_double_arm (new_calls w (port_get_status_complete c env x w)) ∧
    no_double_arm (new_calls w (port_clear_feature_complete_stub c env x w)) ∧
    no_double_arm (new_calls w (connection_clear_conn_change_complete c env x w)) ∧
    no_double_arm (new_calls w (connection_port_reset_complete c env x w)) := by
  refine ⟨?_, ?_, ?_, ?_, ?_, ?_⟩
  · by_cases h : result ≠ xfer_result_t.SUCCESS ∨
        w.byte (BufPtr.status_change (hub_index c daddr)) 0 = 0
    · exact ⟨_, hub_xfer_cb_idle c env daddr ep_addr xferred_bytes result w h,
        no_double_arm_arm_calls c env daddr w⟩
    · have hres : result = xfer_result_t.SUCCESS := by
        by_contra hne
        exact h (Or.inl hne)
      have hne : w.byte (BufPtr.status_change (hub_index c daddr)) 0 ≠ 0 := by
        intro h0
        exact h (Or.inr h0)
      subst hres
      cases hb0 : tu_bit_test (w.byte (BufPtr.status_change (hub_index c daddr)) 0) 0
      · obtain ⟨j, hj1, hj, hmin⟩ := exists_least_port_bit _ hne hb0
        rw [hub_xfer_cb_port_branch c env daddr ep_addr xferred_bytes w j hb0 hj1 hj hmin]
        by_cases hn : j ≤ (get_hub_itf c w daddr).bNbrPorts
        · rw [if_pos hn]
          cases hr : env.tuh_control_xfer w.trace (get_status_xfer daddr j
              (BufPtr.ctrl_buf (hub_index c daddr)) Callback.port_get_status_complete 0)
          · simp only [Bool.false_eq_true, if_false]
            refine ⟨_, rfl, ?_⟩
            rw [new_calls_arm_after c env daddr w _ _ (log_trace _ _)]
            simp [no_double_arm]
          · simp [no_double_arm]
        · rw [if_neg hn]
          exact ⟨_, rfl, no_double_arm_arm_calls c env daddr w⟩
      · unfold hub_xfer_cb
        simp only [if_true, if_neg hne, hb0, hub_get_status, hub_port_get_status_eq]
        cases hr : env.tuh_control_xfer w.trace (get_status_xfer daddr 0
            (BufPtr.ctrl_buf (hub_index c daddr)) Callback.get_status_complete 0)
        · simp only [Bool.false_eq_true, not_false_eq_true, if_true, some_pair_of_not]
          refine ⟨_, rfl, ?_⟩
          rw [new_calls_arm_after c env daddr w _ _ (log_trace _ _)]
          simp [no_double_arm]
        · exact ⟨(true, w.log (Call.tuh_control_xfer (get_status_xfer daddr 0
            (BufPtr.ctrl_buf (hub_index c daddr)) Callback.get_status_complete 0) true)),
            by simp, by simp [no_double_arm]⟩
  · rw [get_status_complete_calls]
    split
    · split
      · exact no_double_arm_submit _ _ _ _ _
      · split
        · exact no_double_arm_submit _ _ _ _ _
        · exact no_double_arm_arm_calls _ _ _ _
    · exact no_double_arm_arm_calls _ _ _ _
  · rw [port_get_status_complete_calls]
    split
    · split
      · exact no_double_arm_submit _ _ _ _ _
      · exact no_double_arm_arm_calls _ _ _ _
    · exact no_double_arm_arm_calls _ _ _ _
  · exact no_double_arm_arm_calls c env x.daddr w
  · rw [connection_clear_conn_change_complete_calls]
    split
    · split <;> simp [no_double_arm]
    · exact no_double_arm_arm_calls _ _ _ _
  · rw [connection_port_reset_complete_calls]
    split
    · simp [no_double_arm]
    · exact no_double_arm_submit _ _ _ _ _

/-! ## The configuration sequence -/

@[simp]
theorem logs_trace (w : World) (l : List Call) : (w.logs l).trace = w.trace ++ l := rfl

@[simp]
theorem get_hub_itf_logs (c : Cfg) (w : World) (l : List Call) (d : Nat) :
    get_hub_itf c (w.logs l) d = get_hub_itf c w d := rfl

@[simp]
theorem logs_nil (w : World) : w.logs [] = w := by
  simp [World.logs]

theorem log_eq_logs (w : World) (k : Call) : w.log k = w.logs [k] := rfl

theorem logs_logs (w : World) (a b : List Call) : (w.logs a).logs b = w.logs (a ++ b) := by
  simp [World.logs, List.append_assoc]

theorem run_chain_none (c : Cfg) (env : Env) (dev : Device) (fuel : Nat) (w : World) :
    run_chain c env dev fuel none w = some w := by
  cases fuel <;> rfl

theorem run_chain_some (c : Cfg) (env : Env) (dev : Device) (fuel : Nat) (x : tuh_xfer_t)
    (w : World) :
    run_chain c env dev (fuel + 1) (some x) w =
      run_chain c env dev fuel (queued (new_calls w (complete_xfer c env dev x w))).head?
        (complete_xfer c env dev x w) := rfl

theorem config_finish_trace (c : Cfg) (env : Env) (d : Nat) (w : World) :
    (config_finish c env d w).trace =
      w.trace ++ (arm_calls c env d w ++
        [Call.usbh_driver_set_config_complete d (get_hub_itf c w d).itf_num]) := by
  simp [config_finish, usbh_driver_set_config_complete, arm_trace, List.append_assoc]

theorem power_step_last (c : Cfg) (env : Env) (dev : Device) (d p : Nat) (w : World)
    (hdev : ∀ tr x, dev.result tr x = xfer_result_t.SUCCESS)
    (hp : (get_hub_itf c w d).bNbrPorts = p) :
    complete_xfer c env dev (power_xfer d p) w = config_finish c env d w := by
  simp [complete_xfer, power_xfer, feature_xfer, invoke_cb, config_port_power_complete, hdev,
    hp, config_finish, TUSB_DIR_OUT, TUSB_DIR_IN]

theorem power_step_next (c : Cfg) (env : Env) (dev : Device) (d p : Nat) (w : World)
    (henv : ∀ tr x, env.tuh_control_xfer tr x = true)
    (hdev : ∀ tr x, dev.result tr x = xfer_result_t.SUCCESS)
    (hp : (get_hub_itf c w d).bNbrPorts ≠ p) :
    complete_xfer c env dev (power_xfer d p) w =
      w.log (Call.tuh_control_xfer (power_xfer d ((p + 1) % 256)) true) := by
  have hp1 : ¬ p = (get_hub_itf c w d).bNbrPorts := fun h => hp h.symm
  simp [complete_xfer, power_xfer, feature_xfer, invoke_cb, config_port_power_complete, hdev,
    hp1, hub_port_set_feature_eq, henv, TUSB_DIR_OUT, TUSB_DIR_IN]

theorem ports_after_succ (p n : Nat) :
    ports_after p (n + 1) = (p + 1) % 256 :: ports_after ((p + 1) % 256) n := by
  unfold ports_after
  rw [List.range_succ_eq_map]
  simp only [List.map_cons, List.map_map, Nat.add_zero]
  congr 1
  apply List.map_congr_left
  intro i _
  simp only [Function.comp]
  omega

/-- The chain of `config_port_power_complete` steps: started at the request
for port `p`, it powers the `n` following ports, where `n` is the 8-bit
distance from `p` to the port count, then arms the poller and signals
mount-complete. -/
theorem power_chain (c : Cfg) (env : Env) (dev : Device) (d : Nat)
    (henv : ∀ tr x, env.tuh_control_xfer tr x = true)
    (hdev : ∀ tr x, dev.result tr x = xfer_result_t.SUCCESS) :
    ∀ (n p fuel : Nat) (w : World), p < 256 → (get_hub_itf c w d).bNbrPorts < 256 →
      ((get_hub_itf c w d).bNbrPorts + 256 - p) % 256 = n → n < fuel →
      run_chain c env dev fuel (some (power_xfer d p)) w =
        some (config_finish c env d
          (w.logs ((ports_after p n).map
            (fun q => Call.tuh_control_xfer (power_xfer d q) true)))) := by
  intro n
  induction n with
  | zero =>
    intro p fuel w hp hN hn hfuel
    obtain ⟨fuel, rfl⟩ : ∃ f, fuel = f + 1 := ⟨fuel - 1, by omega⟩
    have hpn : (get_hub_itf c w d).bNbrPorts = p := by omega
    rw [run_chain_some, power_step_last c env dev d p w hdev hpn]
    have hq : queued (new_calls w (config_finish c env d w)) = [] := by
      rw [new_calls_of_trace _ _ _ (config_finish_trace c env d w)]
      simp
    rw [hq]
    simp only [List.head?_nil, run_chain_none, ports_after, List.range_zero, List.map_nil,
      logs_nil]
  | succ n ih =>
    intro p fuel w hp hN hn hfuel
    obtain ⟨fuel, rfl⟩ : ∃ f, fuel = f + 1 := ⟨fuel - 1, by omega⟩
    have hpn : (get_hub_itf c w d).bNbrPorts ≠ p := by
      intro h
      rw [h] at hn
      omega
    rw [run_chain_some, power_step_next c env dev d p w henv hdev hpn]
    simp only [new_calls_log, queued_cons, Call.queued?, Option.toList, queued_nil,
      List.append_nil, List.head?_cons]
    rw [ih ((p + 1) % 256) fuel _ (Nat.mod_lt _ (by norm_num)) (by simpa using hN)
      (by simp only [get_hub_itf_log]; omega) (by omega)]
    rw [ports_after_succ, log_eq_logs, logs_logs]
    rfl

theorem descriptor_step (c : Cfg) (env : Env) (dev : Device) (d : Nat) (w : World)
    (henv : ∀ tr x, env.tuh_control_xfer tr x = true)
    (hdev : ∀ tr x, dev.result tr x = xfer_result_t.SUCCESS) :
    complete_xfer c env dev (get_descriptor_xfer c d) w =
      (descriptor_stored c dev d w).log (Call.tuh_control_xfer (power_xfer d 1) true) := by
  simp [complete_xfer, get_descriptor_xfer, invoke_cb, config_set_port_power, hdev,
    hub_port_set_feature_eq, henv, descriptor_stored, power_xfer, set_hub_itf]

theorem descriptor_stored_ports (c : Cfg) (dev : Device) (d : Nat) (w : World) :
    (get_hub_itf c (descriptor_stored c dev d w) d).bNbrPorts =
      dev.data w.trace (get_descriptor_xfer c d) 2 % 256 := by
  simp [descriptor_stored, get_hub_itf, set_hub_itf, hub_desc_cs_t.bNbrPorts, World.byte,
    World.dma]

theorem descriptor_stored_itf_num (c : Cfg) (dev : Device) (d : Nat) (w : World) :
    (get_hub_itf c (descriptor_stored c dev d w) d).itf_num = (get_hub_itf c w d).itf_num := by
  simp [descriptor_stored, get_hub_itf, set_hub_itf, World.dma]

theorem descriptor_stored_trace (c : Cfg) (dev : Device) (d : Nat) (w : World) :
    (descriptor_stored c dev d w).trace = w.trace := rfl

theorem control_xfers_power_map (d : Nat) (l : List Nat) :
    control_xfers (l.map (fun q => Call.tuh_control_xfer (power_xfer d q) true)) =
      l.map (power_xfer d) := by
  induction l with
  | nil => rfl
  | cons a l ih => simp [ih]

theorem power_ports_sequence (c : Cfg) (env : Env) (d i : Nat) (w : World) (l : List Nat) :
    power_ports (l.map (fun q => Call.tuh_control_xfer (power_xfer d q) true) ++
      (arm_calls c env d w ++ [Call.usbh_driver_set_config_complete d i])) = l := by
  simp only [power_ports, control_xfers_append, control_xfers_power_map,
    control_xfers_arm_calls, control_xfers_cons, Call.control_xfer?, Option.toList,
    control_xfers_nil, List.append_nil]
  induction l with
  | nil => rfl
  | cons a l ih =>
    simp only [List.map_cons, List.filter_cons]
    have : is_port_power (power_xfer d a).setup = true := by
      simp [is_port_power, power_xfer, feature_xfer]
    rw [if_pos this, List.map_cons, ih]
    simp [power_xfer, feature_xfer]

theorem mount_completes_power_map (d : Nat) (l : List Nat) :
    mount_completes (l.map (fun q => Call.tuh_control_xfer (power_xfer d q) true)) = [] := by
  induction l with
  | nil => rfl
  | cons a l ih => simp [ih]

/-- The configuration sequence, from the completion of GET_DESCRIPTOR on: when
the host stack accepts every request and every transfer succeeds, the chain
ends; it stores the port count `N` of the descriptor, powers port 1 and then
the ports that follow it up to the 8-bit distance from 1 to `N`, arms the
poller and signals mount-complete. -/
theorem config_sequence (c : Cfg) (env : Env) (dev : Device) (d fuel : Nat) (w : World)
    (henv : ∀ tr x, env.tuh_control_xfer tr x = true)
    (hdev : ∀ tr x, dev.result tr x = xfer_result_t.SUCCESS)
    (hfuel : 257 ≤ fuel) :
    ∃ wf wm, run_chain c env dev fuel (some (get_descriptor_xfer c d)) w = some wf ∧
      new_calls w wf =
        (1 :: ports_after 1 ((dev.data w.trace (get_descriptor_xfer c d) 2 % 256 + 255) % 256)).map
            (fun q => Call.tuh_control_xfer (power_xfer d q) true) ++
          (arm_calls c env d wm ++
            [Call.usbh_driver_set_config_complete d (get_hub_itf c w d).itf_num]) := by
  obtain ⟨fuel, rfl⟩ : ∃ f, fuel = f + 1 := ⟨fuel - 1, by omega⟩
  have hN := descriptor_stored_ports c dev d w
  have hlt : dev.data w.trace (get_descriptor_xfer c d) 2 % 256 < 256 :=
    Nat.mod_lt _ (by norm_num)
  have hnc : new_calls w ((descriptor_stored c dev d w).log
      (Call.tuh_control_xfer (power_xfer d 1) true)) =
      [Call.tuh_control_xfer (power_xfer d 1) true] :=
    new_calls_of_trace _ _ _ (by simp [descriptor_stored_trace])
  rw [run_chain_some, descriptor_step c env dev d w henv hdev, hnc]
  simp only [queued_cons, Call.queued?, Option.toList, queued_nil,
    List.append_nil, List.head?_cons]
  rw [power_chain c env dev d henv hdev
    ((dev.data w.trace (get_descriptor_xfer c d) 2 % 256 + 255) % 256) 1 fuel _ (by norm_num)
    (by simp only [get_hub_itf_log, hN]; exact hlt)
    (by simp only [get_hub_itf_log, hN]; omega) (by omega)]
  refine ⟨_, ((descriptor_stored c dev d w).log
    (Call.tuh_control_xfer (power_xfer d 1) true)).logs
      ((ports_after 1 ((dev.data w.trace (get_descriptor_xfer c d) 2 % 256 + 255) % 256)).map
        (fun q => Call.tuh_control_xfer (power_xfer d q) true)), rfl, ?_⟩
  apply new_calls_of_trace
  rw [config_finish_trace]
  simp only [logs_trace, log_trace, get_hub_itf_logs, get_hub_itf_log,
    descriptor_stored_itf_num, descriptor_stored_trace, List.map_cons, List.append_assoc,
    List.singleton_append, List.cons_append, List.nil_append]

theorem ports_in_order (N : Nat) (h1 : 1 ≤ N) (h2 : N ≤ 255) :
    1 :: ports_after 1 ((N + 255) % 256) = List.range' 1 N := by
  have hn : (N + 255) % 256 = N - 1 := by omega
  obtain ⟨m, rfl⟩ : ∃ m, N = m + 1 := ⟨N - 1, by omega⟩
  rw [hn, Nat.add_sub_cancel, List.range'_succ, List.range'_eq_map_range]
  congr 1
  unfold ports_after
  apply List.map_congr_left
  intro i hi
  have := List.mem_range.mp hi
  omega

/-- The configuration sequence of a hub that reports `N` ports, `1 ≤ N ≤ 255`:
when every request is accepted and every transfer succeeds, the chain ends, the
SET_FEATURE(PORT_POWER) requests are exactly those for ports 1, 2, ..., N in
this order, and mount-complete is signalled once, as the last call. -/
theorem config_sequence_ports (c : Cfg) (env : Env) (dev : Device) (d fuel N : Nat)
    (w : World)
    (henv : ∀ tr x, env.tuh_control_xfer tr x = true)
    (hdev : ∀ tr x, dev.result tr x = xfer_result_t.SUCCESS)
    (hfuel : 257 ≤ fuel)
    (hN : dev.data w.trace (get_descriptor_xfer c d) 2 % 256 = N) (h1 : 1 ≤ N) :
    ∃ wf, run_chain c env dev fuel (some (get_descriptor_xfer c d)) w = some wf ∧
      power_ports (new_calls w wf) = List.range' 1 N ∧
      mount_completes (new_calls w wf) = [(d, (get_hub_itf c w d).itf_num)] ∧
      (new_calls w wf).getLast? =
        some (Call.usbh_driver_set_config_complete d (get_hub_itf c w d).itf_num) := by
  obtain ⟨wf, wm, hrun, hcalls⟩ := config_sequence c env dev d fuel w henv hdev hfuel
  have h2 : N ≤ 255 := by omega
  rw [hN, ports_in_order N h1 h2] at hcalls
  refine ⟨wf, hrun, ?_, ?_, ?_⟩
  · rw [hcalls, power_ports_sequence]
  · rw [hcalls]
    simp [mount_completes_power_map]
  · rw [hcalls, ← List.append_assoc, List.getLast?_append]
    simp

theorem ports_wrap : 1 :: ports_after 1 255 = List.range' 1 255 ++ [0] := by
  have h1 : List.range' 1 255 = 1 :: List.range' 2 254 := rfl
  have ha : (List.range 254).map (fun i => (1 + 1 + i) % 256) =
      (List.range 254).map (fun i => 2 + i) := by
    apply List.map_congr_left
    intro i hi
    have := List.mem_range.mp hi
    omega
  have h2 : ports_after 1 255 = List.range' 2 254 ++ [0] := by
    unfold ports_after
    rw [show (255 : Nat) = 254 + 1 from rfl, List.range_succ, List.map_append, ha,
      List.range'_eq_map_range]
    simp
  rw [h1, h2, List.cons_append]

/-- Claim C1, at the hub descriptor that reports `port_count = 0`: with every
request accepted and every transfer successful the configuration sequence does
not submit 0 requests SET_FEATURE(PORT_POWER) but 256 of them, for the ports 1,
2, ..., 255 and then 0, before it signals mount-complete. -/
theorem config_zero_ports_powers_256 :
    ∃ wf, run_chain Cfg.sample Env.accept_all (Device.answer [9, 41, 0, 0, 0, 50, 0, 0, 0]) 300
        (some (get_descriptor_xfer Cfg.sample 5)) World.init = some wf ∧
      power_ports wf.trace = List.range' 1 255 ++ [0] ∧
      (power_ports wf.trace).length = 256 ∧
      mount_completes wf.trace = [(5, 0)] := by
  obtain ⟨wf, wm, hrun, hcalls⟩ := config_sequence Cfg.sample Env.accept_all
    (Device.answer [9, 41, 0, 0, 0, 50, 0, 0, 0]) 5 300 World.init (fun _ _ => rfl)
    (fun _ _ => rfl) (by norm_num)
  have htr : new_calls World.init wf = wf.trace := by simp [new_calls, World.init]
  have hports : 1 :: ports_after 1
      (((Device.answer [9, 41, 0, 0, 0, 50, 0, 0, 0]).data World.init.trace
        (get_descriptor_xfer Cfg.sample 5) 2 % 256 + 255) % 256) =
      List.range' 1 255 ++ [0] := ports_wrap
  rw [htr, hports] at hcalls
  refine ⟨wf, hrun, ?_, ?_, ?_⟩
  · rw [hcalls, power_ports_sequence]
  · rw [hcalls, power_ports_sequence]
    simp
  · rw [hcalls]
    simp [mount_completes_power_map]
    rfl

/-! ## A connection-change cycle -/

/-- Counterexample to C6: scenarios A and B on a two-port hub with status byte
0b0010, every request accepted and every transfer successful.  The calls of
the whole cycle end with the ATTACH (A) or REMOVE (B) event; the poller is not
armed anywhere in the cycle. -/
theorem connection_cycle_not_rearmed :
    (poll_cycle Cfg.sample Env.accept_all (Device.answer [1, 0, 1, 0]) 8 5 0x81
        xfer_result_t.SUCCESS (World.two_port_hub 2)).map (fun w => w.trace) =
      some (connection_cycle_calls Cfg.sample Env.accept_all 5 1 true) ∧
    (poll_cycle Cfg.sample Env.accept_all (Device.answer [0, 0, 1, 0]) 8 5 0x81
        xfer_result_t.SUCCESS (World.two_port_hub 2)).map (fun w => w.trace) =
      some (connection_cycle_calls Cfg.sample Env.accept_all 5 1 false) ∧
    (connection_cycle_calls Cfg.sample Env.accept_all 5 1 true).getLast? =
      some (Call.hcd_event_handler
        { rhport := 0, event_id := hcd_eventid_t.HCD_EVENT_DEVICE_ATTACH,
          hub_addr := 5, hub_port := 1 } false) ∧
    (connection_cycle_calls Cfg.sample Env.accept_all 5 1 false).getLast? =
      some (Call.hcd_event_handler
        { rhport := 0, event_id := hcd_eventid_t.HCD_EVENT_DEVICE_REMOVE,
          hub_addr := 5, hub_port := 1 } false) ∧
    arm_count (connection_cycle_calls Cfg.sample Env.accept_all 5 1 true) = 0 ∧
    arm_count (connection_cycle_calls Cfg.sample Env.accept_all 5 1 false) = 0 := by
  refine ⟨by decide, by decide, by decide, by decide, by decide, by decide⟩

@[simp]
theorem dma_trace (w : World) (p : BufPtr) (data : Nat → Nat) :
    (w.dma p data).trace = w.trace := rfl

@[simp]
theorem dma_hub_itfs (w : World) (p : BufPtr) (data : Nat → Nat) :
    (w.dma p data).hub_itfs = w.hub_itfs := rfl

theorem load_port_status_dma (w : World) (p : BufPtr) (data : Nat → Nat) :
    (w.dma p data).load_port_status p = port_status_of data := by
  simp [World.load_port_status, World.word, World.byte, port_status_of, World.dma]

theorem arm_count_connection_cycle_calls (c : Cfg) (env : Env) (d port : Nat) (b : Bool) :
    arm_count (connection_cycle_calls c env d port b) = 0 := by
  cases b <;> simp [connection_cycle_calls]

theorem port_get_status_complete_conn (c : Cfg) (env : Env) (x : tuh_xfer_t) (w : World)
    (henv : ∀ tr x, env.tuh_control_xfer tr x = true)
    (hres : x.result = xfer_result_t.SUCCESS)
    (hchg : (w.load_port_status x.buffer).change_connection = true) :
    port_get_status_complete c env x w =
      (store_port_status c w x.daddr x.buffer).log
        (Call.tuh_control_xfer
          (feature_xfer HUB_REQUEST_CLEAR_FEATURE x.daddr (x.setup.wIndex % 256)
            HUB_FEATURE_PORT_CONNECTION_CHANGE Callback.connection_clear_conn_change_complete 0)
          true) := by
  unfold port_get_status_complete
  simp only [hres, if_true, tu_le16toh, hub_port_clear_feature_eq, henv, hchg,
    not_true_eq_false, if_false]
  rfl

theorem store_port_status_slot (c : Cfg) (w : World) (d : Nat) (p : BufPtr) :
    (get_hub_itf c (store_port_status c w d p) d).port_status = w.load_port_status p := by
  simp [store_port_status, get_hub_itf, set_hub_itf]

theorem conn_clear_connected (c : Cfg) (env : Env) (x : tuh_xfer_t) (w : World)
    (henv : ∀ tr x, env.tuh_control_xfer tr x = true)
    (hres : x.result = xfer_result_t.SUCCESS)
    (hconn : (get_hub_itf c w x.daddr).port_status.status_connection = true) :
    connection_clear_conn_change_complete c env x w =
      w.log (Call.tuh_control_xfer
        (feature_xfer HUB_REQUEST_SET_FEATURE x.daddr (x.setup.wIndex % 256)
          HUB_FEATURE_PORT_RESET Callback.connection_port_reset_complete 0) true) := by
  unfold connection_clear_conn_change_complete
  simp only [hres, ne_eq, not_true_eq_false, if_false, hconn, if_true, tu_le16toh,
    hub_port_reset, hub_port_set_feature_eq, henv]

theorem conn_clear_disconnected (c : Cfg) (env : Env) (x : tuh_xfer_t) (w : World)
    (hres : x.result = xfer_result_t.SUCCESS)
    (hconn : (get_hub_itf c w x.daddr).port_status.status_connection = false) :
    connection_clear_conn_change_complete c env x w =
      w.log (Call.hcd_event_handler
        { rhport := env.usbh_get_rhport x.daddr,
          event_id := hcd_eventid_t.HCD_EVENT_DEVICE_REMOVE,
          hub_addr := x.daddr, hub_port := x.setup.wIndex % 256 } false) := by
  unfold connection_clear_conn_change_complete
  simp only [hres, ne_eq, not_true_eq_false, if_false, hconn, Bool.false_eq_true, tu_le16toh,
    hcd_event_handler]

theorem reset_complete_success (c : Cfg) (env : Env) (x : tuh_xfer_t) (w : World)
    (hres : x.result = xfer_result_t.SUCCESS) :
    connection_port_reset_complete c env x w =
      w.log (Call.hcd_event_handler
        { rhport := env.usbh_get_rhport x.daddr,
          event_id := hcd_eventid_t.HCD_EVENT_DEVICE_ATTACH,
          hub_addr := x.daddr, hub_port := x.setup.wIndex % 256 } false) := by
  unfold connection_port_reset_complete
  simp only [hres, ne_eq, not_true_eq_false, if_false, tu_le16toh, hcd_event_handler]

/-- Claim C6, amended: for a hub with port_count = 2 and status byte 0b0010,
when every request is accepted, every transfer succeeds and GET_STATUS on port
1 reports connection-change = 1, the cycle ends and the calls of the driver are
exactly GET_STATUS(port 1), CLEAR_FEATURE(PORT_CONNECTION_CHANGE), and then
SET_FEATURE(PORT_RESET) and ATTACH{hub_port=1} if current-connection = 1, or
REMOVE{hub_port=1} if it is 0.  The event is the last call: the driver does not
arm the poller in this cycle. -/
theorem connection_cycle (c : Cfg) (env : Env) (dev : Device) (fuel d ep_addr : Nat)
    (w : World)
    (henv : ∀ tr x, env.tuh_control_xfer tr x = true)
    (hdev : ∀ tr x, dev.result tr x = xfer_result_t.SUCCESS)
    (hfuel : 3 ≤ fuel)
    (hn : (get_hub_itf c w d).bNbrPorts = 2)
    (hsc : w.byte (BufPtr.status_change (hub_index c d)) 0 = 2)
    (hchg : (port_status_of (port_status_answer c dev d 1 w)).change_connection = true) :
    ∃ wf, poll_cycle c env dev fuel d ep_addr xfer_result_t.SUCCESS w = some wf ∧
      new_calls w wf = connection_cycle_calls c env d 1
        (port_status_of (port_status_answer c dev d 1 w)).status_connection ∧
      arm_count (new_calls w wf) = 0 := by
  obtain ⟨fuel, rfl⟩ : ∃ f, fuel = f + 3 := ⟨fuel - 3, by omega⟩
  have hcb : hub_xfer_cb c env d ep_addr xfer_result_t.SUCCESS 1 w =
      some (true, w.log (Call.tuh_control_xfer (port_status_request c d 1) true)) := by
    rw [hub_xfer_cb_port_branch c env d ep_addr 1 w 1 (by rw [hsc]; decide) (le_refl _)
      (by rw [hsc]; decide) (by intro i h1 h2; omega), if_pos (by omega)]
    simp [henv, port_status_request]
  -- the GET_STATUS completion
  have hload : ((w.log (Call.tuh_control_xfer (port_status_request c d 1) true)).dma
      (BufPtr.ctrl_buf (hub_index c d)) (port_status_answer c dev d 1 w)).load_port_status
      (BufPtr.ctrl_buf (hub_index c d)) = port_status_of (port_status_answer c dev d 1 w) :=
    load_port_status_dma _ _ _
  have h1 : complete_xfer c env dev (port_status_request c d 1)
      (w.log (Call.tuh_control_xfer (port_status_request c d 1) true)) =
      (store_port_status c ((w.log (Call.tuh_control_xfer (port_status_request c d 1) true)).dma
        (BufPtr.ctrl_buf (hub_index c d)) (port_status_answer c dev d 1 w)) d
        (BufPtr.ctrl_buf (hub_index c d))).log
        (Call.tuh_control_xfer
          (feature_xfer HUB_REQUEST_CLEAR_FEATURE d 1 HUB_FEATURE_PORT_CONNECTION_CHANGE
            Callback.connection_clear_conn_change_complete 0) true) :=
    port_get_status_complete_conn c env
      { port_status_request c d 1 with
        result := dev.result (w.log (Call.tuh_control_xfer (port_status_request c d 1)
          true)).trace (port_status_request c d 1) }
      ((w.log (Call.tuh_control_xfer (port_status_request c d 1) true)).dma
        (BufPtr.ctrl_buf (hub_index c d)) (port_status_answer c dev d 1 w))
      henv (hdev _ _) (by rw [show ({ port_status_request c d 1 with
        result := dev.result (w.log (Call.tuh_control_xfer (port_status_request c d 1)
          true)).trace (port_status_request c d 1) } : tuh_xfer_t).buffer =
          BufPtr.ctrl_buf (hub_index c d) from rfl, hload]; exact hchg)
  have hslot : (get_hub_itf c ((store_port_status c
      ((w.log (Call.tuh_control_xfer (port_status_request c d 1) true)).dma
        (BufPtr.ctrl_buf (hub_index c d)) (port_status_answer c dev d 1 w)) d
        (BufPtr.ctrl_buf (hub_index c d))).log
        (Call.tuh_control_xfer
          (feature_xfer HUB_REQUEST_CLEAR_FEATURE d 1 HUB_FEATURE_PORT_CONNECTION_CHANGE
            Callback.connection_clear_conn_change_complete 0) true)) d).port_status =
      port_status_of (port_status_answer c dev d 1 w) := by
    rw [get_hub_itf_log, store_port_status_slot, hload]
  have htr2 : (store_port_status c
      ((w.log (Call.tuh_control_xfer (port_status_request c d 1) true)).dma
        (BufPtr.ctrl_buf (hub_index c d)) (port_status_answer c dev d 1 w)) d
        (BufPtr.ctrl_buf (hub_index c d))).trace =
      w.trace ++ [Call.tuh_control_xfer (port_status_request c d 1) true] := rfl
  generalize store_port_status c
      ((w.log (Call.tuh_control_xfer (port_status_request c d 1) true)).dma
        (BufPtr.ctrl_buf (hub_index c d)) (port_status_answer c dev d 1 w)) d
        (BufPtr.ctrl_buf (hub_index c d)) = W2 at h1 hslot htr2
  unfold poll_cycle
  rw [hcb]
  simp only [new_calls_log, queued_cons, Call.queued?, Option.toList, queued_nil,
    List.append_nil, List.head?_cons, List.singleton_append]
  have hnc : ∀ k : Call,
      new_calls (w.log (Call.tuh_control_xfer (port_status_request c d 1) true)) (W2.log k) =
        [k] := fun k => new_calls_of_trace _ _ _ (by simp [htr2])
  rw [run_chain_some, h1, hnc]
  simp only [queued_cons, Call.queued?, Option.toList, queued_nil,
    List.append_nil, List.head?_cons, List.singleton_append]
  rw [run_chain_some]
  have hout : ∀ (x : tuh_xfer_t) (v : World), x.setup.direction = TUSB_DIR_OUT →
      complete_xfer c env dev x v = invoke_cb c env { x with result := xfer_result_t.SUCCESS } v
      := by
    intro x v hx
    simp [complete_xfer, hx, hdev, TUSB_DIR_OUT, TUSB_DIR_IN]
  cases hconn : (port_status_of (port_status_answer c dev d 1 w)).status_connection
  · -- not connected: REMOVE
    have h2 : complete_xfer c env dev
        (feature_xfer HUB_REQUEST_CLEAR_FEATURE d 1 HUB_FEATURE_PORT_CONNECTION_CHANGE
          Callback.connection_clear_conn_change_complete 0)
        (W2.log (Call.tuh_control_xfer
          (feature_xfer HUB_REQUEST_CLEAR_FEATURE d 1 HUB_FEATURE_PORT_CONNECTION_CHANGE
            Callback.connection_clear_conn_change_complete 0) true)) =
        (W2.log (Call.tuh_control_xfer
          (feature_xfer HUB_REQUEST_CLEAR_FEATURE d 1 HUB_FEATURE_PORT_CONNECTION_CHANGE
            Callback.connection_clear_conn_change_complete 0) true)).log
          (Call.hcd_event_handler
            { rhport := env.usbh_get_rhport d,
              event_id := hcd_eventid_t.HCD_EVENT_DEVICE_REMOVE,
              hub_addr := d, hub_port := 1 } false) := by
      rw [hout _ _ rfl]
      exact conn_clear_disconnected c env
        { feature_xfer HUB_REQUEST_CLEAR_FEATURE d 1 HUB_FEATURE_PORT_CONNECTION_CHANGE
            Callback.connection_clear_conn_change_complete 0 with
          result := xfer_result_t.SUCCESS } _ rfl (by
        rw [show ({ feature_xfer HUB_REQUEST_CLEAR_FEATURE d 1
          HUB_FEATURE_PORT_CONNECTION_CHANGE Callback.connection_clear_conn_change_complete 0
          with result := xfer_result_t.SUCCESS } : tuh_xfer_t).daddr = d from rfl, hslot]
        exact hconn)
    rw [h2]
    simp only [new_calls_log, queued_cons, Call.queued?, Option.toList, queued_nil,
      List.append_nil, List.head?_nil, run_chain_none]
    refine ⟨_, rfl, ?_⟩
    have hfin : new_calls w ((W2.log (Call.tuh_control_xfer
        (feature_xfer HUB_REQUEST_CLEAR_FEATURE d 1 HUB_FEATURE_PORT_CONNECTION_CHANGE
          Callback.connection_clear_conn_change_complete 0) true)).log
        (Call.hcd_event_handler
          { rhport := env.usbh_get_rhport d,
            event_id := hcd_eventid_t.HCD_EVENT_DEVICE_REMOVE,
            hub_addr := d, hub_port := 1 } false)) =
        connection_cycle_calls c env d 1 false := by
      apply new_calls_of_trace
      simp [htr2, connection_cycle_calls]
    exact ⟨hfin, by rw [hfin]; exact arm_count_connection_cycle_calls c env d 1 false⟩
  · -- connected: PORT_RESET, then ATTACH
    have h2 : complete_xfer c env dev
        (feature_xfer HUB_REQUEST_CLEAR_FEATURE d 1 HUB_FEATURE_PORT_CONNECTION_CHANGE
          Callback.connection_clear_conn_change_complete 0)
        (W2.log (Call.tuh_control_xfer
          (feature_xfer HUB_REQUEST_CLEAR_FEATURE d 1 HUB_FEATURE_PORT_CONNECTION_CHANGE
            Callback.connection_clear_conn_change_complete 0) true)) =
        (W2.log (Call.tuh_control_xfer
          (feature_xfer HUB_REQUEST_CLEAR_FEATURE d 1 HUB_FEATURE_PORT_CONNECTION_CHANGE
            Callback.connection_clear_conn_change_complete 0) true)).log
          (Call.tuh_control_xfer (feature_xfer HUB_REQUEST_SET_FEATURE d 1
            HUB_FEATURE_PORT_RESET Callback.connection_port_reset_complete 0) true) := by
      rw [hout _ _ rfl]
      exact conn_clear_connected c env
        { feature_xfer HUB_REQUEST_CLEAR_FEATURE d 1 HUB_FEATURE_PORT_CONNECTION_CHANGE
            Callback.connection_clear_conn_change_complete 0 with
          result := xfer_result_t.SUCCESS } _ henv rfl (by
        rw [show ({ feature_xfer HUB_REQUEST_CLEAR_FEATURE d 1
          HUB_FEATURE_PORT_CONNECTION_CHANGE Callback.connection_clear_conn_change_complete 0
          with result := xfer_result_t.SUCCESS } : tuh_xfer_t).daddr = d from rfl, hslot]
        exact hconn)
    rw [h2]
    simp only [new_calls_log, queued_cons, Call.queued?, Option.toList, queued_nil,
      List.append_nil, List.head?_cons, List.singleton_append]
    rw [run_chain_some]
    have h3 : complete_xfer c env dev
        (feature_xfer HUB_REQUEST_SET_FEATURE d 1 HUB_FEATURE_PORT_RESET
          Callback.connection_port_reset_complete 0)
        ((W2.log (Call.tuh_control_xfer
          (feature_xfer HUB_REQUEST_CLEAR_FEATURE d 1 HUB_FEATURE_PORT_CONNECTION_CHANGE
            Callback.connection_clear_conn_change_complete 0) true)).log
          (Call.tuh_control_xfer (feature_xfer HUB_REQUEST_SET_FEATURE d 1
            HUB_FEATURE_PORT_RESET Callback.connection_port_reset_complete 0) true)) =
        ((W2.log (Call.tuh_control_xfer
          (feature_xfer HUB_REQUEST_CLEAR_FEATURE d 1 HUB_FEATURE_PORT_CONNECTION_CHANGE
            Callback.connection_clear_conn_change_complete 0) true)).log
          (Call.tuh_control_xfer (feature_xfer HUB_REQUEST_SET_FEATURE d 1
            HUB_FEATURE_PORT_RESET Callback.connection_port_reset_complete 0) true)).log
          (Call.hcd_event_handler
            { rhport := env.usbh_get_rhport d,
              event_id := hcd_eventid_t.HCD_EVENT_DEVICE_ATTACH,
              hub_addr := d, hub_port := 1 } false) := by
      rw [hout _ _ rfl]
      exact reset_complete_success c env
        { feature_xfer HUB_REQUEST_SET_FEATURE d 1 HUB_FEATURE_PORT_RESET
            Callback.connection_port_reset_complete 0 with
          result := xfer_result_t.SUCCESS } _ rfl
    rw [h3]
    simp only [new_calls_log, queued_cons, Call.queued?, Option.toList, queued_nil,
      List.append_nil, List.head?_nil, run_chain_none]
    refine ⟨_, rfl, ?_⟩
    have hfin : new_calls w (((W2.log (Call.tuh_control_xfer
        (feature_xfer HUB_REQUEST_CLEAR_FEATURE d 1 HUB_FEATURE_PORT_CONNECTION_CHANGE
          Callback.connection_clear_conn_change_complete 0) true)).log
        (Call.tuh_control_xfer (feature_xfer HUB_REQUEST_SET_FEATURE d 1
          HUB_FEATURE_PORT_RESET Callback.connection_port_reset_complete 0) true)).log
        (Call.hcd_event_handler
          { rhport := env.usbh_get_rhport d,
            event_id := hcd_eventid_t.HCD_EVENT_DEVICE_ATTACH,
            hub_addr := d, hub_port := 1 } false)) =
        connection_cycle_calls c env d 1 true := by
      apply new_calls_of_trace
      simp [htr2, connection_cycle_calls]
    exact ⟨hfin, by rw [hfin]; exact arm_count_connection_cycle_calls c env d 1 true⟩

/-- Witness of the amended C6: scenario A on the two-port hub at address 5. -/
theorem connection_cycle_witness :
    ∃ wf, poll_cycle Cfg.sample Env.accept_all (Device.answer [1, 0, 1, 0]) 8 5 0x81
        xfer_result_t.SUCCESS (World.two_port_hub 2) = some wf ∧
      new_calls (World.two_port_hub 2) wf = connection_cycle_calls Cfg.sample Env.accept_all 5 1
        (port_status_of (port_status_answer Cfg.sample (Device.answer [1, 0, 1, 0]) 5 1
          (World.two_port_hub 2))).status_connection ∧
      arm_count (new_calls (World.two_port_hub 2) wf) = 0 :=
  connection_cycle Cfg.sample Env.accept_all (Device.answer [1, 0, 1, 0]) 8 5 0x81
    (World.two_port_hub 2) (fun _ _ => rfl) (fun _ _ => rfl) (by decide) (by decide)
    (by decide) (by decide)

/-! ## Opening and closing a hub -/

/-- What `hub_open` does: when the six checks on the descriptors pass it
opens the endpoint, and when that succeeds it writes the interface number and
the endpoint address into the slot; otherwise it returns false. -/
theorem hub_open_eq (c : Cfg) (env : Env) (rhport dev_addr : Nat)
    (itf_desc : tusb_desc_interface_t) (desc_ep : tusb_desc_endpoint_t) (max_len : Nat)
    (w : World) :
    hub_open c env rhport dev_addr itf_desc desc_ep max_len w =
      if itf_desc.bInterfaceClass = TUSB_CLASS_HUB ∧ itf_desc.bInterfaceSubClass = 0 ∧
          itf_desc.bInterfaceProtocol ≤ 1 ∧ 16 ≤ max_len ∧
          desc_ep.bDescriptorType = TUSB_DESC_ENDPOINT ∧
          desc_ep.xfer = TUSB_XFER_INTERRUPT then
        if env.tuh_edpt_open w.trace dev_addr desc_ep = true then
          (true, set_hub_itf c (w.log (Call.tuh_edpt_open dev_addr desc_ep true)) dev_addr
            { get_hub_itf c w dev_addr with
              itf_num := itf_desc.bInterfaceNumber, ep_in := desc_ep.bEndpointAddress })
        else (false, w.log (Call.tuh_edpt_open dev_addr desc_ep false))
      else (false, w) := by
  have e1 : (TUSB_CLASS_HUB = itf_desc.bInterfaceClass) =
      (itf_desc.bInterfaceClass = TUSB_CLASS_HUB) := propext eq_comm
  have e2 : (0 = itf_desc.bInterfaceSubClass) = (itf_desc.bInterfaceSubClass = 0) :=
    propext eq_comm
  have e3 : (TUSB_DESC_ENDPOINT = desc_ep.bDescriptorType) =
      (desc_ep.bDescriptorType = TUSB_DESC_ENDPOINT) := propext eq_comm
  have e4 : (TUSB_XFER_INTERRUPT = desc_ep.xfer) = (desc_ep.xfer = TUSB_XFER_INTERRUPT) :=
    propext eq_comm
  have e5 : (9 + 7 ≤ max_len) = (16 ≤ max_len) := rfl
  unfold hub_open
  simp only [e1, e2, e3, e4, e5, tuh_edpt_open]
  by_cases h1 : itf_desc.bInterfaceClass = TUSB_CLASS_HUB
  · by_cases h2 : itf_desc.bInterfaceSubClass = 0
    · by_cases h3 : itf_desc.bInterfaceProtocol ≤ 1
      · by_cases h4 : 16 ≤ max_len
        · by_cases h5 : desc_ep.bDescriptorType = TUSB_DESC_ENDPOINT
          · by_cases h6 : desc_ep.xfer = TUSB_XFER_INTERRUPT
            · cases he : env.tuh_edpt_open w.trace dev_addr desc_ep <;>
                simp [h1, h2, h3, h4, h5, h6, he, get_hub_itf]
            · simp [h1, h2, h3, h4, h5, h6]
          · simp [h1, h2, h3, h4, h5]
        · simp [h1, h2, h3, h4]
      · simp [h1, h2, h3]
    · simp [h1, h2]
  · simp [h1]

/-- The slot of `dev_addr` after a successful `hub_open`: interface number and
endpoint address are the new ones, the other fields are those from before. -/
theorem hub_open_slot (c : Cfg) (env : Env) (rhport dev_addr : Nat)
    (itf_desc : tusb_desc_interface_t) (desc_ep : tusb_desc_endpoint_t) (max_len : Nat)
    (w : World)
    (hopen : (hub_open c env rhport dev_addr itf_desc desc_ep max_len w).1 = true) :
    get_hub_itf c (hub_open c env rhport dev_addr itf_desc desc_ep max_len w).2 dev_addr =
      { get_hub_itf c w dev_addr with
        itf_num := itf_desc.bInterfaceNumber, ep_in := desc_ep.bEndpointAddress } := by
  rw [hub_open_eq] at hopen ⊢
  split_ifs at hopen ⊢ with h1 h2
  simp [get_hub_itf, set_hub_itf]

/-- The slot of `dev_addr` after `hub_close`, when it was populated or its
three fields from the hub descriptor and the port status were zero already. -/
theorem hub_close_slot (c : Cfg) (dev_addr : Nat) (w : World)
    (hslot : (c.CFG_TUH_DEVICE_MAX < dev_addr ∧ (get_hub_itf c w dev_addr).ep_in ≠ 0) ∨
      ((get_hub_itf c w dev_addr).bNbrPorts = 0 ∧
        (get_hub_itf c w dev_addr).bPwrOn2PwrGood = 0 ∧
        (get_hub_itf c w dev_addr).port_status = { status := 0, change := 0 })) :
    (get_hub_itf c (hub_close c dev_addr w) dev_addr).bNbrPorts = 0 ∧
      (get_hub_itf c (hub_close c dev_addr w) dev_addr).bPwrOn2PwrGood = 0 ∧
      (get_hub_itf c (hub_close c dev_addr w) dev_addr).port_status =
        { status := 0, change := 0 } := by
  unfold hub_close
  by_cases hd : dev_addr > c.CFG_TUH_DEVICE_MAX
  · by_cases he : (get_hub_itf c w dev_addr).ep_in = 0
    · rcases hslot with ⟨-, h⟩ | h
      · exact absurd he h
      · simpa [hd, he] using h
    · have he1 : ¬ (w.hub_itfs (hub_index c dev_addr)).ep_in = 0 := he
      simp [hd, he1, get_hub_itf, set_hub_itf, hub_interface_t.zero]
  · rcases hslot with ⟨h, -⟩ | h
    · exact absurd h hd
    · simpa [hd] using h

/-- Counterexample to C11: the slot of address 5 is unpopulated (status
endpoint address 0) but holds the port count 4 and the delay 50 of an earlier
hub descriptor.  `hub_close` leaves it as it is, the following `hub_open`
succeeds, and the stale port count and delay survive. -/
theorem hub_close_open_keeps_stale_fields :
    get_hub_itf Cfg.sample World.stale_slot 5 =
      { itf_num := 0, ep_in := 0, bNbrPorts := 4, bPwrOn2PwrGood := 50,
        port_status := { status := 0, change := 0 } } ∧
    (hub_open Cfg.sample Env.accept_all 0 5 (sample_itf_desc 1) (sample_ep_desc 0x81) 16
      (hub_close Cfg.sample 5 World.stale_slot)).1 = true ∧
    get_hub_itf Cfg.sample
        (hub_open Cfg.sample Env.accept_all 0 5 (sample_itf_desc 1) (sample_ep_desc 0x81) 16
          (hub_close Cfg.sample 5 World.stale_slot)).2 5 =
      { itf_num := 1, ep_in := 0x81, bNbrPorts := 4, bPwrOn2PwrGood := 50,
        port_status := { status := 0, change := 0 } } := by
  refine ⟨by decide, by decide, by decide⟩

/-- Claim C11, amended: for every prior state in which the slot of the hub
address is populated (status endpoint address not 0), or in which its port
count, power-on delay and cached port status are zero already, `hub_close`
followed by a successful `hub_open` for the same address leaves the slot with
the interface number and the status endpoint of the new descriptors and with
port count, power-on delay and cached port status all zero. -/
theorem hub_close_open_resets (c : Cfg) (env : Env) (rhport dev_addr : Nat)
    (itf_desc : tusb_desc_interface_t) (desc_ep : tusb_desc_endpoint_t) (max_len : Nat)
    (w : World)
    (hslot : (c.CFG_TUH_DEVICE_MAX < dev_addr ∧ (get_hub_itf c w dev_addr).ep_in ≠ 0) ∨
      ((get_hub_itf c w dev_addr).bNbrPorts = 0 ∧
        (get_hub_itf c w dev_addr).bPwrOn2PwrGood = 0 ∧
        (get_hub_itf c w dev_addr).port_status = { status := 0, change := 0 }))
    (hopen : (hub_open c env rhport dev_addr itf_desc desc_ep max_len
      (hub_close c dev_addr w)).1 = true) :
    get_hub_itf c (hub_open c env rhport dev_addr itf_desc desc_ep max_len
        (hub_close c dev_addr w)).2 dev_addr =
      { itf_num := itf_desc.bInterfaceNumber, ep_in := desc_ep.bEndpointAddress,
        bNbrPorts := 0, bPwrOn2PwrGood := 0, port_status := { status := 0, change := 0 } } := by
  obtain ⟨h1, h2, h3⟩ := hub_close_slot c dev_addr w hslot
  rw [hub_open_slot c env rhport dev_addr itf_desc desc_ep max_len _ hopen]
  simp only [h1, h2, h3]

/-- Witness of the amended C11: the populated two-port hub at address 5. -/
theorem hub_close_open_resets_witness :
    get_hub_itf Cfg.sample
        (hub_open Cfg.sample Env.accept_all 0 5 (sample_itf_desc 1) (sample_ep_desc 0x82) 16
          (hub_close Cfg.sample 5 (World.two_port_hub 0))).2 5 =
      { itf_num := 1, ep_in := 0x82, bNbrPorts := 0, bPwrOn2PwrGood := 0,
        port_status := { status := 0, change := 0 } } :=
  hub_close_open_resets Cfg.sample Env.accept_all 0 5 (sample_itf_desc 1) (sample_ep_desc 0x82)
    16 (World.two_port_hub 0) (Or.inl ⟨by decide, by decide⟩) (by decide)

/-- Claim C12: `hub_open` returns true exactly when the interface class is
HUB, the subclass is 0, the protocol is one of the single-TT values 0 and 1
(the multi-TT value 2 and everything above are rejected), `max_len` covers the
9 bytes of an interface descriptor plus the 7 bytes of an endpoint descriptor,
the next descriptor is an interrupt endpoint descriptor, and `tuh_edpt_open`
succeeds; it returns false in every other case; and when it returns true the
slot holds the interface number of the descriptor and the address of the
endpoint descriptor. -/
theorem hub_open_iff (c : Cfg) (env : Env) (rhport dev_addr : Nat)
    (itf_desc : tusb_desc_interface_t) (desc_ep : tusb_desc_endpoint_t) (max_len : Nat)
    (w : World) :
    ((hub_open c env rhport dev_addr itf_desc desc_ep max_len w).1 = true ↔
      (itf_desc.bInterfaceClass = TUSB_CLASS_HUB ∧ itf_desc.bInterfaceSubClass = 0 ∧
        itf_desc.bInterfaceProtocol ≤ 1 ∧ 9 + 7 ≤ max_len ∧
        desc_ep.bDescriptorType = TUSB_DESC_ENDPOINT ∧
        desc_ep.xfer = TUSB_XFER_INTERRUPT ∧
        env.tuh_edpt_open w.trace dev_addr desc_ep = true)) ∧
    ((hub_open c env rhport dev_addr itf_desc desc_ep max_len w).1 = false ↔
      ¬ (itf_desc.bInterfaceClass = TUSB_CLASS_HUB ∧ itf_desc.bInterfaceSubClass = 0 ∧
        itf_desc.bInterfaceProtocol ≤ 1 ∧ 9 + 7 ≤ max_len ∧
        desc_ep.bDescriptorType = TUSB_DESC_ENDPOINT ∧
        desc_ep.xfer = TUSB_XFER_INTERRUPT ∧
        env.tuh_edpt_open w.trace dev_addr desc_ep = true)) ∧
    ((hub_open c env rhport dev_addr itf_desc desc_ep max_len w).1 = true →
      (get_hub_itf c (hub_open c env rhport dev_addr itf_desc desc_ep max_len w).2
          dev_addr).itf_num = itf_desc.bInterfaceNumber ∧
      (get_hub_itf c (hub_open c env rhport dev_addr itf_desc desc_ep max_len w).2
          dev_addr).ep_in = desc_ep.bEndpointAddress) := by
  have hiff : (hub_open c env rhport dev_addr itf_desc desc_ep max_len w).1 = true ↔
      (itf_desc.bInterfaceClass = TUSB_CLASS_HUB ∧ itf_desc.bInterfaceSubClass = 0 ∧
        itf_desc.bInterfaceProtocol ≤ 1 ∧ 9 + 7 ≤ max_len ∧
        desc_ep.bDescriptorType = TUSB_DESC_ENDPOINT ∧
        desc_ep.xfer = TUSB_XFER_INTERRUPT ∧
        env.tuh_edpt_open w.trace dev_addr desc_ep = true) := by
    rw [hub_open_eq]
    constructor
    · intro h
      split_ifs at h with h1 h2
      obtain ⟨a1, a2, a3, a4, a5, a6⟩ := h1
      exact ⟨a1, a2, a3, a4, a5, a6, h2⟩
    · rintro ⟨a1, a2, a3, a4, a5, a6, a7⟩
      have a4a : 16 ≤ max_len := a4
      rw [if_pos ⟨a1, a2, a3, a4a, a5, a6⟩, if_pos a7]
  refine ⟨hiff, ?_, ?_⟩
  · rw [← hiff]
    cases (hub_open c env rhport dev_addr itf_desc desc_ep max_len w).1 <;> simp
  · intro hopen
    rw [hub_open_slot c env rhport dev_addr itf_desc desc_ep max_len w hopen]
    exact ⟨rfl, rfl⟩

/-- Witness of C12: the descriptors of a single-TT hub are accepted, those of
a multi-TT interface (protocol 2) are not. -/
theorem hub_open_iff_witness :
    (hub_open Cfg.sample Env.accept_all 0 5 (sample_itf_desc 1) (sample_ep_desc 0x81) 16
      World.init).1 = true ∧
    (hub_open Cfg.sample Env.accept_all 0 5
      { sample_itf_desc 1 with bInterfaceProtocol := 2 } (sample_ep_desc 0x81) 16
      World.init).1 = false :=
  ⟨(hub_open_iff Cfg.sample Env.accept_all 0 5 (sample_itf_desc 1) (sample_ep_desc 0x81) 16
      World.init).1.mpr (by decide),
    (hub_open_iff Cfg.sample Env.accept_all 0 5
      { sample_itf_desc 1 with bInterfaceProtocol := 2 } (sample_ep_desc 0x81) 16
      World.init).2.1.mpr (by decide)⟩

/-! ## The request builders as seen by the host stack -/

/-- Claim C13: each of `hub_port_get_status`, `hub_port_set_feature` and
`hub_port_clear_feature` builds exactly one control request, of type CLASS, on
endpoint 0 of the hub, with recipient DEVICE when the port is 0 and OTHER
otherwise and with `wIndex` the port; GET_STATUS has direction IN, `wValue` 0,
`wLength` 4 and the buffer of the caller; SET_FEATURE and CLEAR_FEATURE have
direction OUT, `wValue` the feature, `wLength` 0 and no buffer; callback and
user data are those of the caller. -/
theorem hub_port_requests_shape (env : Env) (hub_addr hub_port feature : Nat) (resp : BufPtr)
    (complete_cb : Callback) (user_data : Nat) (w : World) :
    (∃ X, control_xfers (new_calls w
          (hub_port_get_status env hub_addr hub_port resp complete_cb user_data w).2) = [X] ∧
        X.daddr = hub_addr ∧ X.ep_addr = 0 ∧ X.setup.type = TUSB_REQ_TYPE_CLASS ∧
        X.setup.recipient =
          (if hub_port = 0 then TUSB_REQ_RCPT_DEVICE else TUSB_REQ_RCPT_OTHER) ∧
        X.setup.wIndex = hub_port ∧ X.setup.bRequest = HUB_REQUEST_GET_STATUS ∧
        X.setup.direction = TUSB_DIR_IN ∧ X.setup.wValue = 0 ∧ X.setup.wLength = 4 ∧
        X.buffer = resp ∧ X.complete_cb = complete_cb ∧ X.user_data = user_data) ∧
    (∃ X, control_xfers (new_calls w
          (hub_port_set_feature env hub_addr hub_port feature complete_cb user_data w).2) = [X] ∧
        X.daddr = hub_addr ∧ X.ep_addr = 0 ∧ X.setup.type = TUSB_REQ_TYPE_CLASS ∧
        X.setup.recipient =
          (if hub_port = 0 then TUSB_REQ_RCPT_DEVICE else TUSB_REQ_RCPT_OTHER) ∧
        X.setup.wIndex = hub_port ∧ X.setup.bRequest = HUB_REQUEST_SET_FEATURE ∧
        X.setup.direction = TUSB_DIR_OUT ∧ X.setup.wValue = feature ∧ X.setup.wLength = 0 ∧
        X.buffer = BufPtr.null ∧ X.complete_cb = complete_cb ∧ X.user_data = user_data) ∧
    (∃ X, control_xfers (new_calls w
          (hub_port_clear_feature env hub_addr hub_port feature complete_cb user_data w).2) =
          [X] ∧
        X.daddr = hub_addr ∧ X.ep_addr = 0 ∧ X.setup.type = TUSB_REQ_TYPE_CLASS ∧
        X.setup.recipient =
          (if hub_port = 0 then TUSB_REQ_RCPT_DEVICE else TUSB_REQ_RCPT_OTHER) ∧
        X.setup.wIndex = hub_port ∧ X.setup.bRequest = HUB_REQUEST_CLEAR_FEATURE ∧
        X.setup.direction = TUSB_DIR_OUT ∧ X.setup.wValue = feature ∧ X.setup.wLength = 0 ∧
        X.buffer = BufPtr.null ∧ X.complete_cb = complete_cb ∧ X.user_data = user_data) := by
  refine ⟨⟨get_status_xfer hub_addr hub_port resp complete_cb user_data, ?_, ?_⟩,
    ⟨feature_xfer HUB_REQUEST_SET_FEATURE hub_addr hub_port feature complete_cb user_data,
      ?_, ?_⟩,
    ⟨feature_xfer HUB_REQUEST_CLEAR_FEATURE hub_addr hub_port feature complete_cb user_data,
      ?_, ?_⟩⟩
  · simp [hub_port_get_status_eq]
  · simp [get_status_xfer]
  · simp [hub_port_set_feature_eq]
  · simp [feature_xfer]
  · simp [hub_port_clear_feature_eq]
  · simp [feature_xfer]

/-- Claim C14: each of `hub_port_get_status`, `hub_port_set_feature` and
`hub_port_clear_feature` makes exactly one call into the host stack, a
`tuh_control_xfer`, returns what that call returned (so false exactly when the
submission returned false), and leaves the slot table as it was. -/
theorem hub_port_requests_submit_once (env : Env) (hub_addr hub_port feature : Nat)
    (resp : BufPtr) (complete_cb : Callback) (user_data : Nat) (w : World) :
    (∃ X, new_calls w (hub_port_get_status env hub_addr hub_port resp complete_cb user_data w).2 =
          [Call.tuh_control_xfer X (env.tuh_control_xfer w.trace X)] ∧
        (hub_port_get_status env hub_addr hub_port resp complete_cb user_data w).1 =
          env.tuh_control_xfer w.trace X ∧
        (hub_port_get_status env hub_addr hub_port resp complete_cb user_data w).2.hub_itfs =
          w.hub_itfs) ∧
    (∃ X, new_calls w
          (hub_port_set_feature env hub_addr hub_port feature complete_cb user_data w).2 =
          [Call.tuh_control_xfer X (env.tuh_control_xfer w.trace X)] ∧
        (hub_port_set_feature env hub_addr hub_port feature complete_cb user_data w).1 =
          env.tuh_control_xfer w.trace X ∧
        (hub_port_set_feature env hub_addr hub_port feature complete_cb user_data w).2.hub_itfs =
          w.hub_itfs) ∧
    (∃ X, new_calls w
          (hub_port_clear_feature env hub_addr hub_port feature complete_cb user_data w).2 =
          [Call.tuh_control_xfer X (env.tuh_control_xfer w.trace X)] ∧
        (hub_port_clear_feature env hub_addr hub_port feature complete_cb user_data w).1 =
          env.tuh_control_xfer w.trace X ∧
        (hub_port_clear_feature env hub_addr hub_port feature complete_cb user_data
          w).2.hub_itfs = w.hub_itfs) := by
  refine ⟨⟨get_status_xfer hub_addr hub_port resp complete_cb user_data, ?_⟩,
    ⟨feature_xfer HUB_REQUEST_SET_FEATURE hub_addr hub_port feature complete_cb user_data, ?_⟩,
    ⟨feature_xfer HUB_REQUEST_CLEAR_FEATURE hub_addr hub_port feature complete_cb user_data,
      ?_⟩⟩
  · simp [hub_port_get_status_eq]
  · simp [hub_port_set_feature_eq]
  · simp [hub_port_clear_feature_eq]

/-! ## The poller arm in detail -/

/-- What `hub_edpt_status_xfer` does: it claims the status endpoint; when the
claim is granted it submits the interrupt read, and when that is refused it
releases the claim. -/
theorem hub_edpt_status_xfer_eq (c : Cfg) (env : Env) (d : Nat) (w : World) :
    hub_edpt_status_xfer c env d w =
      if env.usbh_edpt_claim w.trace d (get_hub_itf c w d).ep_in = true then
        if env.usbh_edpt_xfer
            (w.trace ++ [Call.usbh_edpt_claim d (get_hub_itf c w d).ep_in true]) d
            (get_hub_itf c w d).ep_in (BufPtr.status_change (hub_index c d)) 1 = true then
          (true, (w.log (Call.usbh_edpt_claim d (get_hub_itf c w d).ep_in true)).log
            (Call.usbh_edpt_xfer d (get_hub_itf c w d).ep_in
              (BufPtr.status_change (hub_index c d)) 1 true))
        else
          (false, ((w.log (Call.usbh_edpt_claim d (get_hub_itf c w d).ep_in true)).log
            (Call.usbh_edpt_xfer d (get_hub_itf c w d).ep_in
              (BufPtr.status_change (hub_index c d)) 1 false)).log
            (Call.usbh_edpt_release d (get_hub_itf c w d).ep_in))
      else (false, w.log (Call.usbh_edpt_claim d (get_hub_itf c w d).ep_in false)) := by
  unfold hub_edpt_status_xfer
  simp only [usbh_edpt_claim, usbh_edpt_xfer, usbh_edpt_release]
  cases h1 : env.usbh_edpt_claim w.trace d (get_hub_itf c w d).ep_in
  · simp
  · simp only [not_true_eq_false, if_false, if_true, log_trace]
    cases h2 : env.usbh_edpt_xfer
        (w.trace ++ [Call.usbh_edpt_claim d (get_hub_itf c w d).ep_in true]) d
        (get_hub_itf c w d).ep_in (BufPtr.status_change (hub_index c d)) 1 <;> simp

/-- Claim C15: `hub_edpt_status_xfer` returns true exactly when the claim of
the status endpoint of the hub is granted and the interrupt read submitted
after it is queued; the read, when there is one, is for 1 byte on the status
endpoint stored in the slot, into the status-change buffer of the hub; when the
claim is refused no interrupt read is submitted. -/
theorem hub_edpt_status_xfer_iff (c : Cfg) (env : Env) (d : Nat) (w : World) :
    ((hub_edpt_status_xfer c env d w).1 = true ↔
      (env.usbh_edpt_claim w.trace d (get_hub_itf c w d).ep_in = true ∧
        env.usbh_edpt_xfer
          (w.trace ++ [Call.usbh_edpt_claim d (get_hub_itf c w d).ep_in true]) d
          (get_hub_itf c w d).ep_in (BufPtr.status_change (hub_index c d)) 1 = true)) ∧
    edpt_xfers (new_calls w (hub_edpt_status_xfer c env d w).2) =
      (if env.usbh_edpt_claim w.trace d (get_hub_itf c w d).ep_in = true then
        [(d, (get_hub_itf c w d).ep_in, BufPtr.status_change (hub_index c d), 1)]
      else []) := by
  rw [hub_edpt_status_xfer_eq]
  cases h1 : env.usbh_edpt_claim w.trace d (get_hub_itf c w d).ep_in
  · simp [edpt_xfers]
  · cases h2 : env.usbh_edpt_xfer
        (w.trace ++ [Call.usbh_edpt_claim d (get_hub_itf c w d).ep_in true]) d
        (get_hub_itf c w d).ep_in (BufPtr.status_change (hub_index c d)) 1 <;>
      simp [edpt_xfers]

/-- Witness of C15: with every request accepted the arm returns true after one
1-byte read on endpoint 0x81 into the status-change buffer of slot 0. -/
theorem hub_edpt_status_xfer_iff_witness :
    (hub_edpt_status_xfer Cfg.sample Env.accept_all 5 World.connected_hub).1 = true ∧
    edpt_xfers (new_calls World.connected_hub
      (hub_edpt_status_xfer Cfg.sample Env.accept_all 5 World.connected_hub).2) =
      [(5, 0x81, BufPtr.status_change 0, 1)] :=
  ⟨(hub_edpt_status_xfer_iff Cfg.sample Env.accept_all 5 World.connected_hub).1.mpr
      ⟨by decide, by decide⟩,
    (hub_edpt_status_xfer_iff Cfg.sample Env.accept_all 5 World.connected_hub).2⟩

/-- Counterexample to C16: the host stack refuses the claim of the status
endpoint.  `hub_edpt_status_xfer` returns false, and its only call is the
refused claim: `usbh_edpt_release` is not called. -/
theorem arm_claim_refused_no_release :
    (hub_edpt_status_xfer Cfg.sample Env.refuse_claim 5 World.connected_hub).1 = false ∧
    new_calls World.connected_hub
        (hub_edpt_status_xfer Cfg.sample Env.refuse_claim 5 World.connected_hub).2 =
      [Call.usbh_edpt_claim 5 0x81 false] ∧
    releases (new_calls World.connected_hub
      (hub_edpt_status_xfer Cfg.sample Env.refuse_claim 5 World.connected_hub).2) = [] := by
  refine ⟨by decide, by decide, by decide⟩

/-- Claim C16, amended: when `hub_edpt_status_xfer` returns false because the
interrupt submission was refused, it has released the claim on the status
endpoint (one `usbh_edpt_release` for that device and endpoint); when it
returns false because the claim itself was refused, it has not called
`usbh_edpt_release`; when it returns true it has not released the claim. -/
theorem hub_edpt_status_xfer_release (c : Cfg) (env : Env) (d : Nat) (w : World) :
    (env.usbh_edpt_claim w.trace d (get_hub_itf c w d).ep_in = true →
      env.usbh_edpt_xfer
        (w.trace ++ [Call.usbh_edpt_claim d (get_hub_itf c w d).ep_in true]) d
        (get_hub_itf c w d).ep_in (BufPtr.status_change (hub_index c d)) 1 = false →
      (hub_edpt_status_xfer c env d w).1 = false ∧
        releases (new_calls w (hub_edpt_status_xfer c env d w).2) =
          [(d, (get_hub_itf c w d).ep_in)]) ∧
    (env.usbh_edpt_claim w.trace d (get_hub_itf c w d).ep_in = false →
      (hub_edpt_status_xfer c env d w).1 = false ∧
        releases (new_calls w (hub_edpt_status_xfer c env d w).2) = []) ∧
    ((hub_edpt_status_xfer c env d w).1 = true →
      releases (new_calls w (hub_edpt_status_xfer c env d w).2) = []) := by
  rw [hub_edpt_status_xfer_eq]
  cases h1 : env.usbh_edpt_claim w.trace d (get_hub_itf c w d).ep_in
  · simp [releases]
  · cases h2 : env.usbh_edpt_xfer
        (w.trace ++ [Call.usbh_edpt_claim d (get_hub_itf c w d).ep_in true]) d
        (get_hub_itf c w d).ep_in (BufPtr.status_change (hub_index c d)) 1 <;>
      simp [releases]

/-- Witness of the amended C16: the interrupt submission is refused and the
claim is released. -/
theorem hub_edpt_status_xfer_release_witness :
    (hub_edpt_status_xfer Cfg.sample Env.refuse_edpt_xfer 5 World.connected_hub).1 = false ∧
    releases (new_calls World.connected_hub
      (hub_edpt_status_xfer Cfg.sample Env.refuse_edpt_xfer 5 World.connected_hub).2) =
      [(5, (get_hub_itf Cfg.sample World.connected_hub 5).ep_in)] :=
  (hub_edpt_status_xfer_release Cfg.sample Env.refuse_edpt_xfer 5 World.connected_hub).1
    (by decide) (by decide)

/-! ## The hub-level path and the failure branches -/

/-- Claim C17: on a successful hub GET_STATUS, `get_status_complete` submits
CLEAR_FEATURE(LOCAL_POWER_CHANGE) to the hub (port 0, recipient DEVICE) when
the local-power change bit is set, otherwise
CLEAR_FEATURE(OVER_CURRENT_CHANGE) when the over-current change bit is set,
each with `port_clear_feature_complete_stub` as continuation and as the only
control request; when neither bit is set, or the GET_STATUS failed, its whole
effect is one arming of the poller, with no control transfer. -/
theorem get_status_complete_hub_path (c : Cfg) (env : Env) (x : tuh_xfer_t) (w : World) :
    (x.result = xfer_result_t.SUCCESS →
      (w.load_hub_status x.buffer).change_local_power_source = true →
      control_xfers (new_calls w (get_status_complete c env x w)) =
        [feature_xfer HUB_REQUEST_CLEAR_FEATURE x.daddr 0 HUB_FEATURE_HUB_LOCAL_POWER_CHANGE
          Callback.port_clear_feature_complete_stub 0]) ∧
    (x.result = xfer_result_t.SUCCESS →
      (w.load_hub_status x.buffer).change_local_power_source = false →
      (w.load_hub_status x.buffer).change_over_current = true →
      control_xfers (new_calls w (get_status_complete c env x w)) =
        [feature_xfer HUB_REQUEST_CLEAR_FEATURE x.daddr 0 HUB_FEATURE_HUB_OVER_CURRENT_CHANGE
          Callback.port_clear_feature_complete_stub 0]) ∧
    ((x.result ≠ xfer_result_t.SUCCESS ∨
        ((w.load_hub_status x.buffer).change_local_power_source = false ∧
          (w.load_hub_status x.buffer).change_over_current = false)) →
      get_status_complete c env x w = (hub_edpt_status_xfer c env x.daddr w).2 ∧
      control_xfers (new_calls w (get_status_complete c env x w)) = [] ∧
      arm_count (new_calls w (get_status_complete c env x w)) = 1) ∧
    (∀ (f : Nat) (cb : Callback),
      (feature_xfer HUB_REQUEST_CLEAR_FEATURE x.daddr 0 f cb 0).setup.wIndex = 0 ∧
      (feature_xfer HUB_REQUEST_CLEAR_FEATURE x.daddr 0 f cb 0).setup.recipient =
        TUSB_REQ_RCPT_DEVICE) := by
  refine ⟨?_, ?_, ?_, ?_⟩
  · intro hres hlp
    rw [get_status_complete_calls, if_pos hres, if_pos hlp]
    simp
  · intro hres hlp hoc
    rw [get_status_complete_calls, if_pos hres, hlp, if_pos hoc]
    simp
  · intro h
    have hw : get_status_complete c env x w = (hub_edpt_status_xfer c env x.daddr w).2 := by
      unfold get_status_complete
      rcases h with h | ⟨h1, h2⟩
      · simp [h]
      · by_cases hres : x.result = xfer_result_t.SUCCESS
        · simp [hres, h1, h2]
        · simp [hres]
    rw [hw]
    simp
  · intro f cb
    simp [feature_xfer]

/-- Witness of C17: the hub reports a local-power change and an over-current
change; only the local-power change is cleared. -/
theorem get_status_complete_hub_path_witness :
    control_xfers (new_calls (World.two_port_hub_resp [0, 0, 3, 0])
        (get_status_complete Cfg.sample Env.accept_all
          (sample_xfer xfer_result_t.SUCCESS 0 Callback.get_status_complete)
          (World.two_port_hub_resp [0, 0, 3, 0]))) =
      [feature_xfer HUB_REQUEST_CLEAR_FEATURE 5 0 HUB_FEATURE_HUB_LOCAL_POWER_CHANGE
        Callback.port_clear_feature_complete_stub 0] :=
  (get_status_complete_hub_path Cfg.sample Env.accept_all
    (sample_xfer xfer_result_t.SUCCESS 0 Callback.get_status_complete)
    (World.two_port_hub_resp [0, 0, 3, 0])).1 rfl (by decide)

/-- Claim C18: when CLEAR_FEATURE(PORT_CONNECTION_CHANGE) completes with a
non-success result, the whole effect of
`connection_clear_conn_change_complete` is one arming of the poller: no
PORT_RESET or other control request is submitted and no event is emitted,
whatever the stored connection bit is. -/
theorem conn_clear_failure_abandons (c : Cfg) (env : Env) (x : tuh_xfer_t) (w : World)
    (hres : x.result ≠ xfer_result_t.SUCCESS) :
    connection_clear_conn_change_complete c env x w =
        (hub_edpt_status_xfer c env x.daddr w).2 ∧
      arm_count (new_calls w (connection_clear_conn_change_complete c env x w)) = 1 ∧
      control_xfers (new_calls w (connection_clear_conn_change_complete c env x w)) = [] ∧
      events (new_calls w (connection_clear_conn_change_complete c env x w)) = [] := by
  have hw : connection_clear_conn_change_complete c env x w =
      (hub_edpt_status_xfer c env x.daddr w).2 := by
    unfold connection_clear_conn_change_complete
    simp [hres]
  rw [hw]
  simp

/-- Witness of C18: the clear fails with a stall while the slot says
"connected". -/
theorem conn_clear_failure_abandons_witness :
    arm_count (new_calls World.connected_hub
        (connection_clear_conn_change_complete Cfg.sample Env.accept_all
          (sample_xfer xfer_result_t.STALLED 1 Callback.connection_clear_conn_change_complete)
          World.connected_hub)) = 1 ∧
      control_xfers (new_calls World.connected_hub
        (connection_clear_conn_change_complete Cfg.sample Env.accept_all
          (sample_xfer xfer_result_t.STALLED 1 Callback.connection_clear_conn_change_complete)
          World.connected_hub)) = [] ∧
      events (new_calls World.connected_hub
        (connection_clear_conn_change_complete Cfg.sample Env.accept_all
          (sample_xfer xfer_result_t.STALLED 1 Callback.connection_clear_conn_change_complete)
          World.connected_hub)) = [] :=
  (conn_clear_failure_abandons Cfg.sample Env.accept_all
    (sample_xfer xfer_result_t.STALLED 1 Callback.connection_clear_conn_change_complete)
    World.connected_hub (by decide)).2

/-- Claim C19: when the GET_DESCRIPTOR completion or a SET_FEATURE(PORT_POWER)
completion carries a non-success result, `config_set_port_power` and
`config_port_power_complete` return with the state untouched: no call into the
host stack is made (no request, no retry, no arming of the poller, no
mount-complete signal) and the slot table is unchanged. -/
theorem config_failure_is_fatal (c : Cfg) (env : Env) (x : tuh_xfer_t) (w : World)
    (hres : x.result ≠ xfer_result_t.SUCCESS) :
    config_set_port_power c env x w = w ∧
    config_port_power_complete c env x w = w ∧
    new_calls w (config_set_port_power c env x w) = [] ∧
    new_calls w (config_port_power_complete c env x w) = [] ∧
    (config_set_port_power c env x w).hub_itfs = w.hub_itfs ∧
    (config_port_power_complete c env x w).hub_itfs = w.hub_itfs := by
  have hne : ¬ xfer_result_t.SUCCESS = x.result := fun h => hres h.symm
  have h1 : config_set_port_power c env x w = w := by
    unfold config_set_port_power
    simp [hne]
  have h2 : config_port_power_complete c env x w = w := by
    unfold config_port_power_complete
    simp [hne]
  rw [h1, h2]
  simp

/-- Witness of C19 -/
theorem config_failure_is_fatal_witness :
    new_calls (World.two_port_hub 0)
        (config_set_port_power Cfg.sample Env.accept_all
          (sample_xfer xfer_result_t.FAILED 0 Callback.config_set_port_power)
          (World.two_port_hub 0)) = [] ∧
    new_calls (World.two_port_hub 0)
        (config_port_power_complete Cfg.sample Env.accept_all
          (sample_xfer xfer_result_t.FAILED 0 Callback.config_set_port_power)
          (World.two_port_hub 0)) = [] :=
  have h := config_failure_is_fatal Cfg.sample Env.accept_all
    (sample_xfer xfer_result_t.FAILED 0 Callback.config_set_port_power)
    (World.two_port_hub 0) (by decide)
  ⟨h.2.2.1, h.2.2.2.1⟩

/-! ## Refused submissions -/

/-- The calls of one `hub_xfer_cb`: the callback returns, and it either only
arms the poller or submits one control transfer and arms the poller when that
submission is refused. -/
theorem hub_xfer_cb_calls (c : Cfg) (env : Env) (daddr ep_addr xferred_bytes : Nat)
    (result : xfer_result_t) (w : World) :
    ∃ r, hub_xfer_cb c env daddr ep_addr result xferred_bytes w = some r ∧
      (new_calls w r.2 = arm_calls c env daddr w ∨
        ∃ X, new_calls w r.2 = submit_else_arm c env daddr w X) := by
  by_cases h : result ≠ xfer_result_t.SUCCESS ∨
      w.byte (BufPtr.status_change (hub_index c daddr)) 0 = 0
  · exact ⟨_, hub_xfer_cb_idle c env daddr ep_addr xferred_bytes result w h, Or.inl rfl⟩
  · have hres : result = xfer_result_t.SUCCESS := by
      by_contra hne
      exact h (Or.inl hne)
    have hne : w.byte (BufPtr.status_change (hub_index c daddr)) 0 ≠ 0 := fun h0 =>
      h (Or.inr h0)
    subst hres
    cases hb0 : tu_bit_test (w.byte (BufPtr.status_change (hub_index c daddr)) 0) 0
    · obtain ⟨j, hj1, hj, hmin⟩ := exists_least_port_bit _ hne hb0
      rw [hub_xfer_cb_port_branch c env daddr ep_addr xferred_bytes w j hb0 hj1 hj hmin]
      by_cases hn : j ≤ (get_hub_itf c w daddr).bNbrPorts
      · rw [if_pos hn]
        cases hr : env.tuh_control_xfer w.trace (get_status_xfer daddr j
            (BufPtr.ctrl_buf (hub_index c daddr)) Callback.port_get_status_complete 0)
        · simp only [Bool.false_eq_true, if_false]
          refine ⟨_, rfl, Or.inr ⟨get_status_xfer daddr j
            (BufPtr.ctrl_buf (hub_index c daddr)) Callback.port_get_status_complete 0, ?_⟩⟩
          rw [new_calls_arm_after c env daddr w _ _ (log_trace _ _)]
          simp [submit_else_arm, hr]
        · simp only [if_true]
          refine ⟨_, rfl, Or.inr ⟨get_status_xfer daddr j
            (BufPtr.ctrl_buf (hub_index c daddr)) Callback.port_get_status_complete 0, ?_⟩⟩
          simp [submit_else_arm, hr]
      · rw [if_neg hn]
        exact ⟨_, rfl, Or.inl rfl⟩
    · unfold hub_xfer_cb
      simp only [if_true, if_neg hne, hb0, hub_get_status, hub_port_get_status_eq]
      cases hr : env.tuh_control_xfer w.trace (get_status_xfer daddr 0
          (BufPtr.ctrl_buf (hub_index c daddr)) Callback.get_status_complete 0)
      · simp only [Bool.false_eq_true, not_false_eq_true, if_true, some_pair_of_not]
        refine ⟨_, rfl, Or.inr ⟨get_status_xfer daddr 0
          (BufPtr.ctrl_buf (hub_index c daddr)) Callback.get_status_complete 0, ?_⟩⟩
        rw [new_calls_arm_after c env daddr w _ _ (log_trace _ _)]
        simp [submit_else_arm, hr]
      · simp only [not_true_eq_false, if_false]
        refine ⟨_, rfl, Or.inr ⟨get_status_xfer daddr 0
          (BufPtr.ctrl_buf (hub_index c daddr)) Callback.get_status_complete 0, ?_⟩⟩
        simp [submit_else_arm, hr]

theorem rearm_of_refused (c : Cfg) (env : Env) (d : Nat) (l : List Call)
    (hl : (∃ w1, l = arm_calls c env d w1) ∨ ∃ w1 X, l = submit_else_arm c env d w1 X)
    (hsub : control_xfers l ≠ []) (hq : queued l = []) : arm_count l = 1 := by
  rcases hl with ⟨w1, rfl⟩ | ⟨w1, X, rfl⟩
  · simp
  · cases hr : env.tuh_control_xfer w1.trace X
    · simp [hr]
    · simp [hr] at hq

/-- The submission-failure fallback of `hub_xfer_cb`, `get_status_complete`,
`port_get_status_complete` and `connection_port_reset_complete`: an invocation
that submitted a control request and had it refused has armed the poller,
exactly once. -/
theorem submission_failure_rearms (c : Cfg) (env : Env) (x : tuh_xfer_t) (w : World)
    (daddr ep_addr xferred_bytes : Nat) (result : xfer_result_t) :
    (∃ r, hub_xfer_cb c env daddr ep_addr result xferred_bytes w = some r ∧
      (control_xfers (new_calls w r.2) ≠ [] → queued (new_calls w r.2) = [] →
        arm_count (new_calls w r.2) = 1)) ∧
    (control_xfers (new_calls w (get_status_complete c env x w)) ≠ [] →
      queued (new_calls w (get_status_complete c env x w)) = [] →
      arm_count (new_calls w (get_status_complete c env x w)) = 1) ∧
    (control_xfers (new_calls w (port_get_status_complete c env x w)) ≠ [] →
      queued (new_calls w (port_get_status_complete c env x w)) = [] →
      arm_count (new_calls w (port_get_status_complete c env x w)) = 1) ∧
    (control_xfers (new_calls w (connection_port_reset_complete c env x w)) ≠ [] →
      queued (new_calls w (connection_port_reset_complete c env x w)) = [] →
      arm_count (new_calls w (connection_port_reset_complete c env x w)) = 1) := by
  refine ⟨?_, ?_, ?_, ?_⟩
  · obtain ⟨r, hr, hshape⟩ := hub_xfer_cb_calls c env daddr ep_addr xferred_bytes result w
    refine ⟨r, hr, rearm_of_refused c env daddr _ ?_⟩
    rcases hshape with h | ⟨X, h⟩
    · exact Or.inl ⟨w, h⟩
    · exact Or.inr ⟨w, X, h⟩
  · apply rearm_of_refused c env x.daddr
    rw [get_status_complete_calls]
    split_ifs
    · exact Or.inr ⟨_, _, rfl⟩
    · exact Or.inr ⟨_, _, rfl⟩
    · exact Or.inl ⟨_, rfl⟩
    · exact Or.inl ⟨_, rfl⟩
  · apply rearm_of_refused c env x.daddr
    rw [port_get_status_complete_calls]
    split
    · split
      · exact Or.inr ⟨_, _, rfl⟩
      · exact Or.inl ⟨_, rfl⟩
    · exact Or.inl ⟨_, rfl⟩
  · rw [connection_port_reset_complete_calls]
    split
    · intro h
      simp at h
    · exact rearm_of_refused c env x.daddr _ (Or.inr ⟨_, _, rfl⟩)

/-- Claim C20, at the handler `connection_clear_conn_change_complete`: the
clear of the connection change succeeded, the slot says "connected", and the
host stack refuses the SET_FEATURE(PORT_RESET) submission.  The refused
submission is the only call of the handler: the poller is not armed. -/
theorem conn_clear_reset_refused_no_rearm :
    (get_hub_itf Cfg.sample World.connected_hub 5).port_status.status_connection = true ∧
    new_calls World.connected_hub
        (connection_clear_conn_change_complete Cfg.sample Env.refuse_control
          (sample_xfer xfer_result_t.SUCCESS 1 Callback.connection_clear_conn_change_complete)
          World.connected_hub) =
      [Call.tuh_control_xfer
        (feature_xfer HUB_REQUEST_SET_FEATURE 5 1 HUB_FEATURE_PORT_RESET
          Callback.connection_port_reset_complete 0) false] ∧
    arm_count (new_calls World.connected_hub
        (connection_clear_conn_change_complete Cfg.sample Env.refuse_control
          (sample_xfer xfer_result_t.SUCCESS 1 Callback.connection_clear_conn_change_complete)
          World.connected_hub)) = 0 := by
  refine ⟨by decide, by decide, by decide⟩

/-! ## The configuration handlers as calls -/

/-- What `hub_set_config` does, as the calls it adds to the log. -/
theorem hub_set_config_calls (c : Cfg) (env : Env) (dev_addr itf_num : Nat) (w : World) :
    new_calls w (hub_set_config c env dev_addr itf_num w).2 =
      if itf_num = (get_hub_itf c w dev_addr).itf_num then
        [Call.tuh_control_xfer (get_descriptor_xfer c dev_addr)
          (env.tuh_control_xfer w.trace (get_descriptor_xfer c dev_addr))]
      else [] := by
  unfold hub_set_config
  by_cases h : itf_num = (get_hub_itf c w dev_addr).itf_num
  · simp only [h, not_true_eq_false, if_false, if_true, tuh_control_xfer]
    cases hr : env.tuh_control_xfer w.trace
        { daddr := dev_addr, ep_addr := 0, result := xfer_result_t.SUCCESS, actual_len := 0,
          setup :=
            { recipient := TUSB_REQ_RCPT_DEVICE, type := TUSB_REQ_TYPE_CLASS,
              direction := TUSB_DIR_IN, bRequest := HUB_REQUEST_GET_DESCRIPTOR,
              wValue := 0, wIndex := 0, wLength := c.sizeof_hub_desc_cs_t },
          buffer := BufPtr.ctrl_buf (hub_index c dev_addr),
          complete_cb := Callback.config_set_port_power, user_data := 0 } <;>
      simp [get_descriptor_xfer, hr]
  · simp [h]

/-- What `config_set_port_power` does, as the calls it adds to the log. -/
theorem config_set_port_power_calls (c : Cfg) (env : Env) (x : tuh_xfer_t) (w : World) :
    new_calls w (config_set_port_power c env x w) =
      if x.result = xfer_result_t.SUCCESS then
        [Call.tuh_control_xfer (power_xfer x.daddr 1)
          (env.tuh_control_xfer w.trace (power_xfer x.daddr 1))]
      else [] := by
  unfold config_set_port_power
  by_cases h : x.result = xfer_result_t.SUCCESS
  · simp only [h, not_true_eq_false, if_false, if_true, hub_port_set_feature_eq]
    exact new_calls_of_trace _ _ _ rfl
  · have hne : ¬ xfer_result_t.SUCCESS = x.result := fun e => h e.symm
    simp [h, hne]

/-- What `config_port_power_complete` does, as the calls it adds to the log. -/
theorem config_port_power_complete_calls (c : Cfg) (env : Env) (x : tuh_xfer_t) (w : World) :
    new_calls w (config_port_power_complete c env x w) =
      if x.result = xfer_result_t.SUCCESS then
        if x.setup.wIndex = (get_hub_itf c w x.daddr).bNbrPorts then
          arm_calls c env x.daddr w ++
            [Call.usbh_driver_set_config_complete x.daddr (get_hub_itf c w x.daddr).itf_num]
        else
          [Call.tuh_control_xfer (power_xfer x.daddr ((x.setup.wIndex + 1) % 256))
            (env.tuh_control_xfer w.trace (power_xfer x.daddr ((x.setup.wIndex + 1) % 256)))]
      else [] := by
  unfold config_port_power_complete
  by_cases h : x.result = xfer_result_t.SUCCESS
  · by_cases hN : x.setup.wIndex = (get_hub_itf c w x.daddr).bNbrPorts
    · simp only [h, not_true_eq_false, if_false, if_true, hN]
      apply new_calls_of_trace
      simp [usbh_driver_set_config_complete, arm_trace]
    · simp only [h, not_true_eq_false, if_false, if_true, hN, hub_port_set_feature_eq]
      exact new_calls_of_trace _ _ _ rfl
  · have hne : ¬ xfer_result_t.SUCCESS = x.result := fun e => h e.symm
    simp [h, hne]

/-! ## Anomalies and dead ends -/

/-- Claim C21: for a successful status notification whose status-change byte
is not 0, has bit 0 clear and has no bit k with 1 ≤ k ≤ port_count set,
`hub_xfer_cb` returns, its whole effect is one arming of the poller, and it
submits no control transfer. -/
theorem hub_xfer_cb_anomaly (c : Cfg) (env : Env) (daddr ep_addr xferred_bytes : Nat)
    (w : World)
    (hne : w.byte (BufPtr.status_change (hub_index c daddr)) 0 ≠ 0)
    (hb0 : tu_bit_test (w.byte (BufPtr.status_change (hub_index c daddr)) 0) 0 = false)
    (hnone : ∀ k, 1 ≤ k → k ≤ (get_hub_itf c w daddr).bNbrPorts →
      tu_bit_test (w.byte (BufPtr.status_change (hub_index c daddr)) 0) k = false) :
    ∃ r, hub_xfer_cb c env daddr ep_addr xfer_result_t.SUCCESS xferred_bytes w = some r ∧
      r = hub_edpt_status_xfer c env daddr w ∧
      control_xfers (new_calls w r.2) = [] ∧
      arm_count (new_calls w r.2) = 1 := by
  obtain ⟨j, hj1, hj, hmin⟩ := exists_least_port_bit _ hne hb0
  have hjn : ¬ j ≤ (get_hub_itf c w daddr).bNbrPorts := by
    intro hle
    have := hnone j hj1 hle
    simp only [tu_bit_test] at this
    rw [this] at hj
    exact Bool.false_ne_true hj
  refine ⟨hub_edpt_status_xfer c env daddr w, ?_, rfl, by simp, by simp⟩
  rw [hub_xfer_cb_port_branch c env daddr ep_addr xferred_bytes w j hb0 hj1 hj hmin,
    if_neg hjn]

/-- Witness of C21: the two-port hub reports a change on port 3 only. -/
theorem hub_xfer_cb_anomaly_witness :
    ∃ r, hub_xfer_cb Cfg.sample Env.accept_all 5 0x81 xfer_result_t.SUCCESS 1
        (World.two_port_hub 8) = some r ∧
      r = hub_edpt_status_xfer Cfg.sample Env.accept_all 5 (World.two_port_hub 8) ∧
      control_xfers (new_calls (World.two_port_hub 8) r.2) = [] ∧
      arm_count (new_calls (World.two_port_hub 8) r.2) = 1 :=
  hub_xfer_cb_anomaly Cfg.sample Env.accept_all 5 0x81 1 (World.two_port_hub 8)
    (by decide) (by decide) (by
      intro k h1 h2
      have h3 : k ≤ 2 := h2
      interval_cases k <;> decide)

/-- Claim C23: `port_get_status_complete` only arms the poller, once and with
no control transfer, when the GET_STATUS failed and when none of the five
change bits is set; `port_clear_feature_complete_stub` only arms the poller,
once and with no event, whatever the result of the clear was; and on a
successful GET_STATUS the response is stored as the cached port status of the
slot of the hub, no other field and no other slot being changed. -/
theorem port_dead_ends_rearm (c : Cfg) (env : Env) (x : tuh_xfer_t) (w : World) :
    (x.result ≠ xfer_result_t.SUCCESS →
      port_get_status_complete c env x w = (hub_edpt_status_xfer c env x.daddr w).2 ∧
      control_xfers (new_calls w (port_get_status_complete c env x w)) = [] ∧
      arm_count (new_calls w (port_get_status_complete c env x w)) = 1) ∧
    (x.result = xfer_result_t.SUCCESS →
      (w.load_port_status x.buffer).change_connection = false →
      (w.load_port_status x.buffer).change_port_enable = false →
      (w.load_port_status x.buffer).change_suspend = false →
      (w.load_port_status x.buffer).change_over_current = false →
      (w.load_port_status x.buffer).change_reset = false →
      control_xfers (new_calls w (port_get_status_complete c env x w)) = [] ∧
      arm_count (new_calls w (port_get_status_complete c env x w)) = 1) ∧
    (port_clear_feature_complete_stub c env x w = (hub_edpt_status_xfer c env x.daddr w).2 ∧
      control_xfers (new_calls w (port_clear_feature_complete_stub c env x w)) = [] ∧
      events (new_calls w (port_clear_feature_complete_stub c env x w)) = [] ∧
      arm_count (new_calls w (port_clear_feature_complete_stub c env x w)) = 1) ∧
    (x.result = xfer_result_t.SUCCESS →
      (port_get_status_complete c env x w).hub_itfs =
        Function.update w.hub_itfs (hub_index c x.daddr)
          { get_hub_itf c w x.daddr with port_status := w.load_port_status x.buffer }) := by
  refine ⟨?_, ?_, ?_, ?_⟩
  · intro hres
    have hw : port_get_status_complete c env x w = (hub_edpt_status_xfer c env x.daddr w).2 := by
      unfold port_get_status_complete
      simp [hres]
    rw [hw]
    simp
  · intro hres h0 h1 h2 h3 h4
    rw [port_get_status_complete_calls, if_pos hres]
    simp only [hub_port_status_response_t.change_connection,
      hub_port_status_response_t.change_port_enable,
      hub_port_status_response_t.change_suspend,
      hub_port_status_response_t.change_over_current,
      hub_port_status_response_t.change_reset] at h0 h1 h2 h3 h4
    simp [priority_change, List.find?, h0, h1, h2, h3, h4]
  · refine ⟨rfl, ?_, ?_, ?_⟩ <;> simp [port_clear_feature_complete_stub]
  · intro hres
    rw [port_get_status_complete_hub_itfs c env x w hres]
    rfl

/-- Witness of C23: a GET_STATUS response without any change bit. -/
theorem port_dead_ends_rearm_witness :
    control_xfers (new_calls (World.two_port_hub_resp [3, 1, 0, 0])
        (port_get_status_complete Cfg.sample Env.accept_all
          (sample_xfer xfer_result_t.SUCCESS 1 Callback.port_get_status_complete)
          (World.two_port_hub_resp [3, 1, 0, 0]))) = [] ∧
      arm_count (new_calls (World.two_port_hub_resp [3, 1, 0, 0])
        (port_get_status_complete Cfg.sample Env.accept_all
          (sample_xfer xfer_result_t.SUCCESS 1 Callback.port_get_status_complete)
          (World.two_port_hub_resp [3, 1, 0, 0]))) = 1 :=
  (port_dead_ends_rearm Cfg.sample Env.accept_all
    (sample_xfer xfer_result_t.SUCCESS 1 Callback.port_get_status_complete)
    (World.two_port_hub_resp [3, 1, 0, 0])).2.1 rfl (by decide) (by decide) (by decide)
    (by decide) (by decide)

/-! ## The end of the configuration sequence -/

theorem ports_after_length (p n : Nat) : (ports_after p n).length = n := by
  simp [ports_after]

/-- Claim C26: the port-power sequence terminates for every descriptor value.
With every request accepted and every transfer successful, the chain started by
the completion of GET_DESCRIPTOR ends (257 completions of fuel are enough for
every port count 0..255), after at most 256 SET_FEATURE(PORT_POWER) requests,
with one mount-complete signal as its last call; for port_count = 0 the
requests are those for ports 1, ..., 255 and then 0, the 8-bit successor of
255. -/
theorem port_power_sequence_terminates (c : Cfg) (env : Env) (dev : Device) (d fuel : Nat)
    (w : World)
    (henv : ∀ tr x, env.tuh_control_xfer tr x = true)
    (hdev : ∀ tr x, dev.result tr x = xfer_result_t.SUCCESS)
    (hfuel : 257 ≤ fuel) :
    ∃ wf, run_chain c env dev fuel (some (get_descriptor_xfer c d)) w = some wf ∧
      (power_ports (new_calls w wf)).length ≤ 256 ∧
      mount_completes (new_calls w wf) = [(d, (get_hub_itf c w d).itf_num)] ∧
      (new_calls w wf).getLast? =
        some (Call.usbh_driver_set_config_complete d (get_hub_itf c w d).itf_num) ∧
      (dev.data w.trace (get_descriptor_xfer c d) 2 % 256 = 0 →
        power_ports (new_calls w wf) = List.range' 1 255 ++ [0]) := by
  obtain ⟨wf, wm, hrun, hcalls⟩ := config_sequence c env dev d fuel w henv hdev hfuel
  refine ⟨wf, hrun, ?_, ?_, ?_, ?_⟩
  · rw [hcalls, power_ports_sequence, List.length_cons, ports_after_length]
    have : (dev.data w.trace (get_descriptor_xfer c d) 2 % 256 + 255) % 256 < 256 :=
      Nat.mod_lt _ (by norm_num)
    omega
  · rw [hcalls]
    simp [mount_completes_power_map]
  · rw [hcalls, ← List.append_assoc, List.getLast?_append]
    simp
  · intro h0
    rw [hcalls, power_ports_sequence, h0]
    exact ports_wrap

/-- Witness of C26: the hub descriptor reports 0 ports. -/
theorem port_power_sequence_terminates_witness :
    ∃ wf, run_chain Cfg.sample Env.accept_all (Device.answer [9, 41, 0, 0, 0, 50, 0, 0, 0]) 257
        (some (get_descriptor_xfer Cfg.sample 5)) World.init = some wf ∧
      (power_ports (new_calls World.init wf)).length ≤ 256 ∧
      mount_completes (new_calls World.init wf) =
        [(5, (get_hub_itf Cfg.sample World.init 5).itf_num)] ∧
      (new_calls World.init wf).getLast? =
        some (Call.usbh_driver_set_config_complete 5
          (get_hub_itf Cfg.sample World.init 5).itf_num) ∧
      ((Device.answer [9, 41, 0, 0, 0, 50, 0, 0, 0]).data World.init.trace
          (get_descriptor_xfer Cfg.sample 5) 2 % 256 = 0 →
        power_ports (new_calls World.init wf) = List.range' 1 255 ++ [0]) :=
  port_power_sequence_terminates Cfg.sample Env.accept_all
    (Device.answer [9, 41, 0, 0, 0, 50, 0, 0, 0]) 5 257 World.init (fun _ _ => rfl)
    (fun _ _ => rfl) (le_refl _)

/-- Claim C27: when the SET_FEATURE(PORT_POWER) of the last port completes
successfully (`wIndex` equals the port count), `config_port_power_complete`
arms the poller once and then signals mount-complete for the stored interface
number, exactly once and as its last call, whatever the arm returned: a failed
arm neither suppresses the signal nor is retried, and no control transfer is
submitted. -/
theorem last_port_signals_mount_complete (c : Cfg) (env : Env) (x : tuh_xfer_t) (w : World)
    (hres : x.result = xfer_result_t.SUCCESS)
    (hlast : x.setup.wIndex = (get_hub_itf c w x.daddr).bNbrPorts) :
    new_calls w (config_port_power_complete c env x w) =
        arm_calls c env x.daddr w ++
          [Call.usbh_driver_set_config_complete x.daddr (get_hub_itf c w x.daddr).itf_num] ∧
      mount_completes (new_calls w (config_port_power_complete c env x w)) =
        [(x.daddr, (get_hub_itf c w x.daddr).itf_num)] ∧
      arm_count (new_calls w (config_port_power_complete c env x w)) = 1 ∧
      control_xfers (new_calls w (config_port_power_complete c env x w)) = [] := by
  rw [config_port_power_complete_calls, if_pos hres, if_pos hlast]
  exact ⟨rfl, by simp, by simp, by simp⟩

/-- Witness of C27: the claim of the status endpoint is refused, the arm fails,
and mount-complete is signalled all the same. -/
theorem last_port_signals_mount_complete_witness :
    (hub_edpt_status_xfer Cfg.sample Env.refuse_claim 5 (World.two_port_hub 0)).1 = false ∧
    new_calls (World.two_port_hub 0)
        (config_port_power_complete Cfg.sample Env.refuse_claim
          (sample_xfer xfer_result_t.SUCCESS 2 Callback.config_port_power_complete)
          (World.two_port_hub 0)) =
      arm_calls Cfg.sample Env.refuse_claim 5 (World.two_port_hub 0) ++
        [Call.usbh_driver_set_config_complete 5 0] :=
  ⟨by decide,
    (last_port_signals_mount_complete Cfg.sample Env.refuse_claim
      (sample_xfer xfer_result_t.SUCCESS 2 Callback.config_port_power_complete)
      (World.two_port_hub 0) rfl (by decide)).1⟩

/-- Claim C28: `hub_open` is atomic on failure: whenever it returns false the
slot table is exactly as it was; and when it returns true the only change of
the slot table is that the slot of the device has the new interface number and
status endpoint, its port count, power-on delay and cached port status keeping
their previous values. -/
theorem hub_open_atomic (c : Cfg) (env : Env) (rhport dev_addr : Nat)
    (itf_desc : tusb_desc_interface_t) (desc_ep : tusb_desc_endpoint_t) (max_len : Nat)
    (w : World) :
    ((hub_open c env rhport dev_addr itf_desc desc_ep max_len w).1 = false →
      (hub_open c env rhport dev_addr itf_desc desc_ep max_len w).2.hub_itfs = w.hub_itfs) ∧
    ((hub_open c env rhport dev_addr itf_desc desc_ep max_len w).1 = true →
      (hub_open c env rhport dev_addr itf_desc desc_ep max_len w).2.hub_itfs =
        Function.update w.hub_itfs (hub_index c dev_addr)
          { get_hub_itf c w dev_addr with
            itf_num := itf_desc.bInterfaceNumber, ep_in := desc_ep.bEndpointAddress } ∧
      (get_hub_itf c (hub_open c env rhport dev_addr itf_desc desc_ep max_len w).2
        dev_addr).bNbrPorts = (get_hub_itf c w dev_addr).bNbrPorts ∧
      (get_hub_itf c (hub_open c env rhport dev_addr itf_desc desc_ep max_len w).2
        dev_addr).bPwrOn2PwrGood = (get_hub_itf c w dev_addr).bPwrOn2PwrGood ∧
      (get_hub_itf c (hub_open c env rhport dev_addr itf_desc desc_ep max_len w).2
        dev_addr).port_status = (get_hub_itf c w dev_addr).port_status) := by
  constructor
  · intro hf
    rw [hub_open_eq] at hf ⊢
    split_ifs at hf ⊢ <;> simp
  · intro ht
    refine ⟨?_, ?_⟩
    · rw [hub_open_eq] at ht ⊢
      split_ifs at ht ⊢
      simp [set_hub_itf]
    · rw [hub_open_slot c env rhport dev_addr itf_desc desc_ep max_len w ht]
      exact ⟨rfl, rfl, rfl⟩

/-- Witness of C28: the endpoint of a mounted hub is refused by a descriptor
that is too short, and the slot keeps its content. -/
theorem hub_open_atomic_witness :
    (hub_open Cfg.sample Env.accept_all 0 5 (sample_itf_desc 1) (sample_ep_desc 0x82) 15
      (World.two_port_hub 0)).2.hub_itfs = (World.two_port_hub 0).hub_itfs :=
  (hub_open_atomic Cfg.sample Env.accept_all 0 5 (sample_itf_desc 1) (sample_ep_desc 0x82) 15
    (World.two_port_hub 0)).1 (by decide)

/-! ## Events and submissions of every step -/

theorem events_of_shape (c : Cfg) (env : Env) (d : Nat) (w : World) (l : List Call)
    (hl : l = arm_calls c env d w ∨ ∃ X, l = submit_else_arm c env d w X) :
    events l = [] := by
  rcases hl with rfl | ⟨X, rfl⟩ <;> simp

theorem control_xfers_of_shape (c : Cfg) (env : Env) (d : Nat) (w : World) (l : List Call)
    (hl : l = arm_calls c env d w ∨ ∃ X, l = submit_else_arm c env d w X) :
    (control_xfers l).length ≤ 1 := by
  rcases hl with rfl | ⟨X, rfl⟩ <;> simp

theorem hub_open_trace (c : Cfg) (env : Env) (rhport dev_addr : Nat)
    (itf_desc : tusb_desc_interface_t) (desc_ep : tusb_desc_endpoint_t) (max_len : Nat)
    (w : World) :
    new_calls w (hub_open c env rhport dev_addr itf_desc desc_ep max_len w).2 = [] ∨
      ∃ r, new_calls w (hub_open c env rhport dev_addr itf_desc desc_ep max_len w).2 =
        [Call.tuh_edpt_open dev_addr desc_ep r] := by
  rw [hub_open_eq]
  split_ifs
  · exact Or.inr ⟨true, new_calls_of_trace _ _ _ rfl⟩
  · exact Or.inr ⟨false, by simp⟩
  · exact Or.inl (by simp)

theorem hub_close_trace (c : Cfg) (dev_addr : Nat) (w : World) :
    (hub_close c dev_addr w).trace = w.trace := by
  unfold hub_close
  simp only
  split_ifs <;> rfl

/-- Claim C22: the events handed to the host-controller event queue.
`connection_port_reset_complete` emits one ATTACH event on a successful result
and none otherwise; `connection_clear_conn_change_complete` emits one REMOVE
event on a successful result with the stored connection bit clear and none
otherwise; both events carry the root port `usbh_get_rhport` gives for the
device address of the transfer, that address as hub address, and the low byte
of `wIndex` as hub port.  No other function of the driver emits an event. -/
theorem events_attach_or_remove (c : Cfg) (env : Env) (x : tuh_xfer_t) (w : World)
    (daddr ep_addr xferred_bytes itf_num rhport hub_port feature max_len user_data : Nat)
    (result : xfer_result_t) (itf_desc : tusb_desc_interface_t)
    (desc_ep : tusb_desc_endpoint_t) (resp : BufPtr) (cb : Callback) :
    events (new_calls w (connection_port_reset_complete c env x w)) =
      (if x.result = xfer_result_t.SUCCESS then
        [{ rhport := env.usbh_get_rhport x.daddr,
           event_id := hcd_eventid_t.HCD_EVENT_DEVICE_ATTACH,
           hub_addr := x.daddr, hub_port := x.setup.wIndex % 256 }]
      else []) ∧
    events (new_calls w (connection_clear_conn_change_complete c env x w)) =
      (if x.result = xfer_result_t.SUCCESS ∧
          (get_hub_itf c w x.daddr).port_status.status_connection = false then
        [{ rhport := env.usbh_get_rhport x.daddr,
           event_id := hcd_eventid_t.HCD_EVENT_DEVICE_REMOVE,
           hub_addr := x.daddr, hub_port := x.setup.wIndex % 256 }]
      else []) ∧
    (∃ r, hub_xfer_cb c env daddr ep_addr result xferred_bytes w = some r ∧
      events (new_calls w r.2) = []) ∧
    events (new_calls w (get_status_complete c env x w)) = [] ∧
    events (new_calls w (port_get_status_complete c env x w)) = [] ∧
    events (new_calls w (port_clear_feature_complete_stub c env x w)) = [] ∧
    events (new_calls w (config_set_port_power c env x w)) = [] ∧
    events (new_calls w (config_port_power_complete c env x w)) = [] ∧
    events (new_calls w (hub_set_config c env daddr itf_num w).2) = [] ∧
    events (new_calls w (hub_edpt_status_xfer c env daddr w).2) = [] ∧
    events (new_calls w (hub_open c env rhport daddr itf_desc desc_ep max_len w).2) = [] ∧
    events (new_calls w (hub_close c daddr w)) = [] ∧
    events (new_calls w (hub_port_get_status env daddr hub_port resp cb user_data w).2) = [] ∧
    events (new_calls w (hub_port_set_feature env daddr hub_port feature cb user_data w).2) =
      [] ∧
    events (new_calls w (hub_port_clear_feature env daddr hub_port feature cb user_data w).2) =
      [] := by
  refine ⟨?_, ?_, ?_, ?_, ?_, ?_, ?_, ?_, ?_, ?_, ?_, ?_, ?_, ?_, ?_⟩
  · rw [connection_port_reset_complete_calls]
    split_ifs <;> simp
  · rw [connection_clear_conn_change_complete_calls]
    by_cases hres : x.result = xfer_result_t.SUCCESS
    · cases hc : (get_hub_itf c w x.daddr).port_status.status_connection <;> simp [hres]
    · simp [hres]
  · obtain ⟨r, hr, hshape⟩ := hub_xfer_cb_calls c env daddr ep_addr xferred_bytes result w
    exact ⟨r, hr, events_of_shape c env daddr w _ hshape⟩
  · rw [get_status_complete_calls]
    split_ifs <;> simp
  · rw [port_get_status_complete_calls]
    split
    · split <;> simp
    · simp
  · simp [port_clear_feature_complete_stub]
  · rw [config_set_port_power_calls]
    split_ifs <;> simp
  · rw [config_port_power_complete_calls]
    split_ifs <;> simp
  · rw [hub_set_config_calls]
    split_ifs <;> simp
  · simp
  · rcases hub_open_trace c env rhport daddr itf_desc desc_ep max_len w with h | ⟨r, h⟩ <;>
      simp [h]
  · simp [new_calls, hub_close_trace]
  · simp [hub_port_get_status_eq]
  · simp [hub_port_set_feature_eq]
  · simp [hub_port_clear_feature_eq]

/-- Claim C24: every step of the driver submits at most one control transfer
per invocation, for every input and every answer of the host stack; each step
returns. -/
theorem one_submission_per_step (c : Cfg) (env : Env) (x : tuh_xfer_t) (w : World)
    (daddr ep_addr xferred_bytes itf_num : Nat) (result : xfer_result_t) :
    (control_xfers (new_calls w (hub_set_config c env daddr itf_num w).2)).length ≤ 1 ∧
    (control_xfers (new_calls w (config_set_port_power c env x w))).length ≤ 1 ∧
    (control_xfers (new_calls w (config_port_power_complete c env x w))).length ≤ 1 ∧
    (∃ r, hub_xfer_cb c env daddr ep_addr result xferred_bytes w = some r ∧
      (control_xfers (new_calls w r.2)).length ≤ 1) ∧
    (control_xfers (new_calls w (get_status_complete c env x w))).length ≤ 1 ∧
    (control_xfers (new_calls w (port_get_status_complete c env x w))).length ≤ 1 ∧
    (control_xfers (new_calls w (port_clear_feature_complete_stub c env x w))).length ≤ 1 ∧
    (control_xfers (new_calls w (connection_clear_conn_change_complete c env x w))).length ≤
      1 ∧
    (control_xfers (new_calls w (connection_port_reset_complete c env x w))).length ≤ 1 := by
  refine ⟨?_, ?_, ?_, ?_, ?_, ?_, ?_, ?_, ?_⟩
  · rw [hub_set_config_calls]
    split_ifs <;> simp
  · rw [config_set_port_power_calls]
    split_ifs <;> simp
  · rw [config_port_power_complete_calls]
    split_ifs <;> simp
  · obtain ⟨r, hr, hshape⟩ := hub_xfer_cb_calls c env daddr ep_addr xferred_bytes result w
    exact ⟨r, hr, control_xfers_of_shape c env daddr w _ hshape⟩
  · rw [get_status_complete_calls]
    split_ifs <;> simp
  · rw [port_get_status_complete_calls]
    split
    · split <;> simp
    · simp
  · simp [port_clear_feature_complete_stub]
  · rw [connection_clear_conn_change_complete_calls]
    split_ifs <;> simp
  · rw [connection_port_reset_complete_calls]
    split_ifs <;> simp

/-! ## Independence of the hubs -/

theorem hub_index_range (c : Cfg) (a : Nat) (h1 : c.CFG_TUH_DEVICE_MAX < a)
    (h2 : a ≤ c.CFG_TUH_DEVICE_MAX + c.CFG_TUH_HUB) :
    0 ≤ hub_index c a ∧ hub_index c a < (c.CFG_TUH_HUB : Int) := by
  unfold hub_index
  omega

theorem hub_index_ne (c : Cfg) (a b : Nat) (h : a ≠ b) : hub_index c a ≠ hub_index c b := by
  unfold hub_index
  omega

theorem local_to_refl (c : Cfg) (a : Nat) (w : World) : local_to c a w w :=
  ⟨fun _ _ => rfl, [], by simp, fun _ h => by simp at h⟩

theorem local_to_trans (c : Cfg) (a : Nat) (w w1 w2 : World) (h1 : local_to c a w w1)
    (h2 : local_to c a w1 w2) : local_to c a w w2 := by
  obtain ⟨f1, l1, t1, a1⟩ := h1
  obtain ⟨f2, l2, t2, a2⟩ := h2
  refine ⟨fun j hj => (f2 j hj).trans (f1 j hj), l1 ++ l2, by rw [t2, t1, List.append_assoc], ?_⟩
  intro k hk
  rcases List.mem_append.mp hk with h | h
  · exact a1 k h
  · exact a2 k h

theorem local_to_log (c : Cfg) (a : Nat) (w : World) (k : Call) (hk : Call.daddr k = a) :
    local_to c a w (w.log k) :=
  ⟨fun _ _ => rfl, [k], rfl, fun k1 h => by
    simp only [List.mem_singleton] at h
    rw [h, hk]⟩

theorem local_to_set (c : Cfg) (a : Nat) (w : World) (h : hub_interface_t) :
    local_to c a w (set_hub_itf c w a h) :=
  ⟨fun j hj => by simp [set_hub_itf, Function.update_noteq hj], [], by simp [set_hub_itf],
    fun _ h => by simp at h⟩

theorem local_to_log_of (c : Cfg) (a : Nat) (w w1 : World) (k : Call)
    (h : local_to c a w w1) (hk : Call.daddr k = a) : local_to c a w (w1.log k) :=
  local_to_trans c a w w1 _ h (local_to_log c a w1 k hk)

theorem local_to_arm (c : Cfg) (env : Env) (a : Nat) (w : World) :
    local_to c a w (hub_edpt_status_xfer c env a w).2 := by
  rw [hub_edpt_status_xfer_eq]
  cases env.usbh_edpt_claim w.trace a (get_hub_itf c w a).ep_in
  · simp only [Bool.false_eq_true, if_false]
    apply local_to_log_of
    · exact local_to_refl c a w
    · rfl
  · simp only [if_true]
    cases env.usbh_edpt_xfer
        (w.trace ++ [Call.usbh_edpt_claim a (get_hub_itf c w a).ep_in true]) a
        (get_hub_itf c w a).ep_in (BufPtr.status_change (hub_index c a)) 1
    · simp only [Bool.false_eq_true, if_false]
      apply local_to_log_of
      · apply local_to_log_of
        · apply local_to_log_of
          · exact local_to_refl c a w
          · rfl
        · rfl
      · rfl
    · simp only [if_true]
      apply local_to_log_of
      · apply local_to_log_of
        · exact local_to_refl c a w
        · rfl
      · rfl

theorem local_to_get_status (c : Cfg) (env : Env) (a p : Nat) (resp : BufPtr) (cb : Callback)
    (ud : Nat) (w : World) : local_to c a w (hub_port_get_status env a p resp cb ud w).2 := by
  rw [hub_port_get_status_eq]
  exact local_to_log c a w (Call.tuh_control_xfer (get_status_xfer a p resp cb ud) _) rfl

theorem local_to_set_feature (c : Cfg) (env : Env) (a p f : Nat) (cb : Callback)
    (ud : Nat) (w : World) : local_to c a w (hub_port_set_feature env a p f cb ud w).2 := by
  rw [hub_port_set_feature_eq]
  exact local_to_log c a w (Call.tuh_control_xfer (feature_xfer HUB_REQUEST_SET_FEATURE a p f cb ud) _) rfl

theorem local_to_clear_feature (c : Cfg) (env : Env) (a p f : Nat) (cb : Callback)
    (ud : Nat) (w : World) : local_to c a w (hub_port_clear_feature env a p f cb ud w).2 := by
  rw [hub_port_clear_feature_eq]
  exact local_to_log c a w (Call.tuh_control_xfer (feature_xfer HUB_REQUEST_CLEAR_FEATURE a p f cb ud) _) rfl

theorem local_to_processed (c : Cfg) (env : Env) (a : Nat) (w : World) (r : Bool × World)
    (h : local_to c a w r.2) :
    local_to c a w (if ¬ r.1 = true then (hub_edpt_status_xfer c env a r.2).2 else r.2) := by
  split_ifs
  · exact h
  · exact local_to_trans c a _ _ _ h (local_to_arm c env a r.2)

theorem local_to_independent (c : Cfg) (a b : Nat) (w w1 : World) (hab : a ≠ b)
    (h : local_to c a w w1) : independent_of c a b w w1 := by
  obtain ⟨f, l, t, hl⟩ := h
  refine ⟨f _ (hub_index_ne c b a (fun e => hab e.symm)), ?_⟩
  rw [new_calls_of_trace w w1 l t]
  exact hl

theorem local_to_hub_open (c : Cfg) (env : Env) (rhport a : Nat)
    (itf_desc : tusb_desc_interface_t) (desc_ep : tusb_desc_endpoint_t) (max_len : Nat)
    (w : World) : local_to c a w (hub_open c env rhport a itf_desc desc_ep max_len w).2 := by
  rw [hub_open_eq]
  split_ifs
  · exact local_to_trans c a w _ _ (local_to_log c a w (Call.tuh_edpt_open a desc_ep true) rfl)
      (local_to_set c a _ _)
  · exact local_to_log c a w (Call.tuh_edpt_open a desc_ep false) rfl
  · exact local_to_refl c a w

theorem local_to_hub_close (c : Cfg) (a : Nat) (w : World) :
    local_to c a w (hub_close c a w) := by
  unfold hub_close
  simp only
  split_ifs <;> first | exact local_to_refl c a w | exact local_to_set c a w _

theorem local_to_hub_set_config (c : Cfg) (env : Env) (a itf_num : Nat) (w : World) :
    local_to c a w (hub_set_config c env a itf_num w).2 := by
  unfold hub_set_config
  simp only [tuh_control_xfer]
  split_ifs <;> first
    | exact local_to_refl c a w
    | (apply local_to_log_of
       · exact local_to_refl c a w
       · rfl)

theorem local_to_config_set_port_power (c : Cfg) (env : Env) (x : tuh_xfer_t) (w : World) :
    local_to c x.daddr w (config_set_port_power c env x w) := by
  unfold config_set_port_power
  simp only
  split_ifs <;> first
    | exact local_to_refl c x.daddr w
    | exact local_to_trans c x.daddr w _ _ (local_to_set c x.daddr w _)
        (local_to_set_feature c env x.daddr _ _ _ _ _)

theorem local_to_config_port_power_complete (c : Cfg) (env : Env) (x : tuh_xfer_t)
    (w : World) : local_to c x.daddr w (config_port_power_complete c env x w) := by
  unfold config_port_power_complete
  simp only [usbh_driver_set_config_complete]
  split_ifs <;> first
    | exact local_to_refl c x.daddr w
    | exact local_to_set_feature c env x.daddr _ _ _ _ w
    | (apply local_to_log_of
       · exact local_to_arm c env x.daddr w
       · rfl)

theorem local_to_hub_xfer_cb_loop (c : Cfg) (env : Env) (a sc : Nat) (w : World) :
    ∀ (fuel port : Nat) (r : Bool × World),
      hub_xfer_cb_loop c env a sc fuel port w = some r → local_to c a w r.2 := by
  intro fuel
  induction fuel with
  | zero =>
    intro port r h
    simp [hub_xfer_cb_loop] at h
  | succ fuel ih =>
    intro port r h
    unfold hub_xfer_cb_loop at h
    split_ifs at h
    · cases h
      exact local_to_get_status c env a _ _ _ _ w
    · exact ih _ r h
    · cases h
      exact local_to_refl c a w

theorem local_to_of_some (c : Cfg) (a : Nat) (w w1 : World) (X : Bool × World) (p : Bool)
    (h : some X = some (p, w1)) (hl : local_to c a w X.2) : local_to c a w w1 := by
  cases h
  exact hl

theorem local_to_of_some_eq (c : Cfg) (a : Nat) (w : World) (X r : Bool × World)
    (h : some X = some r) (hl : local_to c a w X.2) : local_to c a w r.2 := by
  cases h
  exact hl

theorem local_to_hub_xfer_cb (c : Cfg) (env : Env) (a ep_addr xferred_bytes : Nat)
    (result : xfer_result_t) (w : World) (r : Bool × World)
    (h : hub_xfer_cb c env a ep_addr result xferred_bytes w = some r) :
    local_to c a w r.2 := by
  unfold hub_xfer_cb at h
  dsimp only at h
  split at h
  · cases h
  · rename_i processed w1 heq
    have h1 : local_to c a w w1 := by
      split_ifs at heq <;> first
        | exact local_to_of_some c a w w1 _ _ heq (local_to_refl c a w)
        | exact local_to_of_some c a w w1 _ _ heq (local_to_get_status c env a 0 _ _ _ w)
        | exact local_to_hub_xfer_cb_loop c env a _ w _ _ _ heq
    split_ifs at h <;> first
      | exact local_to_of_some_eq c a w _ r h h1
      | exact local_to_of_some_eq c a w _ r h
          (local_to_trans c a _ _ _ h1 (local_to_arm c env a w1))

theorem local_to_get_status_complete (c : Cfg) (env : Env) (x : tuh_xfer_t) (w : World) :
    local_to c x.daddr w (get_status_complete c env x w) := by
  unfold get_status_complete
  dsimp only
  apply local_to_processed
  split_ifs <;> first
    | exact local_to_refl c x.daddr w
    | exact local_to_clear_feature c env x.daddr 0 _ _ _ w

theorem local_to_port_get_status_complete (c : Cfg) (env : Env) (x : tuh_xfer_t) (w : World) :
    local_to c x.daddr w (port_get_status_complete c env x w) := by
  unfold port_get_status_complete
  dsimp only
  apply local_to_processed
  split_ifs <;> first
    | exact local_to_refl c x.daddr w
    | exact local_to_set c x.daddr w _
    | exact local_to_trans c x.daddr w _ _ (local_to_set c x.daddr w _)
        (local_to_clear_feature c env x.daddr _ _ _ _ _)

theorem local_to_stub (c : Cfg) (env : Env) (x : tuh_xfer_t) (w : World) :
    local_to c x.daddr w (port_clear_feature_complete_stub c env x w) :=
  local_to_arm c env x.daddr w

theorem local_to_conn_clear (c : Cfg) (env : Env) (x : tuh_xfer_t) (w : World) :
    local_to c x.daddr w (connection_clear_conn_change_complete c env x w) := by
  unfold connection_clear_conn_change_complete
  simp only [hub_port_reset, hcd_event_handler]
  split_ifs <;> first
    | exact local_to_arm c env x.daddr w
    | exact local_to_set_feature c env x.daddr _ _ _ _ w
    | (apply local_to_log_of
       · exact local_to_refl c x.daddr w
       · rfl)

theorem local_to_port_reset_complete (c : Cfg) (env : Env) (x : tuh_xfer_t) (w : World) :
    local_to c x.daddr w (connection_port_reset_complete c env x w) := by
  unfold connection_port_reset_complete
  simp only [tuh_control_xfer, hcd_event_handler]
  split_ifs <;> first
    | (apply local_to_log_of
       · exact local_to_refl c x.daddr w
       · rfl)
    | exact local_to_trans c x.daddr w _ _
        (local_to_log c x.daddr w (Call.tuh_control_xfer x _) rfl)
        (local_to_arm c env x.daddr _)

/-- Claim C25: cross-device independence.  For two distinct valid hub
addresses `a` and `b` the slot indices `daddr - 1 - CFG_TUH_DEVICE_MAX` lie in
`[0, CFG_TUH_HUB)` and differ; and `hub_open`, `hub_close`, `hub_set_config`
and every completion handler, invoked for `a`, return, leave the slot of `b` as
it was and address every call they make into the host stack (requests, claims
and reads of the arm, releases, mount-complete signals, events) to `a`. -/
theorem cross_device_independence (c : Cfg) (env : Env) (a b : Nat) (x : tuh_xfer_t)
    (w : World) (rhport itf_num ep_addr xferred_bytes max_len : Nat)
    (itf_desc : tusb_desc_interface_t) (desc_ep : tusb_desc_endpoint_t)
    (result : xfer_result_t)
    (ha1 : c.CFG_TUH_DEVICE_MAX < a) (ha2 : a ≤ c.CFG_TUH_DEVICE_MAX + c.CFG_TUH_HUB)
    (hb1 : c.CFG_TUH_DEVICE_MAX < b) (hb2 : b ≤ c.CFG_TUH_DEVICE_MAX + c.CFG_TUH_HUB)
    (hab : a ≠ b) (hx : x.daddr = a) :
    (0 ≤ hub_index c a ∧ hub_index c a < (c.CFG_TUH_HUB : Int) ∧
      0 ≤ hub_index c b ∧ hub_index c b < (c.CFG_TUH_HUB : Int) ∧
      hub_index c a ≠ hub_index c b) ∧
    independent_of c a b w (hub_open c env rhport a itf_desc desc_ep max_len w).2 ∧
    independent_of c a b w (hub_close c a w) ∧
    independent_of c a b w (hub_set_config c env a itf_num w).2 ∧
    independent_of c a b w (config_set_port_power c env x w) ∧
    independent_of c a b w (config_port_power_complete c env x w) ∧
    (∃ r, hub_xfer_cb c env a ep_addr result xferred_bytes w = some r ∧
      independent_of c a b w r.2) ∧
    independent_of c a b w (get_status_complete c env x w) ∧
    independent_of c a b w (port_get_status_complete c env x w) ∧
    independent_of c a b w (port_clear_feature_complete_stub c env x w) ∧
    independent_of c a b w (connection_clear_conn_change_complete c env x w) ∧
    independent_of c a b w (connection_port_reset_complete c env x w) := by
  subst hx
  refine ⟨⟨(hub_index_range c _ ha1 ha2).1, (hub_index_range c _ ha1 ha2).2,
    (hub_index_range c b hb1 hb2).1, (hub_index_range c b hb1 hb2).2,
    hub_index_ne c _ b hab⟩, ?_, ?_, ?_, ?_, ?_, ?_, ?_, ?_, ?_, ?_, ?_⟩
  · exact local_to_independent c _ b w _ hab (local_to_hub_open c env _ _ _ _ _ w)
  · exact local_to_independent c _ b w _ hab (local_to_hub_close c _ w)
  · exact local_to_independent c _ b w _ hab (local_to_hub_set_config c env _ _ w)
  · exact local_to_independent c _ b w _ hab (local_to_config_set_port_power c env x w)
  · exact local_to_independent c _ b w _ hab (local_to_config_port_power_complete c env x w)
  · obtain ⟨r, hr, -⟩ := hub_xfer_cb_calls c env x.daddr ep_addr xferred_bytes result w
    exact ⟨r, hr, local_to_independent c _ b w _ hab
      (local_to_hub_xfer_cb c env _ _ _ _ w r hr)⟩
  · exact local_to_independent c _ b w _ hab (local_to_get_status_complete c env x w)
  · exact local_to_independent c _ b w _ hab (local_to_port_get_status_complete c env x w)
  · exact local_to_independent c _ b w _ hab (local_to_stub c env x w)
  · exact local_to_independent c _ b w _ hab (local_to_conn_clear c env x w)
  · exact local_to_independent c _ b w _ hab (local_to_port_reset_complete c env x w)

/-- Witness of C25: the hubs at addresses 5 and 6 of the sample build, and a
GET_STATUS completion for hub 5. -/
theorem cross_device_independence_witness :
    hub_index Cfg.sample 5 ≠ hub_index Cfg.sample 6 ∧
    independent_of Cfg.sample 5 6 (World.two_port_hub 2)
      (port_get_status_complete Cfg.sample Env.accept_all
        (sample_xfer xfer_result_t.SUCCESS 1 Callback.port_get_status_complete)
        (World.two_port_hub 2)) :=
  have h := cross_device_independence Cfg.sample Env.accept_all 5 6
    (sample_xfer xfer_result_t.SUCCESS 1 Callback.port_get_status_complete)
    (World.two_port_hub 2) 0 0 0x81 1 16 (sample_itf_desc 0) (sample_ep_desc 0x81)
    xfer_result_t.SUCCESS (by decide) (by decide) (by decide) (by decide) (by decide) rfl
  ⟨h.1.2.2.2.2, h.2.2.2.2.2.2.2.2.1⟩

end Hub
